import Mathlib

/-!
# ArduinoIoTCloud: connection supervisor, sync engine and retransmit buffer

A shallow embedding of `ArduinoIoTCloudTCP` (src/src/ArduinoIoTCloudTCP.cpp),
of the connection management, tick and message dispatch of the older
`ArduinoIoTCloudClass` (src/src/ArduinoIoTCloud.cpp), and of
`TimeService::getTime` (src/src/utility/TimeService.cpp).

The engine's member variables are a record; every member function is a state
transformer on a system state made of

* the engine record,
* the state of the external collaborators (MQTT client, property container
  with its CBOR codec, OTA logic, connection handler, user callbacks), kept
  abstract as a type `W` with one operation per external call, and
* a log of the external calls performed so far, in call order.

Debug prints (`DBG_INFO`, `printConnectionStatus`) have no effect on any of
these and are left out.
-/

namespace ArduinoIoTCloud

/-- A byte string; each element stands for one `uint8_t`. -/
abbrev Bytes := List Nat

/-- The connection state of the cloud session (`ArduinoIoTConnectionStatus`). -/
inductive ArduinoIoTConnectionStatus where
  | IDLE
  | CONNECTING
  | CONNECTED
  | RECONNECTING
  | DISCONNECTED
  | ERROR
  deriving DecidableEq, Repr

/-- The property synchronisation state (`ArduinoIoTSynchronizationStatus`). -/
inductive ArduinoIoTSynchronizationStatus where
  | SYNC_STATUS_SYNCHRONIZED
  | SYNC_STATUS_WAIT_FOR_CLOUD_VALUES
  | SYNC_STATUS_VALUES_PROCESSED
  deriving DecidableEq, Repr

/-- The host-facing events (`ArduinoIoTCloudEvent`). -/
inductive ArduinoIoTCloudEvent where
  | SYNC
  | CONNECT
  | DISCONNECT
  deriving DecidableEq, Repr

/-- The state of the physical link as reported by the connection handler
(`NetworkConnectionState` of the connection-handler library). The engine only
ever compares it with `CONNECTED`. -/
inductive NetworkConnectionState where
  | INIT
  | CONNECTING
  | CONNECTED
  | DISCONNECTING
  | DISCONNECTED
  | CLOSED
  | ERROR
  deriving DecidableEq, Repr

open ArduinoIoTConnectionStatus ArduinoIoTSynchronizationStatus

/-- The constant `TIMEOUT_FOR_LASTVALUES_SYNC` (ArduinoIoTCloudTCP.cpp:57). -/
def TIMEOUT_FOR_LASTVALUES_SYNC : Nat := 10000

/-- The constant `CONNECT_SUCCESS` (ArduinoIoTCloudTCP.cpp:59). -/
def CONNECT_SUCCESS : Int := 1

/-- The constant `CONNECT_FAILURE` (ArduinoIoTCloudTCP.cpp:60). -/
def CONNECT_FAILURE : Int := 0

/-- The constant `CONNECT_FAILURE_SUBSCRIBE` (ArduinoIoTCloudTCP.cpp:61). -/
def CONNECT_FAILURE_SUBSCRIBE : Int := -1

/-- The call site of a `write`: the replay of the cached payload in `update`,
the publication in `sendPropertiesToCloud`, or `requestLastValue`. It is a
label carried by the log only; no code depends on it. -/
inductive WriteOrigin where
  | retransmit
  | properties
  | lastValues
  deriving DecidableEq, Repr

/-- One external call, as recorded in the log. A `write` entry also records the
value `_syncStatus` had when the call was made. -/
inductive Action where
  | otaUpdate
  | otaData (bytes : Bytes)
  | phyCheck
  | mqttConnect (address : String) (port : Nat)
  | mqttSubscribe (topic : String)
  | mqttConnected
  | mqttStop
  | mqttPoll
  | write (origin : WriteOrigin) (sync : ArduinoIoTSynchronizationStatus)
      (topic : String) (data : Bytes)
  | encode
  | decode (bytes : Bytes) (isShadow : Bool)
  | updateTimestamp
  | millis
  | event (e : ArduinoIoTCloudEvent)
  | appendStdin (bytes : Bytes)
  | syncCompleteCallback
  | serialBegin (baud : Nat)
  | serialPrintln (line : String)
  deriving DecidableEq, Repr

/-- The external collaborators of the engine, over an abstract collaborator
state `W`. Each field is one external call: it reads and updates `W` and
returns what the engine sees of the result.

* `mqttConnect`, `mqttConnected`, `mqttBeginMessage`, `mqttWrite`,
  `mqttEndMessage` return the truth value the engine tests;
* `mqttSubscribe` returns the `int` the engine compares with 0;
* `mqttPoll` returns the messages (topic, payload) for which the client
  invokes the `onMessage` callback during this poll;
* `encode` is `CBOREncoder::encode` on the property container: whether it
  returned `CborNoError`, and the encoded bytes (`bytes_encoded` is their
  number);
* `otaUpdate` returns the `OTAError` as an integer.

`OTA_ENABLED` is the compile-time switch of the same name and
`MQTT_TRANSMIT_BUFFER_SIZE` the compile-time size of the transmit buffers. -/
structure Collaborators (W : Type) where
  OTA_ENABLED : Bool
  MQTT_TRANSMIT_BUFFER_SIZE : Nat
  otaUpdate : W → Int × W
  otaData : Bytes → W → W
  connectionCheck : W → NetworkConnectionState × W
  mqttConnect : String → Nat → W → Bool × W
  mqttSubscribe : String → W → Int × W
  mqttConnected : W → Bool × W
  mqttStop : W → W
  mqttPoll : W → List (String × Bytes) × W
  mqttBeginMessage : String → Nat → W → Bool × W
  mqttWrite : Bytes → W → Bool × W
  mqttEndMessage : W → Bool × W
  encode : W → (Bool × Bytes) × W
  decode : Bytes → Bool → W → W
  updateTimestampOnLocallyChangedProperties : W → W
  millis : W → Nat × W
  execCallback : ArduinoIoTCloudEvent → W → W

/-- The member variables of `ArduinoIoTCloudTCP` the engine reads or writes. -/
structure ArduinoIoTCloudTCP where
  _iot_status : ArduinoIoTConnectionStatus
  _syncStatus : ArduinoIoTSynchronizationStatus
  _lastSyncRequestTickTime : Nat
  _mqtt_data_buf : Bytes
  _mqtt_data_len : Nat
  _mqtt_data_request_retransmit : Bool
  _brokerAddress : String
  _brokerPort : Nat
  _stdinTopic : String
  _stdoutTopic : String
  _shadowTopicOut : String
  _shadowTopicIn : String
  _dataTopicOut : String
  _dataTopicIn : String
  _ota_topic_in : String
  _ota_error : Int
  deriving DecidableEq, Repr

/-- The system state: engine, collaborators, and the log of external calls. -/
structure Sys (W : Type) where
  eng : ArduinoIoTCloudTCP
  world : W
  log : List Action

variable {W : Type}

/-- Number of times event `e` was fired in a log. -/
def fired (e : ArduinoIoTCloudEvent) (l : List Action) : Nat :=
  l.count (Action.event e)

/-- The call `execCloudEventCallback(event)`: invoke the registered handler. -/
def execCloudEventCallback (c : Collaborators W) (e : ArduinoIoTCloudEvent)
    (s : Sys W) : Sys W :=
  { s with world := c.execCallback e s.world, log := s.log ++ [Action.event e] }

/-- The call `_mqttClient.subscribe(topic)`. -/
def subscribe (c : Collaborators W) (topic : String) (s : Sys W) : Int × Sys W :=
  let r := c.mqttSubscribe topic s.world
  (r.1, { s with world := r.2, log := s.log ++ [Action.mqttSubscribe topic] })

/-- Member function `ArduinoIoTCloudTCP::connect` (ArduinoIoTCloudTCP.cpp:265-280). -/
def connect (c : Collaborators W) (s : Sys W) : Int × Sys W :=
  let r := c.mqttConnect s.eng._brokerAddress s.eng._brokerPort s.world
  let s1 : Sys W :=
    { s with
      world := r.2
      log := s.log ++ [Action.mqttConnect s.eng._brokerAddress s.eng._brokerPort] }
  if !r.1 then (CONNECT_FAILURE, s1) else
  let r2 := subscribe c s1.eng._stdinTopic s1
  if r2.1 = 0 then (CONNECT_FAILURE_SUBSCRIBE, r2.2) else
  let r3 := subscribe c r2.2.eng._dataTopicIn r2.2
  if r3.1 = 0 then (CONNECT_FAILURE_SUBSCRIBE, r3.2) else
  let r4 := subscribe c r3.2.eng._ota_topic_in r3.2
  if r4.1 = 0 then (CONNECT_FAILURE_SUBSCRIBE, r4.2) else
  if r4.2.eng._shadowTopicIn ≠ "" then
    let r5 := subscribe c r4.2.eng._shadowTopicIn r4.2
    if r5.1 = 0 then (CONNECT_FAILURE_SUBSCRIBE, r5.2) else
    let s5 := r5.2
    (CONNECT_SUCCESS,
      { s5 with eng := { s5.eng with _syncStatus := SYNC_STATUS_WAIT_FOR_CLOUD_VALUES,
                                     _lastSyncRequestTickTime := 0 } })
  else (CONNECT_SUCCESS, r4.2)

/-- Member function `ArduinoIoTCloudTCP::reconnect` (ArduinoIoTCloudTCP.cpp:253-259). -/
def reconnect (c : Collaborators W) (s : Sys W) : Int × Sys W :=
  let r := c.mqttConnected s.world
  let s1 : Sys W := { s with world := r.2, log := s.log ++ [Action.mqttConnected] }
  let s2 : Sys W := if r.1 then
      { s1 with world := c.mqttStop s1.world, log := s1.log ++ [Action.mqttStop] }
    else s1
  connect c s2

/-- Member function `ArduinoIoTCloudTCP::checkCloudConnection` (ArduinoIoTCloudTCP.cpp:348-402).
The first component of the result is the returned `_iot_status`. `pre` is the
state after the `switch`, `next` the value of `next_iot_status` there. -/
def checkCloudConnection (c : Collaborators W) (s : Sys W) :
    ArduinoIoTConnectionStatus × Sys W :=
  let sw : ArduinoIoTConnectionStatus × Sys W :=
    match s.eng._iot_status with
    | IDLE => (CONNECTING, s)
    | ERROR => (RECONNECTING, s)
    | DISCONNECTED => (RECONNECTING, s)
    | CONNECTING =>
      let r := connect c s
      if r.1 = CONNECT_SUCCESS then (CONNECTED, r.2)
      else (s.eng._iot_status, r.2)
    | RECONNECTING =>
      let r := reconnect c s
      if r.1 = CONNECT_SUCCESS then (CONNECTED, r.2)
      else (s.eng._iot_status, r.2)
    | CONNECTED =>
      let r := c.mqttConnected s.world
      let s1 : Sys W := { s with world := r.2, log := s.log ++ [Action.mqttConnected] }
      if !r.1 then
        (DISCONNECTED, { s1 with eng := { s1.eng with _mqtt_data_request_retransmit := true } })
      else (s.eng._iot_status, s1)
  let next := sw.1
  let pre := sw.2
  if next ≠ pre.eng._iot_status then
    let s2 :=
      if next = DISCONNECTED then execCloudEventCallback c ArduinoIoTCloudEvent.DISCONNECT pre
      else if next = CONNECTED then execCloudEventCallback c ArduinoIoTCloudEvent.CONNECT pre
      else pre
    (next, { s2 with eng := { s2.eng with _iot_status := next } })
  else (pre.eng._iot_status, pre)

/-- Member function `ArduinoIoTCloudTCP::write` (ArduinoIoTCloudTCP.cpp:404-414): publish the
first `length` bytes of `data` on `topic`. The log entry is made on entry, so
it records the publish attempt whatever the transport answers. -/
def write (c : Collaborators W) (origin : WriteOrigin) (topic : String)
    (data : Bytes) (length : Nat) (s : Sys W) : Int × Sys W :=
  let s0 : Sys W :=
    { s with log := s.log ++ [Action.write origin s.eng._syncStatus topic (data.take length)] }
  let b := c.mqttBeginMessage topic length s0.world
  if b.1 then
    let w := c.mqttWrite (data.take length) b.2
    if w.1 then
      let e := c.mqttEndMessage w.2
      if e.1 then (1, { s0 with world := e.2 }) else (0, { s0 with world := e.2 })
    else (0, { s0 with world := w.2 })
  else (0, { s0 with world := b.2 })

/-- The call `memcpy(dst, src, n)` on byte arrays held as lists: the first `n` bytes of
`dst` are replaced by the first `n` bytes of `src`. -/
def memcpy (dst src : Bytes) (n : Nat) : Bytes :=
  src.take n ++ dst.drop n

/-- Member function `ArduinoIoTCloudTCP::sendPropertiesToCloud` (ArduinoIoTCloudTCP.cpp:321-337). -/
def sendPropertiesToCloud (c : Collaborators W) (s : Sys W) : Sys W :=
  let r := c.encode s.world
  let s1 : Sys W := { s with world := r.2, log := s.log ++ [Action.encode] }
  let bytes_encoded := r.1.2.length
  if r.1.1 then
    if bytes_encoded > 0 then
      let e1 : ArduinoIoTCloudTCP := { s1.eng with _mqtt_data_len := bytes_encoded }
      let e2 : ArduinoIoTCloudTCP :=
        { e1 with _mqtt_data_buf := memcpy e1._mqtt_data_buf r.1.2 e1._mqtt_data_len }
      let s2 : Sys W := { s1 with eng := e2 }
      (write c WriteOrigin.properties s2.eng._dataTopicOut s2.eng._mqtt_data_buf
        s2.eng._mqtt_data_len s2).2
    else s1
  else s1

/-- The constant `CBOR_REQUEST_LAST_VALUE_MSG` (ArduinoIoTCloudTCP.cpp:344). -/
def CBOR_REQUEST_LAST_VALUE_MSG : Bytes :=
  [0x81, 0xA2, 0x00, 0x63, 0x72, 0x3A, 0x6D, 0x03, 0x6D, 0x67, 0x65, 0x74,
   0x4C, 0x61, 0x73, 0x74, 0x56, 0x61, 0x6C, 0x75, 0x65, 0x73]

/-- Member function `ArduinoIoTCloudTCP::requestLastValue` (ArduinoIoTCloudTCP.cpp:339-346). -/
def requestLastValue (c : Collaborators W) (s : Sys W) : Sys W :=
  (write c WriteOrigin.lastValues s.eng._shadowTopicOut CBOR_REQUEST_LAST_VALUE_MSG
    CBOR_REQUEST_LAST_VALUE_MSG.length s).2

/-- The call `CBORDecoder::decode(_property_container, bytes, length, isShadow)`. -/
def decode (c : Collaborators W) (bytes : Bytes) (isShadow : Bool) (s : Sys W) : Sys W :=
  { s with world := c.decode bytes isShadow s.world,
           log := s.log ++ [Action.decode bytes isShadow] }

/-- First `if` of `handleMessage` (lines 306-308): a message on the data-in
topic is decoded into the property container. -/
def onDataIn (c : Collaborators W) (topic : String) (bytes : Bytes) (s : Sys W) : Sys W :=
  if s.eng._dataTopicIn = topic then decode c bytes false s else s

/-- Second `if` of `handleMessage` (lines 309-313): a message on the shadow-in
topic received while waiting for the cloud values. -/
def onShadowIn (c : Collaborators W) (topic : String) (bytes : Bytes) (s : Sys W) : Sys W :=
  if s.eng._shadowTopicIn = topic ∧ s.eng._syncStatus = SYNC_STATUS_WAIT_FOR_CLOUD_VALUES then
    let a := decode c bytes true s
    let b := sendPropertiesToCloud c a
    { b with eng := { b.eng with _syncStatus := SYNC_STATUS_VALUES_PROCESSED } }
  else s

/-- Third `if` of `handleMessage` (lines 314-318), compiled in when
`OTA_ENABLED`: a message on the update-control topic goes to the OTA logic. -/
def onOtaIn (c : Collaborators W) (topic : String) (bytes : Bytes) (s : Sys W) : Sys W :=
  if c.OTA_ENABLED then
    if s.eng._ota_topic_in = topic then
      { s with world := c.otaData bytes s.world, log := s.log ++ [Action.otaData bytes] }
    else s
  else s

/-- Member function `ArduinoIoTCloudTCP::handleMessage` (ArduinoIoTCloudTCP.cpp:296-319), for a
received message with topic `topic` and payload `bytes`: its three `if`
statements one after the other. -/
def handleMessage (c : Collaborators W) (topic : String) (bytes : Bytes)
    (s : Sys W) : Sys W :=
  onOtaIn c topic bytes (onShadowIn c topic bytes (onDataIn c topic bytes s))

/-- Modelled from the spec: `checkPhyConnection` is a member of the base class
whose definition is not among the sources. Spec 4.1: "an external
physical-link check gates all MQTT activity; if the link is down, force state
to DISCONNECTED (firing DISCONNECT once if previously CONNECTED) and skip all
session activity this tick." The result is the link state the check reports. -/
def checkPhyConnection (c : Collaborators W) (s : Sys W) :
    NetworkConnectionState × Sys W :=
  let r := c.connectionCheck s.world
  let s1 : Sys W := { s with world := r.2, log := s.log ++ [Action.phyCheck] }
  if r.1 ≠ NetworkConnectionState.CONNECTED then
    let s2 : Sys W :=
      if s1.eng._iot_status = CONNECTED then
        execCloudEventCallback c ArduinoIoTCloudEvent.DISCONNECT s1
      else s1
    (r.1, { s2 with eng := { s2.eng with _iot_status := DISCONNECTED } })
  else (r.1, s1)

/-- The `unsigned long` difference `a - b` (32 bits wide). -/
def ulongSub (a b : Nat) : Nat :=
  (a % 2 ^ 32 + 2 ^ 32 - b % 2 ^ 32) % 2 ^ 32

/-- Member function `ArduinoIoTCloudTCP::update` (ArduinoIoTCloudTCP.cpp:177-229): one tick.
The messages returned by `mqttPoll` are passed to `handleMessage` one after
the other, as the `onMessage` callback does during `poll`. -/
def update (c : Collaborators W) (s : Sys W) : Sys W :=
  let s0 : Sys W :=
    if c.OTA_ENABLED then
      let r := c.otaUpdate s.world
      { eng := { s.eng with _ota_error := r.1 }, world := r.2,
        log := s.log ++ [Action.otaUpdate] }
    else s
  let p := checkPhyConnection c s0
  if p.1 ≠ NetworkConnectionState.CONNECTED then p.2 else
  let q := checkCloudConnection c p.2
  if q.1 ≠ CONNECTED then q.2 else
  let s1 : Sys W :=
    { q.2 with world := c.updateTimestampOnLocallyChangedProperties q.2.world,
               log := q.2.log ++ [Action.updateTimestamp] }
  let s2 : Sys W :=
    if s1.eng._mqtt_data_request_retransmit = true ∧ s1.eng._mqtt_data_len > 0 then
      let w := write c WriteOrigin.retransmit s1.eng._dataTopicOut s1.eng._mqtt_data_buf
        s1.eng._mqtt_data_len s1
      { w.2 with eng := { w.2.eng with _mqtt_data_request_retransmit := false } }
    else s1
  let r := c.mqttPoll s2.world
  let s3 : Sys W :=
    r.1.foldl (fun acc m => handleMessage c m.1 m.2 acc)
      { s2 with world := r.2, log := s2.log ++ [Action.mqttPoll] }
  match s3.eng._syncStatus with
  | SYNC_STATUS_SYNCHRONIZED => sendPropertiesToCloud c s3
  | SYNC_STATUS_WAIT_FOR_CLOUD_VALUES =>
    let m1 := c.millis s3.world
    let s4 : Sys W := { s3 with world := m1.2, log := s3.log ++ [Action.millis] }
    if ulongSub m1.1 s4.eng._lastSyncRequestTickTime > TIMEOUT_FOR_LASTVALUES_SYNC then
      let s5 := requestLastValue c s4
      let m2 := c.millis s5.world
      { eng := { s5.eng with _lastSyncRequestTickTime := m2.1 % 2 ^ 32 }, world := m2.2,
        log := s5.log ++ [Action.millis] }
    else s4
  | SYNC_STATUS_VALUES_PROCESSED =>
    let s4 := execCloudEventCallback c ArduinoIoTCloudEvent.SYNC s3
    { s4 with eng := { s4.eng with _syncStatus := SYNC_STATUS_SYNCHRONIZED } }

/-- The state after `n` connection ticks (`checkCloudConnection` called `n`
times). -/
def cloudTicks (c : Collaborators W) : Nat → Sys W → Sys W
  | 0, s => s
  | n + 1, s => (checkCloudConnection c (cloudTicks c n s)).2

/-- The state after `n` calls of `update`. -/
def updates (c : Collaborators W) : Nat → Sys W → Sys W
  | 0, s => s
  | n + 1, s => update c (updates c n s)

/-! ### The stages of `update`

`update` is the composition of the five stages below (`update_eq_stages`);
they name the intermediate states the statements about a tick refer to. -/

/-- Stage 1 of `update`: the OTA logic is spun (lines 179-186). -/
def otaStage (c : Collaborators W) (s : Sys W) : Sys W :=
  if c.OTA_ENABLED then
    let r := c.otaUpdate s.world
    { eng := { s.eng with _ota_error := r.1 }, world := r.2,
      log := s.log ++ [Action.otaUpdate] }
  else s

/-- Stage 3 of `update`: the dirty scan and the replay of the cached payload
(lines 198-203), entered when both connection checks report CONNECTED. -/
def retransmitStage (c : Collaborators W) (s : Sys W) : Sys W :=
  let s1 : Sys W :=
    { s with world := c.updateTimestampOnLocallyChangedProperties s.world,
             log := s.log ++ [Action.updateTimestamp] }
  if s1.eng._mqtt_data_request_retransmit = true ∧ s1.eng._mqtt_data_len > 0 then
    let w := write c WriteOrigin.retransmit s1.eng._dataTopicOut s1.eng._mqtt_data_buf
      s1.eng._mqtt_data_len s1
    { w.2 with eng := { w.2.eng with _mqtt_data_request_retransmit := false } }
  else s1

/-- Stage 4 of `update`: `_mqttClient.poll()` with the message dispatch it
triggers (line 206). -/
def pollStage (c : Collaborators W) (s : Sys W) : Sys W :=
  let r := c.mqttPoll s.world
  r.1.foldl (fun acc m => handleMessage c m.1 m.2 acc)
    { s with world := r.2, log := s.log ++ [Action.mqttPoll] }

/-- Stage 5 of `update`: the `switch (_syncStatus)` (lines 208-228). -/
def syncStage (c : Collaborators W) (s : Sys W) : Sys W :=
  match s.eng._syncStatus with
  | SYNC_STATUS_SYNCHRONIZED => sendPropertiesToCloud c s
  | SYNC_STATUS_WAIT_FOR_CLOUD_VALUES =>
    let m1 := c.millis s.world
    let s4 : Sys W := { s with world := m1.2, log := s.log ++ [Action.millis] }
    if ulongSub m1.1 s4.eng._lastSyncRequestTickTime > TIMEOUT_FOR_LASTVALUES_SYNC then
      let s5 := requestLastValue c s4
      let m2 := c.millis s5.world
      { eng := { s5.eng with _lastSyncRequestTickTime := m2.1 % 2 ^ 32 }, world := m2.2,
        log := s5.log ++ [Action.millis] }
    else s4
  | SYNC_STATUS_VALUES_PROCESSED =>
    let s4 := execCloudEventCallback c ArduinoIoTCloudEvent.SYNC s
    { s4 with eng := { s4.eng with _syncStatus := SYNC_STATUS_SYNCHRONIZED } }

/-- Stages 1 and 2 of `update`: the state in which `checkCloudConnection` is
entered, after the OTA stage and the physical-link check. -/
def linkStage (c : Collaborators W) (s : Sys W) : NetworkConnectionState × Sys W :=
  checkPhyConnection c (otaStage c s)

/-- The cached payload: the first `_mqtt_data_len` bytes of `_mqtt_data_buf`,
which is what a replay publishes. -/
def ArduinoIoTCloudTCP.cached (e : ArduinoIoTCloudTCP) : Bytes :=
  e._mqtt_data_buf.take e._mqtt_data_len

/-- Whether a log entry is a replay of the cached payload. -/
def Action.isReplay : Action → Bool
  | Action.write WriteOrigin.retransmit _ _ _ => true
  | _ => false

/-- Whether a log entry is a publish attempt (a call of `write`). -/
def Action.isWrite : Action → Bool
  | Action.write _ _ _ _ => true
  | _ => false

/-- Number of replays of the cached payload in a log. -/
def replays (l : List Action) : Nat :=
  l.countP Action.isReplay

/-- The state `t` is reached from `s` by external calls that all satisfy `Q`:
the log of `t` is the log of `s` followed by entries satisfying `Q`. -/
def Extends (Q : Action → Prop) (s t : Sys W) : Prop :=
  ∃ d, t.log = s.log ++ d ∧ ∀ a ∈ d, Q a

/-- The engine `e2` has the cache (buffer and length) and the data-out topic of
the engine `e1`. -/
def SameCache (e1 e2 : ArduinoIoTCloudTCP) : Prop :=
  e2._mqtt_data_buf = e1._mqtt_data_buf ∧ e2._mqtt_data_len = e1._mqtt_data_len ∧
    e2._dataTopicOut = e1._dataTopicOut

/-- An external call that publishes nothing and encodes nothing: neither a
`write` nor a call of the encoder. -/
def Action.quiet (a : Action) : Prop :=
  a.isWrite = false ∧ a ≠ Action.encode

/-- If the entry is a publish attempt, it is a publication of freshly encoded
properties on `topic` made while `_syncStatus` is WAIT_FOR_CLOUD_VALUES. -/
def Action.republishOn (topic : String) (a : Action) : Prop :=
  ∀ o sy t d, a = Action.write o sy t d →
    o = WriteOrigin.properties ∧ sy = SYNC_STATUS_WAIT_FOR_CLOUD_VALUES ∧ t = topic

/-- If the entry is a publish attempt, it is either a publication of freshly
encoded properties on `topic` made while `_syncStatus` is SYNCHRONIZED, or the
shadow request, made while `_syncStatus` is WAIT_FOR_CLOUD_VALUES. -/
def Action.switchPublishOn (topic : String) (a : Action) : Prop :=
  ∀ o sy t d, a = Action.write o sy t d →
    (o = WriteOrigin.properties ∧ sy = SYNC_STATUS_SYNCHRONIZED ∧ t = topic) ∨
    (o = WriteOrigin.lastValues ∧ sy = SYNC_STATUS_WAIT_FOR_CLOUD_VALUES ∧
      d = CBOR_REQUEST_LAST_VALUE_MSG)

/-- If the entry is a publish attempt, it was not made while `_syncStatus` is
VALUES_PROCESSED, and unless it is the shadow request it went to `topic`. -/
def Action.publishOutsideProcessed (topic : String) (a : Action) : Prop :=
  ∀ o sy t d, a = Action.write o sy t d →
    sy ≠ SYNC_STATUS_VALUES_PROCESSED ∧ (o ≠ WriteOrigin.lastValues → t = topic)

/-- C10 as the specification states it, read on a log: every publication on
`topic` was made while SyncState was SYNCHRONIZED. -/
def spec_publishedOnlyWhenSynchronized (topic : String) (l : List Action) : Prop :=
  ∀ o sy d, Action.write o sy topic d ∈ l → sy = SYNC_STATUS_SYNCHRONIZED

/-! ### The subscription sequence as the specification words it -/

/-- The topics `connect` subscribes to, in order: stdin, data-in,
update-control, and shadow-in when it is not empty. -/
def spec_subscriptionTopics (e : ArduinoIoTCloudTCP) : List String :=
  [e._stdinTopic, e._dataTopicIn, e._ota_topic_in] ++
    (if e._shadowTopicIn ≠ "" then [e._shadowTopicIn] else [])

/-- Subscribe to the topics in list order and stop at the first subscription
that fails; the result says whether every attempted subscription succeeded. -/
def spec_subscribeInOrder (c : Collaborators W) : List String → Sys W → Bool × Sys W
  | [], s => (true, s)
  | t :: ts, s =>
    let r := subscribe c t s
    if r.1 = 0 then (false, r.2) else spec_subscribeInOrder c ts r.2

/-! ### Concrete collaborators

A scripted environment: the collaborator state is the number of physical-link
checks made so far, that is the index of the current `update` tick (1, 2, ...),
and every answer is a function of that index. -/

/-- The answers of a scripted environment, per tick index. -/
structure Script where
  link : Nat → NetworkConnectionState
  opens : Nat → Bool
  subscribed : Nat → String → Int
  connected : Nat → Bool
  inbox : Nat → List (String × Bytes)
  encoded : Nat → Bool × Bytes
  clock : Nat → Nat

/-- The collaborators that answer as the script says. Publishing always
succeeds, OTA is compiled out. -/
def Script.collaborators (sc : Script) : Collaborators Nat :=
  { OTA_ENABLED := false
    MQTT_TRANSMIT_BUFFER_SIZE := 256
    otaUpdate := fun w => (0, w)
    otaData := fun _ w => w
    connectionCheck := fun w => (sc.link (w + 1), w + 1)
    mqttConnect := fun _ _ w => (sc.opens w, w)
    mqttSubscribe := fun t w => (sc.subscribed w t, w)
    mqttConnected := fun w => (sc.connected w, w)
    mqttStop := fun w => w
    mqttPoll := fun w => (sc.inbox w, w)
    mqttBeginMessage := fun _ _ w => (true, w)
    mqttWrite := fun _ w => (true, w)
    mqttEndMessage := fun w => (true, w)
    encode := fun w => (sc.encoded w, w)
    decode := fun _ _ w => w
    updateTimestampOnLocallyChangedProperties := fun w => w
    millis := fun w => (sc.clock w, w)
    execCallback := fun _ w => w }

/-- A broker that refuses the first `n` session opens and accepts every later
one; the collaborator state counts the opens made so far. Every subscription
succeeds. -/
def brokerUpAfter (n : Nat) : Collaborators Nat :=
  { OTA_ENABLED := false
    MQTT_TRANSMIT_BUFFER_SIZE := 256
    otaUpdate := fun w => (0, w)
    otaData := fun _ w => w
    connectionCheck := fun w => (NetworkConnectionState.CONNECTED, w)
    mqttConnect := fun _ _ w => (decide (n ≤ w), w + 1)
    mqttSubscribe := fun _ w => (1, w)
    mqttConnected := fun w => (true, w)
    mqttStop := fun w => w
    mqttPoll := fun w => ([], w)
    mqttBeginMessage := fun _ _ w => (true, w)
    mqttWrite := fun _ w => (true, w)
    mqttEndMessage := fun w => (true, w)
    encode := fun w => ((true, []), w)
    decode := fun _ _ w => w
    updateTimestampOnLocallyChangedProperties := fun w => w
    millis := fun w => (0, w)
    execCallback := fun _ w => w }

/-- The member values set by the constructor (ArduinoIoTCloudTCP.cpp:76-102).
The initialiser of `_iot_status` is in the base class, which is not among the
sources; it is taken to be `IDLE`, the state the connection state machine of
the specification starts from. `size` is `MQTT_TRANSMIT_BUFFER_SIZE`; the
broker address and port are those later passed to `begin`. -/
def ArduinoIoTCloudTCP.ctor (size : Nat) (brokerAddress : String) (brokerPort : Nat) :
    ArduinoIoTCloudTCP :=
  { _iot_status := IDLE
    _syncStatus := SYNC_STATUS_SYNCHRONIZED
    _lastSyncRequestTickTime := 0
    _mqtt_data_buf := List.replicate size 0
    _mqtt_data_len := 0
    _mqtt_data_request_retransmit := false
    _brokerAddress := brokerAddress
    _brokerPort := brokerPort
    _stdinTopic := ""
    _stdoutTopic := ""
    _shadowTopicOut := ""
    _shadowTopicIn := ""
    _dataTopicOut := ""
    _dataTopicIn := ""
    _ota_topic_in := ""
    _ota_error := 0 }

/-- The engine of device "ABC" bound to thing "T1" once `begin` has set the
topics: the constructor values with the seven topic strings filled in. -/
def engineWithThing : ArduinoIoTCloudTCP :=
  { ArduinoIoTCloudTCP.ctor 256 "mqtts-sa.iot.arduino.cc" 8883 with
    _stdinTopic := "/a/d/ABC/s/i"
    _stdoutTopic := "/a/d/ABC/s/o"
    _shadowTopicOut := "/a/t/T1/shadow/o"
    _shadowTopicIn := "/a/t/T1/shadow/i"
    _dataTopicOut := "/a/t/T1/e/o"
    _dataTopicIn := "/a/t/T1/e/i"
    _ota_topic_in := "/a/d/ABC/ota/i" }

/-- The engine of device "ABC" with no thing bound once `begin` has set the
topics: the shadow topics are empty. -/
def engineNoThing : ArduinoIoTCloudTCP :=
  { ArduinoIoTCloudTCP.ctor 256 "mqtts-sa.iot.arduino.cc" 8883 with
    _stdinTopic := "/a/d/ABC/s/i"
    _stdoutTopic := "/a/d/ABC/s/o"
    _dataTopicOut := "/a/d/ABC/e/o"
    _dataTopicIn := "/a/d/ABC/e/i"
    _ota_topic_in := "/a/d/ABC/ota/i" }

/-- A session with a thing bound: the link is always up, the broker accepts
every open and subscription; the shadow arrives during the poll of tick 2 and
the properties then encode to `[1, 2, 3]`; the transport reports the session
lost on tick 3. -/
def dropScript : Script :=
  { link := fun _ => NetworkConnectionState.CONNECTED
    opens := fun _ => true
    subscribed := fun _ _ => 1
    connected := fun t => decide (t ≠ 3)
    inbox := fun t => if t = 2 then [("/a/t/T1/shadow/i", [9])] else []
    encoded := fun t => if t = 2 then (true, [1, 2, 3]) else (true, [])
    clock := fun t => 1000 * t }

/-- A session with no thing bound in which nothing is encoded before the
transport reports the session lost on tick 3; on tick 5, after the reconnect,
the properties encode to `[7, 8]`. -/
def earlyDropScript : Script :=
  { link := fun _ => NetworkConnectionState.CONNECTED
    opens := fun _ => true
    subscribed := fun _ _ => 1
    connected := fun t => decide (t ≠ 3)
    inbox := fun _ => []
    encoded := fun t => if t = 5 then (true, [7, 8]) else (true, [])
    clock := fun t => 1000 * t }

/-- The system at power-up for a given engine: collaborator state 0 (no tick
made yet), empty log. -/
def powerUp (e : ArduinoIoTCloudTCP) : Sys Nat :=
  { eng := e, world := 0, log := [] }

/-- A device without thing that has just entered CONNECTING. -/
def connectingNoThing : Sys Nat :=
  powerUp { engineNoThing with _iot_status := CONNECTING }

/-- The state in which `checkCloudConnection` is entered on tick 3 of the
`dropScript` session (started at power-up with a thing bound), with the link
state reported on that tick. -/
def droppedSession : Sys Nat × NetworkConnectionState :=
  let r := linkStage dropScript.collaborators
    (updates dropScript.collaborators 2 (powerUp engineWithThing))
  (r.2, r.1)

/-- The `dropScript` session after tick 2: CONNECTED, with the payload
`[1, 2, 3]` stored in the cache by `sendPropertiesToCloud`. -/
def sessionWithPayload : Sys Nat :=
  updates dropScript.collaborators 2 (powerUp engineWithThing)

/-! ### `begin` and the topic names -/

/-- Modelled from the spec: `getTopic_stdin` is an inline member of the class
header, which is not among the sources. Spec 4.3: stdin `/a/d/D/s/i`. -/
def getTopic_stdin (D : String) : String :=
  "/a/d/" ++ D ++ "/s/i"

/-- Modelled from the spec: `getTopic_stdout` is an inline member of the class
header, which is not among the sources. Spec 4.3: stdout `/a/d/D/s/o`. -/
def getTopic_stdout (D : String) : String :=
  "/a/d/" ++ D ++ "/s/o"

/-- Modelled from the spec: `getTopic_shadowout` is an inline member of the
class header, which is not among the sources. Spec 4.3: thing bound,
shadow-out `/a/t/T/shadow/o`; spec 3: "shadow topics are empty when no thing
binding exists". -/
def getTopic_shadowout (T : String) : String :=
  if T = "" then "" else "/a/t/" ++ T ++ "/shadow/o"

/-- Modelled from the spec: `getTopic_shadowin` is an inline member of the
class header, which is not among the sources. Spec 4.3: thing bound,
shadow-in `/a/t/T/shadow/i`; spec 3: "shadow topics are empty when no thing
binding exists". -/
def getTopic_shadowin (T : String) : String :=
  if T = "" then "" else "/a/t/" ++ T ++ "/shadow/i"

/-- Modelled from the spec: `getTopic_dataout` is an inline member of the class
header, which is not among the sources. Spec 4.3: no thing bound, data-out
`/a/d/D/e/o`; thing bound, data-out `/a/t/T/e/o`. -/
def getTopic_dataout (D T : String) : String :=
  if T = "" then "/a/d/" ++ D ++ "/e/o" else "/a/t/" ++ T ++ "/e/o"

/-- Modelled from the spec: `getTopic_datain` is an inline member of the class
header, which is not among the sources. Spec 4.3: no thing bound, data-in
`/a/d/D/e/i`; thing bound, data-in `/a/t/T/e/i`. -/
def getTopic_datain (D T : String) : String :=
  if T = "" then "/a/d/" ++ D ++ "/e/i" else "/a/t/" ++ T ++ "/e/i"

/-- Member function `ArduinoIoTCloudTCP::begin(String, uint16_t)`
(ArduinoIoTCloudTCP.cpp:117-175) on the engine record; the first component is
the value returned. `cryptoOk` says whether the three checks of the crypto
element pass (`true` on a board without one), `D` and `T` are what
`getDeviceId()` and `getThingId()` return, and `otaTopic` is what
`getTopic_ota_in()` returns, a header member for which the specification gives
no formula. The configuration calls on the MQTT client, the firmware digest
and the registration of the OTA storage touch no member of the record. -/
def ArduinoIoTCloudTCP.begin (cryptoOk : Bool) (D T otaTopic : String)
    (brokerAddress : String) (brokerPort : Nat) (e : ArduinoIoTCloudTCP) :
    Int × ArduinoIoTCloudTCP :=
  let e1 : ArduinoIoTCloudTCP :=
    { e with _brokerAddress := brokerAddress, _brokerPort := brokerPort }
  if !cryptoOk then (0, e1) else
  (1, { e1 with
        _stdinTopic := getTopic_stdin D
        _stdoutTopic := getTopic_stdout D
        _shadowTopicOut := getTopic_shadowout T
        _shadowTopicIn := getTopic_shadowin T
        _dataTopicOut := getTopic_dataout D T
        _dataTopicIn := getTopic_datain D T
        _ota_topic_in := otaTopic })

/-- C11 as the specification states it: the initial SyncState for thing-id
`T`. -/
def spec_initialSyncState (T : String) : ArduinoIoTSynchronizationStatus :=
  if T = "" then SYNC_STATUS_SYNCHRONIZED else SYNC_STATUS_WAIT_FOR_CLOUD_VALUES

/-! ### The parts of a tick the statements refer to -/

/-- The state of a tick after both connection checks, in which the dirty scan
and the replay are entered when the tick goes that far. -/
def tickEntry (c : Collaborators W) (s : Sys W) : Sys W :=
  (checkCloudConnection c (linkStage c s).2).2

/-- The messages the poll of the tick hands to `handleMessage`, when the tick
goes that far. -/
def polled (c : Collaborators W) (s : Sys W) : List (String × Bytes) :=
  (c.mqttPoll (retransmitStage c (tickEntry c s)).world).1

/-- The state in which the `switch (_syncStatus)` of the tick is entered, when
the tick goes that far. -/
def switchEntry (c : Collaborators W) (s : Sys W) : Sys W :=
  pollStage c (retransmitStage c (tickEntry c s))

/-- For a tick entered in CONNECTED: the link is up and the transport reports
the session connected, so that the tick runs to its end. -/
abbrev Live (c : Collaborators W) (s : Sys W) : Prop :=
  (linkStage c s).1 = NetworkConnectionState.CONNECTED ∧
    (c.mqttConnected (linkStage c s).2.world).1 = true

/-- The calls made by the OTA stage and the two connection checks. -/
def Action.isConnectionCall : Action → Bool
  | Action.otaUpdate => true
  | Action.phyCheck => true
  | Action.mqttConnect _ _ => true
  | Action.mqttSubscribe _ => true
  | Action.mqttConnected => true
  | Action.mqttStop => true
  | Action.event ArduinoIoTCloudEvent.CONNECT => true
  | Action.event ArduinoIoTCloudEvent.DISCONNECT => true
  | _ => false

/-- The calls made by `handleMessage`. -/
def Action.isDispatchCall : Action → Bool
  | Action.decode _ _ => true
  | Action.encode => true
  | Action.otaData _ => true
  | Action.write WriteOrigin.properties _ _ _ => true
  | _ => false

/-- Whether a log entry is a shadow merge: a decode with `isShadow = true`. -/
def Action.isMerge : Action → Bool
  | Action.decode _ true => true
  | _ => false

/-- Whether a log entry is a decode into the property container. -/
def Action.isDecode : Action → Bool
  | Action.decode _ _ => true
  | _ => false

/-- Whether a log entry is a publication of the shadow request. -/
def Action.isRequest : Action → Bool
  | Action.write WriteOrigin.lastValues _ _ _ => true
  | _ => false

/-- Number of shadow merges in a log. -/
def merges (l : List Action) : Nat :=
  l.countP Action.isMerge

/-- Number of publications of the shadow request in a log. -/
def requests (l : List Action) : Nat :=
  l.countP Action.isRequest

/-- The shadow merges made so far plus the one the engine is still ready to
make: 1 while SyncState is WAIT_FOR_CLOUD_VALUES, else 0. -/
def handshakeBudget (s : Sys W) : Nat :=
  merges s.log + (if s.eng._syncStatus = SYNC_STATUS_WAIT_FOR_CLOUD_VALUES then 1 else 0)

/-- A CBOR data item of major type 0 to 5; a text string is kept as its bytes. -/
inductive Cbor where
  | uint (n : Nat)
  | nint (n : Nat)
  | bytes (b : Bytes)
  | text (b : Bytes)
  | array (items : List Cbor)
  | map (entries : List (Cbor × Cbor))

/-- The big-endian number held by a byte string. -/
def beNat (bs : Bytes) : Nat :=
  bs.foldl (fun acc b => acc * 256 + b) 0

/-- The head of a data item: major type, argument, and the bytes after the
head. Additional information 0 to 23 is the argument itself, 24 to 27 announce
an argument of 1, 2, 4 or 8 bytes; other values are not decoded. -/
def cborHead : Bytes → Option (Nat × Nat × Bytes)
  | [] => none
  | b :: rest =>
    let major := b / 32
    let info := b % 32
    if info < 24 then some (major, info, rest)
    else if info < 28 then
      let n := 2 ^ (info - 24)
      if n ≤ rest.length then some (major, beNat (rest.take n), rest.drop n) else none
    else none

/-- Group a list of decoded items into the key-value pairs of a map. -/
def cborPairs : List Cbor → List (Cbor × Cbor)
  | k :: v :: rest => (k, v) :: cborPairs rest
  | _ => []

/-- Decode `n` consecutive data items; the result is the items and the bytes
left over. The first argument bounds the nesting depth plus the number of
items. -/
def cborSeq : Nat → Nat → Bytes → Option (List Cbor × Bytes)
  | _, 0, bs => some ([], bs)
  | 0, _ + 1, _ => none
  | fuel + 1, n + 1, bs =>
    match cborHead bs with
    | none => none
    | some (major, arg, rest) =>
      let item : Option (Cbor × Bytes) :=
        if major = 0 then some (Cbor.uint arg, rest)
        else if major = 1 then some (Cbor.nint arg, rest)
        else if major = 2 then
          if arg ≤ rest.length then some (Cbor.bytes (rest.take arg), rest.drop arg) else none
        else if major = 3 then
          if arg ≤ rest.length then some (Cbor.text (rest.take arg), rest.drop arg) else none
        else if major = 4 then
          match cborSeq fuel arg rest with
          | some (xs, r) => some (Cbor.array xs, r)
          | none => none
        else if major = 5 then
          match cborSeq fuel (2 * arg) rest with
          | some (xs, r) => some (Cbor.map (cborPairs xs), r)
          | none => none
        else none
      match item with
      | none => none
      | some (x, r) =>
        match cborSeq fuel n r with
        | some (xs, r2) => some (x :: xs, r2)
        | none => none

/-- Decode one data item from the front of a byte string; the result is the
item and the bytes that follow it. -/
def cborDecode (bs : Bytes) : Option (Cbor × Bytes) :=
  match cborSeq (2 * bs.length + 1) 1 bs with
  | some ([x], r) => some (x, r)
  | _ => none

/-- The bytes of an ASCII string, which are its UTF-8 encoding. -/
def asciiBytes (s : String) : Bytes :=
  s.toList.map Char.toNat

/-! ### The older monolithic class `ArduinoIoTCloudClass`
(src/src/ArduinoIoTCloud.cpp) -/

/-- The member variables of `ArduinoIoTCloudClass` used by the topic
derivation and the message dispatch. -/
structure ArduinoIoTCloudClass where
  _thing_id : String
  _device_id : String
  _lastSyncRequestTickTime : Nat
  _stdinTopic : String
  _stdoutTopic : String
  _shadowTopicOut : String
  _shadowTopicIn : String
  _dataTopicOut : String
  _dataTopicIn : String
  _otaTopic : String
  _password : String
  _iotStatus : ArduinoIoTConnectionStatus
  _syncStatus : ArduinoIoTSynchronizationStatus
  deriving DecidableEq, Repr

/-- The member values set by the constructor (ArduinoIoTCloud.cpp:60-80). The
constructor does not mention `_iotStatus` and `_syncStatus`; their initial
values, set in the header, are parameters. -/
def ArduinoIoTCloudClass.ctor (iotStatus : ArduinoIoTConnectionStatus)
    (syncStatus : ArduinoIoTSynchronizationStatus) : ArduinoIoTCloudClass :=
  { _thing_id := ""
    _device_id := ""
    _lastSyncRequestTickTime := 0
    _stdinTopic := ""
    _stdoutTopic := ""
    _shadowTopicOut := ""
    _shadowTopicIn := ""
    _dataTopicOut := ""
    _dataTopicIn := ""
    _otaTopic := ""
    _password := ""
    _iotStatus := iotStatus
    _syncStatus := syncStatus }

/-- Member function `ArduinoIoTCloudClass::mqttClientBegin`
(ArduinoIoTCloud.cpp:184-203): the topic definitions. The configuration calls
on the MQTT client that follow touch no member of the record. -/
def ArduinoIoTCloudClass.mqttClientBegin (e : ArduinoIoTCloudClass) : ArduinoIoTCloudClass :=
  let e1 : ArduinoIoTCloudClass := { e with _stdoutTopic := "/a/d/" ++ e._device_id ++ "/s/o" }
  let e2 : ArduinoIoTCloudClass := { e1 with _stdinTopic := "/a/d/" ++ e1._device_id ++ "/s/i" }
  if e2._thing_id = "" then
    { e2 with
      _dataTopicIn := "/a/d/" ++ e2._device_id ++ "/e/i"
      _dataTopicOut := "/a/d/" ++ e2._device_id ++ "/e/o" }
  else
    { e2 with
      _dataTopicIn := "/a/t/" ++ e2._thing_id ++ "/e/i"
      _dataTopicOut := "/a/t/" ++ e2._thing_id ++ "/e/o"
      _shadowTopicIn := "/a/t/" ++ e2._thing_id ++ "/shadow/i"
      _shadowTopicOut := "/a/t/" ++ e2._thing_id ++ "/shadow/o" }

/-- A freshly constructed instance whose device-id and thing-id have been set
to `D` and `T` (by `begin` and by the thing-id setter of the header). -/
def ArduinoIoTCloudClass.fresh (D T : String) (iotStatus : ArduinoIoTConnectionStatus)
    (syncStatus : ArduinoIoTSynchronizationStatus) : ArduinoIoTCloudClass :=
  { ArduinoIoTCloudClass.ctor iotStatus syncStatus with _device_id := D, _thing_id := T }

/-- The constant `CBOR_REQUEST_LAST_VALUE_MSG` of
`ArduinoIoTCloudClass::requestLastValue` (ArduinoIoTCloud.cpp:369). -/
def ArduinoIoTCloudClass.CBOR_REQUEST_LAST_VALUE_MSG : Bytes :=
  [0x81, 0xA2, 0x00, 0x63, 0x72, 0x3A, 0x6D, 0x03, 0x6D, 0x67, 0x65, 0x74,
   0x4C, 0x61, 0x73, 0x74, 0x56, 0x61, 0x6C, 0x75, 0x65, 0x73]

/-- The external calls made by the message dispatch of the older class:
`CloudSerial.appendStdin`, `Thing.decode`, `Thing.encode` (the length it
returns and the buffer it filled) and the three calls that publish. -/
structure ClassCollaborators (W : Type) where
  appendStdin : Bytes → W → W
  thingDecode : Bytes → Bool → W → W
  thingEncode : W → (Int × Bytes) × W
  mqttBeginMessage : String → Nat → W → Bool × W
  mqttWrite : Bytes → W → Bool × W
  mqttEndMessage : W → Bool × W

/-- The system state of the older class: engine, collaborators, log. -/
structure ClassSys (W : Type) where
  eng : ArduinoIoTCloudClass
  world : W
  log : List Action

/-- The three publishing functions `writeProperties`, `writeStdout` and
`writeShadowOut` (ArduinoIoTCloud.cpp:291-337) differ by the topic only: the
first `length` bytes of `data` are published on `topic`. -/
def ArduinoIoTCloudClass.writeTopic (c : ClassCollaborators W) (origin : WriteOrigin)
    (topic : String) (data : Bytes) (length : Nat) (s : ClassSys W) : Int × ClassSys W :=
  let s0 : ClassSys W :=
    { s with log := s.log ++ [Action.write origin s.eng._syncStatus topic (data.take length)] }
  let b := c.mqttBeginMessage topic length s0.world
  if !b.1 then (0, { s0 with world := b.2 }) else
  let w := c.mqttWrite (data.take length) b.2
  if !w.1 then (0, { s0 with world := w.2 }) else
  let e := c.mqttEndMessage w.2
  if !e.1 then (0, { s0 with world := e.2 }) else (1, { s0 with world := e.2 })

/-- Member function `ArduinoIoTCloudClass::sendPropertiesToCloud`
(ArduinoIoTCloud.cpp:270-276). -/
def ArduinoIoTCloudClass.sendPropertiesToCloud (c : ClassCollaborators W) (s : ClassSys W) :
    ClassSys W :=
  let r := c.thingEncode s.world
  let s1 : ClassSys W := { s with world := r.2, log := s.log ++ [Action.encode] }
  let length := r.1.1
  if length > 0 then
    (ArduinoIoTCloudClass.writeTopic c WriteOrigin.properties s1.eng._dataTopicOut r.1.2
      length.toNat s1).2
  else s1

/-- Member function `ArduinoIoTCloudClass::requestLastValue`
(ArduinoIoTCloud.cpp:365-371). -/
def ArduinoIoTCloudClass.requestLastValue (c : ClassCollaborators W) (s : ClassSys W) :
    ClassSys W :=
  (ArduinoIoTCloudClass.writeTopic c WriteOrigin.lastValues s.eng._shadowTopicOut
    ArduinoIoTCloudClass.CBOR_REQUEST_LAST_VALUE_MSG
    ArduinoIoTCloudClass.CBOR_REQUEST_LAST_VALUE_MSG.length s).2

/-- Member function `ArduinoIoTCloudClass::handleMessage`
(ArduinoIoTCloud.cpp:343-363), for a received message with topic `topic` and
payload `bytes`. -/
def ArduinoIoTCloudClass.handleMessage (c : ClassCollaborators W) (topic : String)
    (bytes : Bytes) (s : ClassSys W) : ClassSys W :=
  let s1 : ClassSys W :=
    if s.eng._stdinTopic = topic then
      { s with world := c.appendStdin bytes s.world, log := s.log ++ [Action.appendStdin bytes] }
    else s
  let s2 : ClassSys W :=
    if s1.eng._dataTopicIn = topic then
      { s1 with world := c.thingDecode bytes false s1.world,
                log := s1.log ++ [Action.decode bytes false] }
    else s1
  if s2.eng._shadowTopicIn = topic ∧
      s2.eng._syncStatus = SYNC_STATUS_WAIT_FOR_CLOUD_VALUES then
    let a : ClassSys W :=
      { s2 with world := c.thingDecode bytes true s2.world,
                log := s2.log ++ [Action.decode bytes true] }
    let b := ArduinoIoTCloudClass.sendPropertiesToCloud c a
    { b with eng := { b.eng with _syncStatus := SYNC_STATUS_VALUES_PROCESSED } }
  else s2

/-- Whether a log entry hands a received message to one of its consumers: the
console sink, the property decode or the shadow-merge decode. -/
def Action.isDelivery : Action → Bool
  | Action.appendStdin _ => true
  | Action.decode _ _ => true
  | _ => false

/-- Number of deliveries of a received message in a log. -/
def deliveries (l : List Action) : Nat :=
  l.countP Action.isDelivery

/-- Collaborators of the older class that do nothing and on which publishing
succeeds; the properties encode to the 2 bytes `[5, 6]`. -/
def idleClassCollaborators : ClassCollaborators Nat :=
  { appendStdin := fun _ w => w
    thingDecode := fun _ _ w => w
    thingEncode := fun w => ((2, [5, 6]), w)
    mqttBeginMessage := fun _ _ w => (true, w)
    mqttWrite := fun _ w => (true, w)
    mqttEndMessage := fun w => (true, w) }

/-- A session with a thing bound in which the shadow arrives late: the link is
always up, the broker accepts the open of tick 2, the millisecond counter
reads `50000 + 6000 * t` on tick `t`, and the shadow arrives during the poll of
tick 5, after which the properties encode to `[1, 2, 3]`. -/
def handshakeScript : Script :=
  { link := fun _ => NetworkConnectionState.CONNECTED
    opens := fun _ => true
    subscribed := fun _ _ => 1
    connected := fun _ => true
    inbox := fun t => if t = 5 then [("/a/t/T1/shadow/i", [9])] else []
    encoded := fun t => if t = 5 then (true, [1, 2, 3]) else (true, [])
    clock := fun t => 50000 + 6000 * t }

/-- The `handshakeScript` session after tick 2: CONNECTED and waiting for the
cloud values. -/
def waitingSession : Sys Nat :=
  updates handshakeScript.collaborators 2 (powerUp engineWithThing)

/-! ### Connection management and tick of the older class -/

/-- The external calls of `connect`, `connectionCheck` and `update` of the
older class, in addition to those of its message dispatch.

* `hasConnection` says whether the member `_connection` is set (not `NULL`);
* `connectionCheck` is `_connection->check()` followed by
  `_connection->getStatus()`, and returns the status read;
* `brokerAddress` and `brokerPort` are the members `_brokerAddress` and
  `_brokerPort` handed to the MQTT client;
* `TIMEOUT_FOR_LASTVALUES_SYNC` is the constant of that name, set in the
  header;
* `execCallback` invokes the handler registered for the event, if there is
  one;
* `cloudSerialBegin` and `cloudSerialPrintln` are the two calls on
  `CloudSerial` made when a session is established. -/
structure ClassSession (W : Type) extends ClassCollaborators W where
  hasConnection : Bool
  brokerAddress : String
  brokerPort : Nat
  TIMEOUT_FOR_LASTVALUES_SYNC : Nat
  connectionCheck : W → NetworkConnectionState × W
  mqttConnect : String → Nat → W → Bool × W
  mqttSubscribe : String → W → Int × W
  mqttConnected : W → Bool × W
  mqttStop : W → W
  mqttPoll : W → List (String × Bytes) × W
  updateTimestampOnLocallyChangedProperties : W → W
  millis : W → Nat × W
  execCallback : ArduinoIoTCloudEvent → W → W
  cloudSerialBegin : Nat → W → W
  cloudSerialPrintln : String → W → W

/-- The call `execCloudEventCallback(callback, 0)` of the older class
(ArduinoIoTCloud.cpp:456-460) for the callback of event `e`: the handler is
invoked if one is registered. -/
def ArduinoIoTCloudClass.execCloudEventCallback (c : ClassSession W) (e : ArduinoIoTCloudEvent)
    (s : ClassSys W) : ClassSys W :=
  { s with world := c.execCallback e s.world, log := s.log ++ [Action.event e] }

/-- The call `_mqttClient->subscribe(topic)` of the older class. -/
def ArduinoIoTCloudClass.subscribe (c : ClassSession W) (topic : String) (s : ClassSys W) :
    Int × ClassSys W :=
  let r := c.mqttSubscribe topic s.world
  (r.1, { s with world := r.2, log := s.log ++ [Action.mqttSubscribe topic] })

/-- Member function `ArduinoIoTCloudClass::connect` (ArduinoIoTCloud.cpp:205-226). -/
def ArduinoIoTCloudClass.connect (c : ClassSession W) (s : ClassSys W) : Int × ClassSys W :=
  let r := c.mqttConnect c.brokerAddress c.brokerPort s.world
  let s1 : ClassSys W :=
    { s with
      world := r.2
      log := s.log ++ [Action.mqttConnect c.brokerAddress c.brokerPort] }
  if !r.1 then (CONNECT_FAILURE, s1) else
  let r2 := ArduinoIoTCloudClass.subscribe c s1.eng._stdinTopic s1
  if r2.1 = 0 then (CONNECT_FAILURE_SUBSCRIBE, r2.2) else
  let r3 := ArduinoIoTCloudClass.subscribe c r2.2.eng._dataTopicIn r2.2
  if r3.1 = 0 then (CONNECT_FAILURE_SUBSCRIBE, r3.2) else
  if r3.2.eng._shadowTopicIn ≠ "" then
    let r4 := ArduinoIoTCloudClass.subscribe c r3.2.eng._shadowTopicIn r3.2
    if r4.1 = 0 then (CONNECT_FAILURE_SUBSCRIBE, r4.2) else
    let s4 := r4.2
    (CONNECT_SUCCESS,
      { s4 with eng := { s4.eng with _syncStatus := SYNC_STATUS_WAIT_FOR_CLOUD_VALUES,
                                     _lastSyncRequestTickTime := 0 } })
  else (CONNECT_SUCCESS, r3.2)

/-- Member function `ArduinoIoTCloudClass::reconnect` (ArduinoIoTCloud.cpp:278-285). -/
def ArduinoIoTCloudClass.reconnect (c : ClassSession W) (s : ClassSys W) : Int × ClassSys W :=
  let r := c.mqttConnected s.world
  let s1 : ClassSys W := { s with world := r.2, log := s.log ++ [Action.mqttConnected] }
  let s2 : ClassSys W := if r.1 then
      { s1 with world := c.mqttStop s1.world, log := s1.log ++ [Action.mqttStop] }
    else s1
  ArduinoIoTCloudClass.connect c s2

/-- The statements run by `connectionCheck` when a session has been
established (ArduinoIoTCloud.cpp:416-421 and 428-433): the state becomes
CONNECTED, the CONNECT callback runs and the console channel is greeted. -/
def ArduinoIoTCloudClass.sessionEstablished (c : ClassSession W) (s : ClassSys W) : ClassSys W :=
  let s1 : ClassSys W := { s with eng := { s.eng with _iotStatus := CONNECTED } }
  let s2 := ArduinoIoTCloudClass.execCloudEventCallback c ArduinoIoTCloudEvent.CONNECT s1
  let s3 : ClassSys W :=
    { s2 with world := c.cloudSerialBegin 9600 s2.world
              log := s2.log ++ [Action.serialBegin 9600] }
  { s3 with world := c.cloudSerialPrintln "Hello from Cloud Serial!" s3.world
            log := s3.log ++ [Action.serialPrintln "Hello from Cloud Serial!"] }

/-- The `switch (_iotStatus)` of `connectionCheck` (ArduinoIoTCloud.cpp:388-439). -/
def ArduinoIoTCloudClass.connectionSwitch (c : ClassSession W) (s : ClassSys W) : ClassSys W :=
  match s.eng._iotStatus with
  | IDLE => { s with eng := { s.eng with _iotStatus := CONNECTING } }
  | ERROR => { s with eng := { s.eng with _iotStatus := RECONNECTING } }
  | CONNECTED =>
    let r := c.mqttConnected s.world
    let s1 : ClassSys W := { s with world := r.2, log := s.log ++ [Action.mqttConnected] }
    if !r.1 then
      ArduinoIoTCloudClass.execCloudEventCallback c ArduinoIoTCloudEvent.DISCONNECT
        { s1 with eng := { s1.eng with _iotStatus := DISCONNECTED } }
    else s1
  | DISCONNECTED => { s with eng := { s.eng with _iotStatus := RECONNECTING } }
  | RECONNECTING =>
    let r := ArduinoIoTCloudClass.reconnect c s
    if r.1 = CONNECT_SUCCESS then ArduinoIoTCloudClass.sessionEstablished c r.2 else r.2
  | CONNECTING =>
    let r := ArduinoIoTCloudClass.connect c s
    if r.1 = CONNECT_SUCCESS then ArduinoIoTCloudClass.sessionEstablished c r.2 else r.2

/-- Member function `ArduinoIoTCloudClass::connectionCheck`
(ArduinoIoTCloud.cpp:373-440): when `_connection` is set, the physical link is
checked first, and a link that is not connected ends the function. -/
def ArduinoIoTCloudClass.connectionCheck (c : ClassSession W) (s : ClassSys W) : ClassSys W :=
  if c.hasConnection then
    let r := c.connectionCheck s.world
    let s1 : ClassSys W := { s with world := r.2, log := s.log ++ [Action.phyCheck] }
    if r.1 ≠ NetworkConnectionState.CONNECTED then
      if s1.eng._iotStatus = CONNECTED then
        { s1 with eng := { s1.eng with _iotStatus := DISCONNECTED } }
      else s1
    else ArduinoIoTCloudClass.connectionSwitch c s1
  else ArduinoIoTCloudClass.connectionSwitch c s

/-- The `switch (_syncStatus)` of `ArduinoIoTCloudClass::update`
(ArduinoIoTCloud.cpp:245-267). -/
def ArduinoIoTCloudClass.syncSwitch (c : ClassSession W) (onSyncCompleteCallback : Option (W → W))
    (s : ClassSys W) : ClassSys W :=
  match s.eng._syncStatus with
  | SYNC_STATUS_SYNCHRONIZED =>
    ArduinoIoTCloudClass.sendPropertiesToCloud c.toClassCollaborators s
  | SYNC_STATUS_WAIT_FOR_CLOUD_VALUES =>
    let m1 := c.millis s.world
    let s4 : ClassSys W := { s with world := m1.2, log := s.log ++ [Action.millis] }
    if ulongSub m1.1 s4.eng._lastSyncRequestTickTime > c.TIMEOUT_FOR_LASTVALUES_SYNC then
      let s5 := ArduinoIoTCloudClass.requestLastValue c.toClassCollaborators s4
      let m2 := c.millis s5.world
      { eng := { s5.eng with _lastSyncRequestTickTime := m2.1 % 2 ^ 32 }, world := m2.2,
        log := s5.log ++ [Action.millis] }
    else s4
  | SYNC_STATUS_VALUES_PROCESSED =>
    let s4 : ClassSys W :=
      match onSyncCompleteCallback with
      | some f => { s with world := f s.world, log := s.log ++ [Action.syncCompleteCallback] }
      | none => s
    let s5 := ArduinoIoTCloudClass.execCloudEventCallback c ArduinoIoTCloudEvent.SYNC s4
    { s5 with eng := { s5.eng with _syncStatus := SYNC_STATUS_SYNCHRONIZED } }

/-- Member function `ArduinoIoTCloudClass::update` (ArduinoIoTCloud.cpp:232-268):
one tick of the older class. The messages returned by `mqttPoll` are passed to
`handleMessage` one after the other, as the `onMessage` callback does during
`poll`. -/
def ArduinoIoTCloudClass.update (c : ClassSession W) (onSyncCompleteCallback : Option (W → W))
    (s : ClassSys W) : ClassSys W :=
  let s0 : ClassSys W :=
    { s with world := c.updateTimestampOnLocallyChangedProperties s.world,
             log := s.log ++ [Action.updateTimestamp] }
  let s1 := ArduinoIoTCloudClass.connectionCheck c s0
  if s1.eng._iotStatus ≠ CONNECTED then s1 else
  let r := c.mqttPoll s1.world
  let s2 : ClassSys W :=
    r.1.foldl (fun acc m => ArduinoIoTCloudClass.handleMessage c.toClassCollaborators m.1 m.2 acc)
      { s1 with world := r.2, log := s1.log ++ [Action.mqttPoll] }
  ArduinoIoTCloudClass.syncSwitch c onSyncCompleteCallback s2

/-- Whether a log entry is a call on the MQTT client: connect, subscribe,
connection query, stop, poll or publish. -/
def Action.isMqtt : Action → Bool
  | Action.mqttConnect _ _ => true
  | Action.mqttSubscribe _ => true
  | Action.mqttConnected => true
  | Action.mqttStop => true
  | Action.mqttPoll => true
  | Action.write _ _ _ _ => true
  | _ => false

/-- Whether a log entry is the dirty scan
`updateTimestampOnLocallyChangedProperties`. -/
def Action.isScan : Action → Bool
  | Action.updateTimestamp => true
  | _ => false

/-- Whether a log entry is a call of `poll` on the MQTT client. -/
def Action.isPoll : Action → Bool
  | Action.mqttPoll => true
  | _ => false

/-- Number of dirty scans in a log. -/
def scans (l : List Action) : Nat :=
  l.countP Action.isScan

/-- Number of polls in a log. -/
def polls (l : List Action) : Nat :=
  l.countP Action.isPoll

/-- Number of publish attempts in a log, whatever the topic and the call
site. -/
def publishes (l : List Action) : Nat :=
  l.countP Action.isWrite

/-! ### The claims of this part as the specification states them -/

/-- The physical-link gate as the specification states it, for a tick entered
in ConnectionState `before`, left in `after`, during which the calls `delta`
were made: the state is forced to DISCONNECTED, DISCONNECT is fired once if the
tick was entered in CONNECTED and not at all otherwise, and no call goes to
the MQTT client. -/
def spec_linkGate (before after : ArduinoIoTConnectionStatus) (delta : List Action) : Prop :=
  after = DISCONNECTED ∧
    fired ArduinoIoTCloudEvent.DISCONNECT delta = (if before = CONNECTED then 1 else 0) ∧
    ∀ a ∈ delta, a.isMqtt = false

/-- The console rule as the specification states it, for the calls `delta`
made by the dispatch of a message with payload `bytes`: the payload goes to
the console sink as it is, and nothing is decoded into the property
container. -/
def spec_fedToConsole (bytes : Bytes) (delta : List Action) : Prop :=
  Action.appendStdin bytes ∈ delta ∧ ∀ a ∈ delta, a.isDecode = false

/-- The progress bound as the specification states it, for the log `before` a
tick and the log `after` it: at most one poll and at most one publish. -/
def spec_onePollOnePublish (before after : List Action) : Prop :=
  polls after ≤ polls before + 1 ∧ publishes after ≤ publishes before + 1

/-- The dirty-scan rule as the specification states it, for the log `before` a
tick and the log `after` it: exactly one scan was made. -/
def spec_scanEveryTick (before after : List Action) : Prop :=
  scans after = scans before + 1

/-- The cache of engine `e` is within a buffer of `size` bytes: the buffer has
`size` bytes and the cached length does not exceed it. -/
abbrev CacheInBounds (size : Nat) (e : ArduinoIoTCloudTCP) : Prop :=
  e._mqtt_data_buf.length = size ∧ e._mqtt_data_len ≤ size

/-- The encoder never reports more bytes than the size of the buffer it was
given, `MQTT_TRANSMIT_BUFFER_SIZE`. -/
abbrev EncoderBounded (c : Collaborators W) : Prop :=
  ∀ w, (c.encode w).1.2.length ≤ c.MQTT_TRANSMIT_BUFFER_SIZE

/-- The states a device is in once it has left IDLE. -/
abbrev Started (st : ArduinoIoTConnectionStatus) : Prop :=
  st = CONNECTING ∨ st = CONNECTED ∨ st = DISCONNECTED ∨ st = RECONNECTING

/-- The states a device is in once a session has been established. -/
abbrev SessionSeen (st : ArduinoIoTConnectionStatus) : Prop :=
  st = CONNECTED ∨ st = DISCONNECTED ∨ st = RECONNECTING

/-! ### The time service -/

/-- One external call of `TimeService::getTime`. -/
inductive TimeQuery where
  | connectionTime
  | ntpTime
  deriving DecidableEq, Repr

/-- The connection handler as `TimeService` uses it, over an abstract
collaborator state `W`: `getTime` is `ConnectionHandler::getTime`, and
`ntpGetTime` is `NTPUtils::getTime` called on the UDP socket `getUDP()` of the
handler. Both return an `unsigned long`. -/
structure ConnectionHandler (W : Type) where
  getTime : W → Nat × W
  ntpGetTime : W → Nat × W

/-- The member variable of `TimeService`: `_con_hdl`, with `none` for
`nullptr`. -/
structure TimeService (W : Type) where
  _con_hdl : Option (ConnectionHandler W)

/-- The state the time service runs in: collaborators and the log of the
queries made. -/
structure TimeSys (W : Type) where
  world : W
  queries : List TimeQuery

/-- The constructor `TimeService::TimeService` (TimeService.cpp:47-51). -/
def TimeService.ctor : TimeService W :=
  { _con_hdl := none }

/-- Member function `TimeService::begin` (TimeService.cpp:57-60). -/
def TimeService.begin (_t : TimeService W) (con_hdl : ConnectionHandler W) : TimeService W :=
  { _con_hdl := some con_hdl }

/-- Member function `TimeService::isTimeValid` (TimeService.cpp:90-93). The
constant `EPOCH_AT_COMPILE_TIME` is the build date converted by `mktime`; it
is a parameter, taken to be a date after 1970. -/
def TimeService.isTimeValid (EPOCH_AT_COMPILE_TIME : Nat) (time : Nat) : Bool :=
  decide (time ≥ EPOCH_AT_COMPILE_TIME)

/-- Member function `TimeService::getTime` (TimeService.cpp:62-84). -/
def TimeService.getTime (EPOCH_AT_COMPILE_TIME : Nat) (t : TimeService W) (s : TimeSys W) :
    Nat × TimeSys W :=
  match t._con_hdl with
  | none => (0, s)
  | some h =>
    let r := h.getTime s.world
    let s1 : TimeSys W :=
      { world := r.2, queries := s.queries ++ [TimeQuery.connectionTime] }
    let connection_time := r.1
    if TimeService.isTimeValid EPOCH_AT_COMPILE_TIME connection_time then
      (connection_time, s1)
    else
      let n := h.ntpGetTime s1.world
      let s2 : TimeSys W := { world := n.2, queries := s1.queries ++ [TimeQuery.ntpTime] }
      let ntp_time := n.1
      if TimeService.isTimeValid EPOCH_AT_COMPILE_TIME ntp_time then (ntp_time, s2)
      else (0, s2)

/-- The result of `getTime` as the specification states it, from the time
`connection` of the connection handler (`none` when no handler is set) and
the time `ntp` the NTP query would give. -/
def spec_getTime (epoch : Nat) (connection : Option Nat) (ntp : Nat) : Nat :=
  match connection with
  | none => 0
  | some ct => if ct ≥ epoch then ct else if ntp ≥ epoch then ntp else 0

/-! ### Concrete sessions for the statements of this part -/

/-- Collaborators of the older class with a connection handler whose link is
up exactly on the ticks for which `linkUp` holds; the collaborator state is
the number of link checks made so far. The broker accepts every open and
subscription and delivers nothing. -/
def classSession (linkUp : Nat → Bool) : ClassSession Nat :=
  { toClassCollaborators := idleClassCollaborators
    hasConnection := true
    brokerAddress := "mqtts-sa.iot.arduino.cc"
    brokerPort := 8883
    TIMEOUT_FOR_LASTVALUES_SYNC := 10000
    connectionCheck := fun w =>
      (if linkUp (w + 1) then NetworkConnectionState.CONNECTED
       else NetworkConnectionState.DISCONNECTED, w + 1)
    mqttConnect := fun _ _ w => (true, w)
    mqttSubscribe := fun _ w => (1, w)
    mqttConnected := fun w => (true, w)
    mqttStop := fun w => w
    mqttPoll := fun w => ([], w)
    updateTimestampOnLocallyChangedProperties := fun w => w
    millis := fun w => (1000 * w, w)
    execCallback := fun _ w => w
    cloudSerialBegin := fun _ w => w
    cloudSerialPrintln := fun _ w => w }

/-- The older class at power-up for device "ABC" bound to thing "T1", in
ConnectionState `st`: topics set by `mqttClientBegin`, collaborator state 0,
empty log. -/
def classPowerUp (st : ArduinoIoTConnectionStatus) : ClassSys Nat :=
  { eng := ArduinoIoTCloudClass.mqttClientBegin
      (ArduinoIoTCloudClass.fresh "ABC" "T1" st SYNC_STATUS_SYNCHRONIZED)
    world := 0
    log := [] }

/-- A session with no thing bound in which the properties encode to
`[1, 2, 3]` on every tick and the transport reports the session lost on
tick 3. -/
def busyScript : Script :=
  { link := fun _ => NetworkConnectionState.CONNECTED
    opens := fun _ => true
    subscribed := fun _ _ => 1
    connected := fun t => decide (t ≠ 3)
    inbox := fun _ => []
    encoded := fun _ => (true, [1, 2, 3])
    clock := fun t => 1000 * t }

/-- A connection handler whose time is the collaborator state and whose NTP
answer is `ntp`. -/
def handlerWithNtp (ntp : Nat) : ConnectionHandler Nat :=
  { getTime := fun w => (w, w)
    ntpGetTime := fun w => (ntp, w) }


/-- The state `t` of the older class is reached from `s` by external calls
that all satisfy `Q`. -/
def ClassExtends (Q : Action → Prop) (s t : ClassSys W) : Prop :=
  ∃ d, t.log = s.log ++ d ∧ ∀ a ∈ d, Q a


/-! # Theorems -/

/-! ## Events and log bookkeeping -/

theorem fired_append (e : ArduinoIoTCloudEvent) (l d : List Action) :
    fired e (l ++ d) = fired e l + fired e d := by
  simp [fired, List.count_append]

theorem fired_event (e e' : ArduinoIoTCloudEvent) :
    fired e [Action.event e'] = if e' = e then 1 else 0 := by
  simp [fired, List.count_singleton]

/-! ## Log extension -/

theorem Extends.refl (Q : Action → Prop) (s : Sys W) : Extends Q s s :=
  ⟨[], by simp, by simp⟩

theorem Extends.trans {Q : Action → Prop} {s t u : Sys W}
    (h1 : Extends Q s t) (h2 : Extends Q t u) : Extends Q s u := by
  obtain ⟨d1, e1, q1⟩ := h1
  obtain ⟨d2, e2, q2⟩ := h2
  refine ⟨d1 ++ d2, by rw [e2, e1, List.append_assoc], ?_⟩
  intro a ha
  rcases List.mem_append.mp ha with h | h
  · exact q1 a h
  · exact q2 a h

theorem Extends.mono {Q Q' : Action → Prop} {s t : Sys W}
    (h : ∀ a, Q a → Q' a) (h1 : Extends Q s t) : Extends Q' s t := by
  obtain ⟨d, e, q⟩ := h1
  exact ⟨d, e, fun a ha => h a (q a ha)⟩

theorem Extends.step {Q : Action → Prop} {s t : Sys W} (d : List Action)
    (h : t.log = s.log ++ d) (q : ∀ a ∈ d, Q a) : Extends Q s t :=
  ⟨d, h, q⟩

theorem Extends.fired_eq {s t : Sys W} (e : ArduinoIoTCloudEvent)
    (h : Extends (fun a => a ≠ Action.event e) s t) : fired e t.log = fired e s.log := by
  obtain ⟨d, hd, q⟩ := h
  have h0 : List.count (Action.event e) d = 0 :=
    List.count_eq_zero.mpr (fun hm => q _ hm rfl)
  simp [ArduinoIoTCloud.fired, hd, List.count_append, h0]

/-! ## `connect` and `reconnect` -/

theorem connect_fired (c : Collaborators W) (s : Sys W) (e : ArduinoIoTCloudEvent) :
    fired e (connect c s).2.log = fired e s.log := by
  unfold connect subscribe fired
  simp only []
  split_ifs <;> simp [List.count_append]

theorem connect_status (c : Collaborators W) (s : Sys W) :
    (connect c s).2.eng._iot_status = s.eng._iot_status := by
  unfold connect subscribe
  simp only []
  split_ifs <;> simp

theorem connect_codes (c : Collaborators W) (s : Sys W) :
    (connect c s).1 = CONNECT_SUCCESS ∨ (connect c s).1 = CONNECT_FAILURE ∨
      (connect c s).1 = CONNECT_FAILURE_SUBSCRIBE := by
  unfold connect subscribe
  simp only []
  split_ifs <;> simp

theorem connect_eng (c : Collaborators W) (s : Sys W) :
    (connect c s).2.eng =
      if (connect c s).1 = CONNECT_SUCCESS ∧ s.eng._shadowTopicIn ≠ "" then
        { s.eng with _syncStatus := SYNC_STATUS_WAIT_FOR_CLOUD_VALUES,
                     _lastSyncRequestTickTime := 0 }
      else s.eng := by
  unfold connect subscribe
  simp only []
  split_ifs <;>
    simp_all [CONNECT_SUCCESS, CONNECT_FAILURE, CONNECT_FAILURE_SUBSCRIBE]

theorem connect_quiet (c : Collaborators W) (s : Sys W) :
    Extends Action.quiet s (connect c s).2 := by
  unfold connect subscribe
  simp only []
  split_ifs <;>
    exact Extends.step _ (by simp; rfl) (by simp [Action.quiet, Action.isWrite])

theorem reconnect_fired (c : Collaborators W) (s : Sys W) (e : ArduinoIoTCloudEvent) :
    fired e (reconnect c s).2.log = fired e s.log := by
  unfold reconnect
  simp only [connect_fired]
  split_ifs <;> simp [fired, List.count_append]

theorem reconnect_status (c : Collaborators W) (s : Sys W) :
    (reconnect c s).2.eng._iot_status = s.eng._iot_status := by
  unfold reconnect
  simp only [connect_status]
  split_ifs <;> simp

theorem reconnect_codes (c : Collaborators W) (s : Sys W) :
    (reconnect c s).1 = CONNECT_SUCCESS ∨ (reconnect c s).1 = CONNECT_FAILURE ∨
      (reconnect c s).1 = CONNECT_FAILURE_SUBSCRIBE := by
  unfold reconnect
  exact connect_codes c _

/-! ## `checkCloudConnection`, arm by arm -/

theorem checkCloudConnection_connecting (c : Collaborators W) (s : Sys W)
    (h : s.eng._iot_status = CONNECTING) :
    checkCloudConnection c s =
      if (connect c s).1 = CONNECT_SUCCESS then
        (CONNECTED,
          { eng := { (connect c s).2.eng with _iot_status := CONNECTED }
            world := c.execCallback ArduinoIoTCloudEvent.CONNECT (connect c s).2.world
            log := (connect c s).2.log ++ [Action.event ArduinoIoTCloudEvent.CONNECT] })
      else (CONNECTING, (connect c s).2) := by
  have hs := connect_status c s
  unfold checkCloudConnection
  simp only [h]
  by_cases h1 : (connect c s).1 = CONNECT_SUCCESS <;>
    simp [h1, h, hs, execCloudEventCallback]

theorem checkCloudConnection_reconnecting (c : Collaborators W) (s : Sys W)
    (h : s.eng._iot_status = RECONNECTING) :
    checkCloudConnection c s =
      if (reconnect c s).1 = CONNECT_SUCCESS then
        (CONNECTED,
          { eng := { (reconnect c s).2.eng with _iot_status := CONNECTED }
            world := c.execCallback ArduinoIoTCloudEvent.CONNECT (reconnect c s).2.world
            log := (reconnect c s).2.log ++ [Action.event ArduinoIoTCloudEvent.CONNECT] })
      else (RECONNECTING, (reconnect c s).2) := by
  have hs := reconnect_status c s
  unfold checkCloudConnection
  simp only [h]
  by_cases h1 : (reconnect c s).1 = CONNECT_SUCCESS <;>
    simp [h1, h, hs, execCloudEventCallback]

theorem checkCloudConnection_connected (c : Collaborators W) (s : Sys W)
    (h : s.eng._iot_status = CONNECTED) :
    checkCloudConnection c s =
      if (c.mqttConnected s.world).1 = false then
        (DISCONNECTED,
          { eng := { s.eng with _mqtt_data_request_retransmit := true,
                                _iot_status := DISCONNECTED }
            world := c.execCallback ArduinoIoTCloudEvent.DISCONNECT (c.mqttConnected s.world).2
            log := s.log ++ [Action.mqttConnected, Action.event ArduinoIoTCloudEvent.DISCONNECT] })
      else
        (CONNECTED,
          { s with world := (c.mqttConnected s.world).2, log := s.log ++ [Action.mqttConnected] }) := by
  unfold checkCloudConnection
  simp only [h]
  by_cases h1 : (c.mqttConnected s.world).1 = false <;>
    simp [h1, h, execCloudEventCallback]

theorem checkCloudConnection_resting (c : Collaborators W) (s : Sys W)
    (h : s.eng._iot_status = IDLE ∨ s.eng._iot_status = ERROR ∨
      s.eng._iot_status = DISCONNECTED) :
    checkCloudConnection c s =
      ((if s.eng._iot_status = IDLE then CONNECTING else RECONNECTING),
        { s with eng := { s.eng with
            _iot_status := if s.eng._iot_status = IDLE then CONNECTING else RECONNECTING } }) := by
  unfold checkCloudConnection
  rcases h with h | h | h <;> simp [h]

/-! ## C1 to C6: one connection tick -/

/-- C1. A connection tick taken in state CONNECTING (resp. RECONNECTING) calls
`connect` (resp. `reconnect`), whose result is one of SUCCESS, FAILURE and
FAILURE_SUBSCRIBE. The state becomes CONNECTED if and only if the result is
SUCCESS, and then the CONNECT event is fired exactly once, as the last action
of the tick, and no other event is fired. For the two other results the tick
leaves the state CONNECTING (resp. RECONNECTING), does nothing beyond the
connection attempt, and fires no event. -/
theorem C1_connecting_tick (c : Collaborators W) (s : Sys W)
    (h : s.eng._iot_status = CONNECTING ∨ s.eng._iot_status = RECONNECTING) :
    let r := if s.eng._iot_status = CONNECTING then connect c s else reconnect c s
    let t := checkCloudConnection c s
    (r.1 = CONNECT_SUCCESS ∨ r.1 = CONNECT_FAILURE ∨ r.1 = CONNECT_FAILURE_SUBSCRIBE) ∧
    (t.2.eng._iot_status = CONNECTED ↔ r.1 = CONNECT_SUCCESS) ∧
    (r.1 = CONNECT_SUCCESS →
      t.1 = CONNECTED ∧
      t.2.log = r.2.log ++ [Action.event ArduinoIoTCloudEvent.CONNECT] ∧
      fired ArduinoIoTCloudEvent.CONNECT t.2.log = fired ArduinoIoTCloudEvent.CONNECT s.log + 1 ∧
      fired ArduinoIoTCloudEvent.DISCONNECT t.2.log = fired ArduinoIoTCloudEvent.DISCONNECT s.log ∧
      fired ArduinoIoTCloudEvent.SYNC t.2.log = fired ArduinoIoTCloudEvent.SYNC s.log) ∧
    (r.1 ≠ CONNECT_SUCCESS →
      t.1 = s.eng._iot_status ∧ t.2.eng._iot_status = s.eng._iot_status ∧ t.2 = r.2 ∧
      ∀ e, fired e t.2.log = fired e s.log) := by
  rcases h with h | h
  · have hf := connect_fired c s
    have hs := connect_status c s
    have hc := connect_codes c s
    simp only [h, if_true, checkCloudConnection_connecting c s h]
    refine ⟨hc, ?_, ?_, ?_⟩
    · split_ifs with h1 <;> simp [h1, hs, h]
    · intro h1
      simp [h1, fired_append, hf, fired_event]
    · intro h1
      simp [h1, hf, hs, h]
  · have hf := reconnect_fired c s
    have hs := reconnect_status c s
    have hc := reconnect_codes c s
    have hne : ¬ (RECONNECTING = CONNECTING) := by decide
    simp only [h, hne, if_false, checkCloudConnection_reconnecting c s h]
    refine ⟨hc, ?_, ?_, ?_⟩
    · split_ifs with h1 <;> simp [h1, hs, h]
    · intro h1
      simp [h1, fired_append, hf, fired_event]
    · intro h1
      simp [h1, hf, hs, h]

/-- C2. When opening the transport session fails, `connect` returns FAILURE,
which is 0; the only external call made is the session open (no subscribe is
attempted), and the engine state, SyncState and the handshake timer included,
is unchanged. -/
theorem C2_connect_transport_failure (c : Collaborators W) (s : Sys W)
    (h : (c.mqttConnect s.eng._brokerAddress s.eng._brokerPort s.world).1 = false) :
    (connect c s).1 = CONNECT_FAILURE ∧ CONNECT_FAILURE = 0 ∧
    (connect c s).2.log =
      s.log ++ [Action.mqttConnect s.eng._brokerAddress s.eng._brokerPort] ∧
    (∀ topic, Action.mqttSubscribe topic ∉
      [Action.mqttConnect s.eng._brokerAddress s.eng._brokerPort]) ∧
    (connect c s).2.world =
      (c.mqttConnect s.eng._brokerAddress s.eng._brokerPort s.world).2 ∧
    (connect c s).2.eng = s.eng ∧
    (connect c s).2.eng._syncStatus = s.eng._syncStatus ∧
    (connect c s).2.eng._lastSyncRequestTickTime = s.eng._lastSyncRequestTickTime := by
  unfold connect
  simp [h, CONNECT_FAILURE]

/-- The subscription sequence of the specification attempts a prefix of the
topic list, in list order, and reports success only if it attempted them all. -/
theorem spec_subscribeInOrder_log (c : Collaborators W) (topics : List String) (s : Sys W) :
    ∃ k, k ≤ topics.length ∧
      (spec_subscribeInOrder c topics s).2.log =
        s.log ++ (topics.take k).map Action.mqttSubscribe ∧
      (spec_subscribeInOrder c topics s).2.eng = s.eng ∧
      ((spec_subscribeInOrder c topics s).1 = true → k = topics.length) ∧
      ((spec_subscribeInOrder c topics s).1 = false → 0 < k) := by
  induction topics generalizing s with
  | nil => exact ⟨0, by simp [spec_subscribeInOrder]⟩
  | cons t ts ih =>
    by_cases h0 : (subscribe c t s).1 = 0
    · refine ⟨1, ?_⟩
      simp only [spec_subscribeInOrder, h0, if_true]
      simp [subscribe]
    · obtain ⟨k, hk, hlog, heng, hall, hpos⟩ := ih (subscribe c t s).2
      refine ⟨k + 1, ?_⟩
      simp only [spec_subscribeInOrder, h0, if_false]
      refine ⟨by simpa using hk, ?_, ?_, ?_, ?_⟩
      · rw [hlog]; simp [subscribe]
      · rw [heng]; simp [subscribe]
      · intro h; simpa using hall h
      · intro _; omega

/-- C3. When the transport session opens, `connect` performs exactly the
subscription sequence of the specification on the topics stdin, data-in,
update-control and (only if it is not empty) shadow-in: in that order, stopping
at the first subscription that fails. It returns FAILURE_SUBSCRIBE, which is
-1, if one of the attempted subscriptions failed and SUCCESS, which is 1,
otherwise. The subscriptions attempted are a prefix of that topic list. -/
theorem C3_connect_subscription_order (c : Collaborators W) (s : Sys W)
    (h : (c.mqttConnect s.eng._brokerAddress s.eng._brokerPort s.world).1 = true) :
    let opened : Sys W :=
      { s with
        world := (c.mqttConnect s.eng._brokerAddress s.eng._brokerPort s.world).2
        log := s.log ++ [Action.mqttConnect s.eng._brokerAddress s.eng._brokerPort] }
    let r := spec_subscribeInOrder c (spec_subscriptionTopics s.eng) opened
    (connect c s).1 = (if r.1 then CONNECT_SUCCESS else CONNECT_FAILURE_SUBSCRIBE) ∧
    ((connect c s).1 = CONNECT_FAILURE_SUBSCRIBE ↔ r.1 = false) ∧
    ((connect c s).1 = CONNECT_SUCCESS ↔ r.1 = true) ∧
    CONNECT_FAILURE_SUBSCRIBE = -1 ∧ CONNECT_SUCCESS = 1 ∧
    (connect c s).2.log = r.2.log ∧ (connect c s).2.world = r.2.world ∧
    ∃ k, k ≤ (spec_subscriptionTopics s.eng).length ∧
      (connect c s).2.log =
        s.log ++ Action.mqttConnect s.eng._brokerAddress s.eng._brokerPort ::
          ((spec_subscriptionTopics s.eng).take k).map Action.mqttSubscribe ∧
      ((connect c s).1 = CONNECT_SUCCESS → k = (spec_subscriptionTopics s.eng).length) := by
  intro opened r
  have key : (connect c s).1 = (if r.1 then CONNECT_SUCCESS else CONNECT_FAILURE_SUBSCRIBE) ∧
      (connect c s).2.log = r.2.log ∧ (connect c s).2.world = r.2.world := by
    simp only [r, opened, connect, spec_subscriptionTopics, spec_subscribeInOrder, subscribe, h]
    split_ifs <;> simp_all [spec_subscribeInOrder, subscribe]
  obtain ⟨hret, hlog, hworld⟩ := key
  obtain ⟨k, hk, hklog, -, hall, -⟩ :=
    spec_subscribeInOrder_log c (spec_subscriptionTopics s.eng) opened
  refine ⟨hret, ?_, ?_, rfl, rfl, hlog, hworld, k, hk, ?_, ?_⟩
  · rw [hret]; cases r.1 <;> simp [CONNECT_SUCCESS, CONNECT_FAILURE_SUBSCRIBE]
  · rw [hret]; cases r.1 <;> simp [CONNECT_SUCCESS, CONNECT_FAILURE_SUBSCRIBE]
  · rw [hlog, hklog]; simp [opened]
  · intro hs
    apply hall
    rw [hret] at hs
    revert hs
    cases r.1 <;> simp [CONNECT_SUCCESS, CONNECT_FAILURE_SUBSCRIBE]

/-- C4. `connect` changes nothing of the engine but SyncState and the handshake
timer, and those only when it returns SUCCESS with a non-empty shadow-in topic:
then SyncState becomes WAIT_FOR_CLOUD_VALUES and the timer is reset to 0. With
an empty shadow-in topic, or on FAILURE or FAILURE_SUBSCRIBE, the engine state
is unchanged, so with no thing bound `connect` never starts the handshake. -/
theorem C4_connect_frame (c : Collaborators W) (s : Sys W) :
    ((connect c s).2.eng =
      if (connect c s).1 = CONNECT_SUCCESS ∧ s.eng._shadowTopicIn ≠ "" then
        { s.eng with _syncStatus := SYNC_STATUS_WAIT_FOR_CLOUD_VALUES,
                     _lastSyncRequestTickTime := 0 }
      else s.eng) ∧
    ((connect c s).1 = CONNECT_FAILURE → (connect c s).2.eng = s.eng) ∧
    ((connect c s).1 = CONNECT_FAILURE_SUBSCRIBE → (connect c s).2.eng = s.eng) ∧
    (s.eng._shadowTopicIn = "" → (connect c s).2.eng = s.eng) := by
  unfold connect subscribe
  simp only []
  split_ifs <;>
    simp_all [CONNECT_SUCCESS, CONNECT_FAILURE, CONNECT_FAILURE_SUBSCRIBE]

/-- C5. A connection tick in state IDLE yields CONNECTING and a tick in state
ERROR or DISCONNECTED yields RECONNECTING. Nothing else changes: no external
call is made (the log and the collaborator state are unchanged, so the
transport is not called and no event is fired) and the retransmit pending flag
keeps its value. -/
theorem C5_resting_tick (c : Collaborators W) (s : Sys W)
    (h : s.eng._iot_status = IDLE ∨ s.eng._iot_status = ERROR ∨
      s.eng._iot_status = DISCONNECTED) :
    let next := if s.eng._iot_status = IDLE then CONNECTING else RECONNECTING
    let t := checkCloudConnection c s
    t = (next, { s with eng := { s.eng with _iot_status := next } }) ∧
    t.2.eng._iot_status = next ∧ t.2.log = s.log ∧ t.2.world = s.world ∧
    t.2.eng._mqtt_data_request_retransmit = s.eng._mqtt_data_request_retransmit := by
  simp only [checkCloudConnection_resting c s h]
  simp

/-- C6. A connection tick in state CONNECTED asks the transport once whether
the session is up. The state becomes DISCONNECTED if and only if the transport
reports not-connected; on that transition the retransmit pending flag is set
and the DISCONNECT event is fired exactly once (and no other event). If the
transport reports connected, the state stays CONNECTED, the pending flag is
unchanged and no event is fired. -/
theorem C6_connected_tick (c : Collaborators W) (s : Sys W)
    (h : s.eng._iot_status = CONNECTED) :
    let up := (c.mqttConnected s.world).1
    let t := checkCloudConnection c s
    (t.2.eng._iot_status = DISCONNECTED ↔ up = false) ∧
    (up = false →
      t.1 = DISCONNECTED ∧
      t.2.eng._mqtt_data_request_retransmit = true ∧
      t.2.log = s.log ++ [Action.mqttConnected, Action.event ArduinoIoTCloudEvent.DISCONNECT] ∧
      fired ArduinoIoTCloudEvent.DISCONNECT t.2.log =
        fired ArduinoIoTCloudEvent.DISCONNECT s.log + 1 ∧
      fired ArduinoIoTCloudEvent.CONNECT t.2.log = fired ArduinoIoTCloudEvent.CONNECT s.log ∧
      fired ArduinoIoTCloudEvent.SYNC t.2.log = fired ArduinoIoTCloudEvent.SYNC s.log) ∧
    (up = true →
      t.1 = CONNECTED ∧ t.2.eng = s.eng ∧
      t.2.eng._mqtt_data_request_retransmit = s.eng._mqtt_data_request_retransmit ∧
      t.2.log = s.log ++ [Action.mqttConnected] ∧
      ∀ e, fired e t.2.log = fired e s.log) := by
  simp only [checkCloudConnection_connected c s h]
  by_cases h1 : (c.mqttConnected s.world).1 = false
  · simp [h1, fired, List.count_append, List.count_cons]
  · simp only [Bool.not_eq_false] at h1
    simp [h1, h, fired, List.count_append, List.count_cons]

/-! ## C7: retrying until the broker is reachable -/

theorem cloudTicks_connecting (c : Collaborators W) (s : Sys W) (n : Nat)
    (h0 : s.eng._iot_status = CONNECTING)
    (hfail : ∀ i, i < n → (connect c (cloudTicks c i s)).1 = CONNECT_FAILURE) :
    ∀ i, i ≤ n → (cloudTicks c i s).eng._iot_status = CONNECTING ∧
      ∀ e, fired e (cloudTicks c i s).log = fired e s.log := by
  intro i
  induction i with
  | zero => intro _; exact ⟨h0, fun _ => rfl⟩
  | succ i ih =>
    intro hi
    obtain ⟨hst, hfi⟩ := ih (by omega)
    have hf := hfail i (by omega)
    have hne : (connect c (cloudTicks c i s)).1 ≠ CONNECT_SUCCESS := by
      rw [hf]; decide
    simp only [cloudTicks, checkCloudConnection_connecting c _ hst, hne, if_false]
    exact ⟨by rw [connect_status, hst], fun e => by rw [connect_fired, hfi]⟩

/-- C7. Starting in state CONNECTING, if `connect` returns FAILURE on each of
the first `n` connection ticks and SUCCESS on the next one, then the state
after each of the first `n` ticks is CONNECTING and no event has been fired
by then, the state after tick `n + 1` is CONNECTED, and over the `n + 1` ticks
exactly one CONNECT event is fired, on tick `n + 1` (and no other event). -/
theorem C7_unreachable_then_reachable (c : Collaborators W) (s : Sys W) (n : Nat)
    (h0 : s.eng._iot_status = CONNECTING)
    (hfail : ∀ i, i < n → (connect c (cloudTicks c i s)).1 = CONNECT_FAILURE)
    (hok : (connect c (cloudTicks c n s)).1 = CONNECT_SUCCESS) :
    (∀ i, i ≤ n → (cloudTicks c i s).eng._iot_status = CONNECTING ∧
      ∀ e, fired e (cloudTicks c i s).log = fired e s.log) ∧
    (cloudTicks c (n + 1) s).eng._iot_status = CONNECTED ∧
    fired ArduinoIoTCloudEvent.CONNECT (cloudTicks c (n + 1) s).log =
      fired ArduinoIoTCloudEvent.CONNECT s.log + 1 ∧
    fired ArduinoIoTCloudEvent.DISCONNECT (cloudTicks c (n + 1) s).log =
      fired ArduinoIoTCloudEvent.DISCONNECT s.log ∧
    fired ArduinoIoTCloudEvent.SYNC (cloudTicks c (n + 1) s).log =
      fired ArduinoIoTCloudEvent.SYNC s.log := by
  have hpre := cloudTicks_connecting c s n h0 hfail
  obtain ⟨hst, hfn⟩ := hpre n (le_refl n)
  refine ⟨hpre, ?_⟩
  simp only [cloudTicks, checkCloudConnection_connecting c _ hst, hok, if_true]
  simp [fired_append, fired_event, connect_fired, hfn]

/-! ## Witnesses for C1 to C7 -/

/-- C1 at a concrete input: the broker accepts, so the tick taken in
CONNECTING ends in CONNECTED. -/
theorem C1_connecting_tick_witness :
    connectingNoThing.eng._iot_status = CONNECTING ∧
    (checkCloudConnection (brokerUpAfter 0) connectingNoThing).2.eng._iot_status = CONNECTED :=
  ⟨rfl, (C1_connecting_tick (brokerUpAfter 0) connectingNoThing (Or.inl rfl)).2.1.mpr
    (by decide)⟩

/-- C2 at a concrete input: the broker refuses the first open. -/
theorem C2_connect_transport_failure_witness :
    ((brokerUpAfter 1).mqttConnect connectingNoThing.eng._brokerAddress
      connectingNoThing.eng._brokerPort connectingNoThing.world).1 = false ∧
    (connect (brokerUpAfter 1) connectingNoThing).1 = CONNECT_FAILURE :=
  ⟨by decide, (C2_connect_transport_failure (brokerUpAfter 1) connectingNoThing
    (by decide)).1⟩

/-- C3 at a concrete input: the session opens and the three subscriptions of
a device without thing succeed. -/
theorem C3_connect_subscription_order_witness :
    ((brokerUpAfter 0).mqttConnect connectingNoThing.eng._brokerAddress
      connectingNoThing.eng._brokerPort connectingNoThing.world).1 = true ∧
    (connect (brokerUpAfter 0) connectingNoThing).1 = CONNECT_SUCCESS :=
  ⟨by decide, (C3_connect_subscription_order (brokerUpAfter 0) connectingNoThing
    (by decide)).2.2.1.mpr (by decide)⟩

/-- C5 at a concrete input: the first tick after power-up. -/
theorem C5_resting_tick_witness :
    (powerUp engineNoThing).eng._iot_status = IDLE ∧
    (checkCloudConnection (brokerUpAfter 0) (powerUp engineNoThing)).2.eng._iot_status =
      CONNECTING :=
  ⟨rfl, (C5_resting_tick (brokerUpAfter 0) (powerUp engineNoThing) (Or.inl rfl)).2.1⟩

/-- C6 at a concrete input: the session that `dropScript` loses on tick 3. -/
theorem C6_connected_tick_witness :
    (droppedSession.1).eng._iot_status = CONNECTED ∧
    (checkCloudConnection dropScript.collaborators droppedSession.1).2.eng._iot_status =
      DISCONNECTED :=
  ⟨by decide, (C6_connected_tick dropScript.collaborators droppedSession.1
    (by decide)).1.mpr (by decide)⟩

/-- C7 at a concrete input: the specification's scenario, a broker unreachable
for 3 ticks and reachable on the 4th. -/
theorem C7_unreachable_then_reachable_witness :
    connectingNoThing.eng._iot_status = CONNECTING ∧
    (cloudTicks (brokerUpAfter 3) 4 connectingNoThing).eng._iot_status = CONNECTED ∧
    fired ArduinoIoTCloudEvent.CONNECT (cloudTicks (brokerUpAfter 3) 4 connectingNoThing).log = 1 :=
  ⟨rfl,
    (C7_unreachable_then_reachable (brokerUpAfter 3) connectingNoThing 3 rfl
      (by decide) (by decide)).2.1,
    (C7_unreachable_then_reachable (brokerUpAfter 3) connectingNoThing 3 rfl
      (by decide) (by decide)).2.2.1⟩

/-! ## `write` and `sendPropertiesToCloud` -/

theorem write_log (c : Collaborators W) (o : WriteOrigin) (topic : String) (data : Bytes)
    (n : Nat) (s : Sys W) :
    (write c o topic data n s).2.log =
      s.log ++ [Action.write o s.eng._syncStatus topic (data.take n)] := by
  unfold write
  simp only []
  split_ifs <;> rfl

theorem write_eng (c : Collaborators W) (o : WriteOrigin) (topic : String) (data : Bytes)
    (n : Nat) (s : Sys W) :
    (write c o topic data n s).2.eng = s.eng := by
  unfold write
  simp only []
  split_ifs <;> rfl

theorem sendPropertiesToCloud_eng (c : Collaborators W) (s : Sys W) :
    (sendPropertiesToCloud c s).eng =
      if (c.encode s.world).1.1 = true ∧ 0 < (c.encode s.world).1.2.length then
        { s.eng with
          _mqtt_data_len := (c.encode s.world).1.2.length
          _mqtt_data_buf := memcpy s.eng._mqtt_data_buf (c.encode s.world).1.2
            (c.encode s.world).1.2.length }
      else s.eng := by
  unfold sendPropertiesToCloud
  simp only []
  split_ifs <;> simp_all [write_eng]

theorem sendPropertiesToCloud_log (c : Collaborators W) (s : Sys W) :
    (sendPropertiesToCloud c s).log =
      s.log ++ Action.encode ::
        (if (c.encode s.world).1.1 = true ∧ 0 < (c.encode s.world).1.2.length then
          [Action.write WriteOrigin.properties s.eng._syncStatus s.eng._dataTopicOut
            (c.encode s.world).1.2]
        else []) := by
  unfold sendPropertiesToCloud
  simp only []
  split_ifs <;> simp_all [write_log, memcpy]

/-- What `sendPropertiesToCloud`, `handleMessage` and the sync switch leave
alone: the connection state, the pending flag and the topics. -/
theorem sendPropertiesToCloud_frame (c : Collaborators W) (s : Sys W) :
    (sendPropertiesToCloud c s).eng._iot_status = s.eng._iot_status ∧
    (sendPropertiesToCloud c s).eng._mqtt_data_request_retransmit =
      s.eng._mqtt_data_request_retransmit ∧
    (sendPropertiesToCloud c s).eng._dataTopicOut = s.eng._dataTopicOut ∧
    (sendPropertiesToCloud c s).eng._syncStatus = s.eng._syncStatus := by
  rw [sendPropertiesToCloud_eng]
  split_ifs <;> simp

theorem onDataIn_spec (c : Collaborators W) (topic : String) (bytes : Bytes) (s : Sys W) :
    (onDataIn c topic bytes s).eng = s.eng ∧
    Extends Action.quiet s (onDataIn c topic bytes s) := by
  unfold onDataIn decode
  split_ifs
  · exact ⟨rfl, Extends.step [Action.decode bytes false] rfl
      (by simp [Action.quiet, Action.isWrite])⟩
  · exact ⟨rfl, Extends.refl _ s⟩

theorem onOtaIn_spec (c : Collaborators W) (topic : String) (bytes : Bytes) (s : Sys W) :
    (onOtaIn c topic bytes s).eng = s.eng ∧
    Extends Action.quiet s (onOtaIn c topic bytes s) := by
  unfold onOtaIn
  split_ifs
  · exact ⟨rfl, Extends.step [Action.otaData bytes] rfl
      (by simp [Action.quiet, Action.isWrite])⟩
  · exact ⟨rfl, Extends.refl _ s⟩
  · exact ⟨rfl, Extends.refl _ s⟩

theorem onShadowIn_frame (c : Collaborators W) (topic : String) (bytes : Bytes) (s : Sys W) :
    (onShadowIn c topic bytes s).eng._iot_status = s.eng._iot_status ∧
    (onShadowIn c topic bytes s).eng._mqtt_data_request_retransmit =
      s.eng._mqtt_data_request_retransmit ∧
    (onShadowIn c topic bytes s).eng._dataTopicOut = s.eng._dataTopicOut := by
  unfold onShadowIn
  split_ifs
  · simp [sendPropertiesToCloud_frame, decode]
  · simp

theorem onShadowIn_extends (c : Collaborators W) (topic : String) (bytes : Bytes) (s : Sys W) :
    Extends (Action.republishOn s.eng._dataTopicOut) s (onShadowIn c topic bytes s) := by
  unfold onShadowIn
  split_ifs with h
  · refine Extends.step (Action.decode bytes true :: Action.encode ::
        (if (c.encode (c.decode bytes true s.world)).1.1 = true ∧
            0 < (c.encode (c.decode bytes true s.world)).1.2.length then
          [Action.write WriteOrigin.properties SYNC_STATUS_WAIT_FOR_CLOUD_VALUES
            s.eng._dataTopicOut (c.encode (c.decode bytes true s.world)).1.2]
        else [])) ?_ ?_
    · simp [sendPropertiesToCloud_log, decode, h.2]
    · intro a ha o sy t d hw
      subst hw
      split_ifs at ha <;> simp at ha
      simp [ha]
  · exact Extends.refl _ s

theorem quiet_republishOn (topic : String) (a : Action) (h : a.quiet) :
    a.republishOn topic := by
  intro o sy t d hw
  subst hw
  simp [Action.quiet, Action.isWrite] at h

theorem handleMessage_frame (c : Collaborators W) (topic : String) (bytes : Bytes)
    (s : Sys W) :
    (handleMessage c topic bytes s).eng._iot_status = s.eng._iot_status ∧
    (handleMessage c topic bytes s).eng._mqtt_data_request_retransmit =
      s.eng._mqtt_data_request_retransmit ∧
    (handleMessage c topic bytes s).eng._dataTopicOut = s.eng._dataTopicOut := by
  unfold handleMessage
  rw [(onOtaIn_spec c topic bytes _).1]
  have h := onShadowIn_frame c topic bytes (onDataIn c topic bytes s)
  rw [(onDataIn_spec c topic bytes s).1] at h
  exact h

/-- Every publication made by `handleMessage` is the re-publication of the
freshly encoded properties on the data-out topic, made while `_syncStatus` is
still WAIT_FOR_CLOUD_VALUES. -/
theorem handleMessage_extends (c : Collaborators W) (topic : String) (bytes : Bytes)
    (s : Sys W) :
    Extends (Action.republishOn s.eng._dataTopicOut) s (handleMessage c topic bytes s) := by
  unfold handleMessage
  have h1 := (onDataIn_spec c topic bytes s).2.mono (quiet_republishOn s.eng._dataTopicOut)
  have h2 := onShadowIn_extends c topic bytes (onDataIn c topic bytes s)
  rw [(onDataIn_spec c topic bytes s).1] at h2
  have h3 := (onOtaIn_spec c topic bytes
    (onShadowIn c topic bytes (onDataIn c topic bytes s))).2.mono
    (quiet_republishOn s.eng._dataTopicOut)
  exact (h1.trans h2).trans h3

/-- The messages dispatched during one poll. -/
theorem dispatch_spec (c : Collaborators W) (msgs : List (String × Bytes)) (s : Sys W) :
    let t := msgs.foldl (fun acc m => handleMessage c m.1 m.2 acc) s
    t.eng._iot_status = s.eng._iot_status ∧
    t.eng._mqtt_data_request_retransmit = s.eng._mqtt_data_request_retransmit ∧
    t.eng._dataTopicOut = s.eng._dataTopicOut ∧
    Extends (Action.republishOn s.eng._dataTopicOut) s t := by
  induction msgs generalizing s with
  | nil => exact ⟨rfl, rfl, rfl, Extends.refl _ s⟩
  | cons m ms ih =>
    obtain ⟨h1, h2, h3, h4⟩ := ih (handleMessage c m.1 m.2 s)
    obtain ⟨f1, f2, f3⟩ := handleMessage_frame c m.1 m.2 s
    rw [f3] at h4
    simp only [List.foldl_cons]
    exact ⟨h1.trans f1, h2.trans f2, h3.trans f3,
      (handleMessage_extends c m.1 m.2 s).trans h4⟩

theorem pollStage_spec (c : Collaborators W) (s : Sys W) :
    (pollStage c s).eng._iot_status = s.eng._iot_status ∧
    (pollStage c s).eng._mqtt_data_request_retransmit = s.eng._mqtt_data_request_retransmit ∧
    (pollStage c s).eng._dataTopicOut = s.eng._dataTopicOut ∧
    Extends (Action.republishOn s.eng._dataTopicOut) s (pollStage c s) := by
  unfold pollStage
  obtain ⟨h1, h2, h3, h4⟩ := dispatch_spec c (c.mqttPoll s.world).1
    { s with world := (c.mqttPoll s.world).2, log := s.log ++ [Action.mqttPoll] }
  refine ⟨h1, h2, h3, ?_⟩
  have h0 : Extends (Action.republishOn s.eng._dataTopicOut) s
      { s with world := (c.mqttPoll s.world).2, log := s.log ++ [Action.mqttPoll] } :=
    Extends.step [Action.mqttPoll] rfl (by simp [Action.republishOn])
  exact h0.trans h4

theorem syncStage_spec (c : Collaborators W) (s : Sys W) :
    (syncStage c s).eng._iot_status = s.eng._iot_status ∧
    (syncStage c s).eng._mqtt_data_request_retransmit = s.eng._mqtt_data_request_retransmit ∧
    (syncStage c s).eng._dataTopicOut = s.eng._dataTopicOut ∧
    (syncStage c s).eng._syncStatus ≠ SYNC_STATUS_VALUES_PROCESSED ∧
    Extends (Action.switchPublishOn s.eng._dataTopicOut) s (syncStage c s) := by
  unfold syncStage
  split
  next h =>
    obtain ⟨f1, f2, f3, f4⟩ := sendPropertiesToCloud_frame c s
    refine ⟨f1, f2, f3, by rw [f4, h]; decide, ?_⟩
    refine Extends.step _ (sendPropertiesToCloud_log c s) ?_
    intro a ha o sy t d hw
    subst hw
    split_ifs at ha <;> simp at ha
    simp [ha, h]
  next h =>
    simp only []
    split_ifs
    · refine ⟨?_, ?_, ?_, ?_, ?_⟩
      · simp [requestLastValue, write_eng]
      · simp [requestLastValue, write_eng]
      · simp [requestLastValue, write_eng]
      · simp [requestLastValue, write_eng, h]
      · refine Extends.step [Action.millis, Action.write WriteOrigin.lastValues
          SYNC_STATUS_WAIT_FOR_CLOUD_VALUES s.eng._shadowTopicOut CBOR_REQUEST_LAST_VALUE_MSG,
          Action.millis] ?_ ?_
        · simp [requestLastValue, write_log, h]
        · intro a ha o sy t d hw
          subst hw
          simp at ha
          simp [ha]
    · refine ⟨rfl, rfl, rfl, by simp [h], ?_⟩
      exact Extends.step [Action.millis] rfl (by simp [Action.switchPublishOn])
  next h =>
    refine ⟨rfl, rfl, rfl, by simp [execCloudEventCallback], ?_⟩
    exact Extends.step [Action.event ArduinoIoTCloudEvent.SYNC] rfl
      (by simp [Action.switchPublishOn])

/-! ## The connection side of a tick -/

theorem reconnect_eng (c : Collaborators W) (s : Sys W) :
    (reconnect c s).2.eng =
      if (reconnect c s).1 = CONNECT_SUCCESS ∧ s.eng._shadowTopicIn ≠ "" then
        { s.eng with _syncStatus := SYNC_STATUS_WAIT_FOR_CLOUD_VALUES,
                     _lastSyncRequestTickTime := 0 }
      else s.eng := by
  unfold reconnect
  simp only []
  rw [connect_eng]
  split_ifs <;> simp_all

theorem reconnect_quiet (c : Collaborators W) (s : Sys W) :
    Extends Action.quiet s (reconnect c s).2 := by
  unfold reconnect
  simp only []
  refine Extends.trans ?_ (connect_quiet c _)
  split_ifs
  · exact Extends.step [Action.mqttConnected, Action.mqttStop] (by simp)
      (by simp [Action.quiet, Action.isWrite])
  · exact Extends.step [Action.mqttConnected] rfl (by simp [Action.quiet, Action.isWrite])

/-- A connection tick publishes nothing and encodes nothing. -/
theorem checkCloudConnection_quiet (c : Collaborators W) (s : Sys W) :
    Extends Action.quiet s (checkCloudConnection c s).2 := by
  rcases hst : s.eng._iot_status with _ | _ | _ | _ | _ | _
  · rw [checkCloudConnection_resting c s (Or.inl hst)]
    exact Extends.refl _ s
  · rw [checkCloudConnection_connecting c s hst]
    split_ifs
    · exact (connect_quiet c s).trans
        (Extends.step [Action.event ArduinoIoTCloudEvent.CONNECT] rfl
          (by simp [Action.quiet, Action.isWrite]))
    · exact connect_quiet c s
  · rw [checkCloudConnection_connected c s hst]
    split_ifs
    · exact Extends.step _ rfl (by simp [Action.quiet, Action.isWrite])
    · exact Extends.step _ rfl (by simp [Action.quiet, Action.isWrite])
  · rw [checkCloudConnection_reconnecting c s hst]
    split_ifs
    · exact (reconnect_quiet c s).trans
        (Extends.step [Action.event ArduinoIoTCloudEvent.CONNECT] rfl
          (by simp [Action.quiet, Action.isWrite]))
    · exact reconnect_quiet c s
  · rw [checkCloudConnection_resting c s (Or.inr (Or.inr hst))]
    exact Extends.refl _ s
  · rw [checkCloudConnection_resting c s (Or.inr (Or.inl hst))]
    exact Extends.refl _ s

/-- A connection tick leaves the cache and the data-out topic alone, and
SyncState either keeps its value or becomes WAIT_FOR_CLOUD_VALUES. -/
theorem checkCloudConnection_frame (c : Collaborators W) (s : Sys W) :
    SameCache s.eng (checkCloudConnection c s).2.eng ∧
    ((checkCloudConnection c s).2.eng._syncStatus = s.eng._syncStatus ∨
      (checkCloudConnection c s).2.eng._syncStatus = SYNC_STATUS_WAIT_FOR_CLOUD_VALUES) := by
  rcases hst : s.eng._iot_status with _ | _ | _ | _ | _ | _
  · rw [checkCloudConnection_resting c s (Or.inl hst)]
    simp [SameCache]
  · rw [checkCloudConnection_connecting c s hst]
    split_ifs <;> simp only [connect_eng] <;> split_ifs <;> simp [SameCache]
  · rw [checkCloudConnection_connected c s hst]
    split_ifs <;> simp [SameCache]
  · rw [checkCloudConnection_reconnecting c s hst]
    split_ifs <;> simp only [reconnect_eng] <;> split_ifs <;> simp [SameCache]
  · rw [checkCloudConnection_resting c s (Or.inr (Or.inr hst))]
    simp [SameCache]
  · rw [checkCloudConnection_resting c s (Or.inr (Or.inl hst))]
    simp [SameCache]

/-- The value `checkCloudConnection` returns is the connection state it leaves. -/
theorem checkCloudConnection_ret (c : Collaborators W) (s : Sys W) :
    (checkCloudConnection c s).1 = (checkCloudConnection c s).2.eng._iot_status := by
  unfold checkCloudConnection
  simp only []
  split_ifs <;> rfl

theorem otaStage_spec (c : Collaborators W) (s : Sys W) :
    (otaStage c s).eng = { s.eng with _ota_error := (otaStage c s).eng._ota_error } ∧
    Extends Action.quiet s (otaStage c s) := by
  unfold otaStage
  split_ifs
  · exact ⟨rfl, Extends.step [Action.otaUpdate] rfl (by simp [Action.quiet, Action.isWrite])⟩
  · exact ⟨rfl, Extends.refl _ s⟩

theorem checkPhyConnection_quiet (c : Collaborators W) (s : Sys W) :
    Extends Action.quiet s (checkPhyConnection c s).2 := by
  unfold checkPhyConnection execCloudEventCallback
  simp only []
  split_ifs
  · exact Extends.step [Action.phyCheck, Action.event ArduinoIoTCloudEvent.DISCONNECT]
      (by simp) (by simp [Action.quiet, Action.isWrite])
  · exact Extends.step [Action.phyCheck] rfl (by simp [Action.quiet, Action.isWrite])
  · exact Extends.step [Action.phyCheck] rfl (by simp [Action.quiet, Action.isWrite])

theorem checkPhyConnection_ret (c : Collaborators W) (s : Sys W) :
    (checkPhyConnection c s).1 = (c.connectionCheck s.world).1 := by
  unfold checkPhyConnection
  simp only []
  split_ifs <;> rfl

theorem checkPhyConnection_up (c : Collaborators W) (s : Sys W)
    (h : (checkPhyConnection c s).1 = NetworkConnectionState.CONNECTED) :
    (checkPhyConnection c s).2.eng = s.eng := by
  rw [checkPhyConnection_ret] at h
  unfold checkPhyConnection
  simp [h]

theorem checkPhyConnection_down (c : Collaborators W) (s : Sys W)
    (h : (checkPhyConnection c s).1 ≠ NetworkConnectionState.CONNECTED) :
    (checkPhyConnection c s).2.eng = { s.eng with _iot_status := DISCONNECTED } := by
  rw [checkPhyConnection_ret] at h
  unfold checkPhyConnection execCloudEventCallback
  simp only [ne_eq, h, not_false_eq_true, if_true]
  split_ifs <;> rfl

theorem linkStage_quiet (c : Collaborators W) (s : Sys W) :
    Extends Action.quiet s (linkStage c s).2 :=
  (otaStage_spec c s).2.trans (checkPhyConnection_quiet c _)

theorem linkStage_up (c : Collaborators W) (s : Sys W)
    (h : (linkStage c s).1 = NetworkConnectionState.CONNECTED) :
    ∃ err, (linkStage c s).2.eng = { s.eng with _ota_error := err } := by
  unfold linkStage at h ⊢
  rw [checkPhyConnection_up c _ h]
  exact ⟨_, (otaStage_spec c s).1⟩

theorem linkStage_down (c : Collaborators W) (s : Sys W)
    (h : (linkStage c s).1 ≠ NetworkConnectionState.CONNECTED) :
    ∃ err, (linkStage c s).2.eng =
      { s.eng with _ota_error := err, _iot_status := DISCONNECTED } := by
  unfold linkStage at h ⊢
  rw [checkPhyConnection_down c _ h, (otaStage_spec c s).1]
  exact ⟨_, rfl⟩

/-! ## `update` as the composition of its stages -/

theorem update_eq_stages (c : Collaborators W) (s : Sys W) :
    update c s =
      if (linkStage c s).1 ≠ NetworkConnectionState.CONNECTED then (linkStage c s).2
      else if (checkCloudConnection c (linkStage c s).2).1 ≠ CONNECTED then
        (checkCloudConnection c (linkStage c s).2).2
      else syncStage c (pollStage c (retransmitStage c
        (checkCloudConnection c (linkStage c s).2).2)) := by
  rfl

theorem update_of_link_down (c : Collaborators W) (s : Sys W)
    (h : (linkStage c s).1 ≠ NetworkConnectionState.CONNECTED) :
    update c s = (linkStage c s).2 := by
  rw [update_eq_stages, if_pos h]

theorem update_of_link_up (c : Collaborators W) (s : Sys W)
    (h : (linkStage c s).1 = NetworkConnectionState.CONNECTED) :
    update c s =
      if (checkCloudConnection c (linkStage c s).2).2.eng._iot_status ≠ CONNECTED then
        (checkCloudConnection c (linkStage c s).2).2
      else syncStage c (pollStage c (retransmitStage c
        (checkCloudConnection c (linkStage c s).2).2)) := by
  rw [update_eq_stages, if_neg (not_not.mpr h), checkCloudConnection_ret]

theorem retransmitStage_armed (c : Collaborators W) (s : Sys W)
    (h1 : s.eng._mqtt_data_request_retransmit = true) (h2 : 0 < s.eng._mqtt_data_len) :
    (retransmitStage c s).eng = { s.eng with _mqtt_data_request_retransmit := false } ∧
    (retransmitStage c s).log =
      s.log ++ [Action.updateTimestamp,
        Action.write WriteOrigin.retransmit s.eng._syncStatus s.eng._dataTopicOut s.eng.cached] := by
  unfold retransmitStage
  simp [h1, h2, write_eng, write_log, ArduinoIoTCloudTCP.cached]

theorem retransmitStage_idle (c : Collaborators W) (s : Sys W)
    (h : ¬ (s.eng._mqtt_data_request_retransmit = true ∧ 0 < s.eng._mqtt_data_len)) :
    (retransmitStage c s).eng = s.eng ∧
    (retransmitStage c s).log = s.log ++ [Action.updateTimestamp] := by
  unfold retransmitStage
  simp only [gt_iff_lt, h, if_false]
  simp

theorem republishOn_not_replay (topic : String) (a : Action) (h : a.republishOn topic) :
    a.isReplay = false := by
  cases a with
  | write o sy t d =>
    have := (h o sy t d rfl).1
    subst this
    rfl
  | _ => rfl

theorem switchPublishOn_not_replay (topic : String) (a : Action)
    (h : a.switchPublishOn topic) : a.isReplay = false := by
  cases a with
  | write o sy t d =>
    rcases h o sy t d rfl with h1 | h1
    · have := h1.1
      subst this
      rfl
    · have := h1.1
      subst this
      rfl
  | _ => rfl

/-- The poll and the sync switch, which end a connected tick, replay nothing
and leave the connection state and the pending flag alone. -/
theorem syncTail_spec (c : Collaborators W) (s : Sys W) :
    (syncStage c (pollStage c s)).eng._iot_status = s.eng._iot_status ∧
    (syncStage c (pollStage c s)).eng._mqtt_data_request_retransmit =
      s.eng._mqtt_data_request_retransmit ∧
    (syncStage c (pollStage c s)).eng._dataTopicOut = s.eng._dataTopicOut ∧
    (syncStage c (pollStage c s)).eng._syncStatus ≠ SYNC_STATUS_VALUES_PROCESSED ∧
    Extends (fun a => a.isReplay = false) s (syncStage c (pollStage c s)) ∧
    Extends (Action.publishOutsideProcessed s.eng._dataTopicOut) s
      (syncStage c (pollStage c s)) := by
  obtain ⟨p1, p2, p3, p4⟩ := pollStage_spec c s
  obtain ⟨q1, q2, q3, q4, q5⟩ := syncStage_spec c (pollStage c s)
  rw [p3] at q5
  refine ⟨q1.trans p1, q2.trans p2, q3.trans p3, q4, ?_, ?_⟩
  · exact (p4.mono (republishOn_not_replay _)).trans (q5.mono (switchPublishOn_not_replay _))
  · refine (p4.mono ?_).trans (q5.mono ?_)
    · intro a ha o sy t d hw
      obtain ⟨h1, h2, h3⟩ := ha o sy t d hw
      subst h2
      exact ⟨by decide, fun _ => h3⟩
    · intro a ha o sy t d hw
      rcases ha o sy t d hw with ⟨h1, h2, h3⟩ | ⟨h1, h2, h3⟩
      · subst h2
        exact ⟨by decide, fun _ => h3⟩
      · subst h2
        exact ⟨by decide, fun hn => absurd h1 hn⟩

/-! ## C8: one replay per disconnect episode -/

theorem updates_add (c : Collaborators W) (s : Sys W) (m n : Nat) :
    updates c (m + n) s = updates c n (updates c m s) := by
  induction n with
  | zero => rfl
  | succ n ih =>
    show update c (updates c (m + n) s) = update c (updates c n (updates c m s))
    rw [ih]

/-- A tick that does not end in CONNECTED, or is not entered with the link up,
publishes nothing and encodes nothing. -/
theorem update_quiet_of_not_connected (c : Collaborators W) (s : Sys W)
    (h : (update c s).eng._iot_status ≠ CONNECTED) :
    Extends Action.quiet s (update c s) := by
  by_cases hl : (linkStage c s).1 = NetworkConnectionState.CONNECTED
  · rw [update_of_link_up c s hl] at h ⊢
    split_ifs at h ⊢ with h1
    · exact (linkStage_quiet c s).trans (checkCloudConnection_quiet c _)
    · obtain ⟨t1, -⟩ := syncTail_spec c
        (retransmitStage c (checkCloudConnection c (linkStage c s).2).2)
      exfalso
      apply h
      rw [t1]
      unfold retransmitStage
      simp only []
      split_ifs
      · simpa [write_eng] using h1
      · simpa using h1
  · rw [update_of_link_down c s hl]
    exact linkStage_quiet c s

theorem quiet_publishOutsideProcessed (topic : String) (a : Action) (h : a.quiet) :
    a.publishOutsideProcessed topic := by
  intro o sy t d hw
  subst hw
  simp [Action.quiet, Action.isWrite] at h

theorem retransmitStage_publish (c : Collaborators W) (s : Sys W)
    (h : s.eng._syncStatus ≠ SYNC_STATUS_VALUES_PROCESSED) :
    (retransmitStage c s).eng._dataTopicOut = s.eng._dataTopicOut ∧
    (retransmitStage c s).eng._iot_status = s.eng._iot_status ∧
    Extends (Action.publishOutsideProcessed s.eng._dataTopicOut) s (retransmitStage c s) := by
  by_cases hp : s.eng._mqtt_data_request_retransmit = true ∧ 0 < s.eng._mqtt_data_len
  · obtain ⟨r1, r2⟩ := retransmitStage_armed c s hp.1 hp.2
    refine ⟨by rw [r1], by rw [r1], Extends.step _ r2 ?_⟩
    intro a ha o sy t d hw
    subst hw
    simp at ha
    obtain ⟨-, h2, h3, -⟩ := ha
    subst h2 h3
    exact ⟨h, fun _ => rfl⟩
  · obtain ⟨r1, r2⟩ := retransmitStage_idle c s hp
    refine ⟨by rw [r1], by rw [r1], Extends.step _ r2 ?_⟩
    intro a ha
    simp only [List.mem_singleton] at ha
    subst ha
    simp [Action.publishOutsideProcessed]

/-- One tick entered outside VALUES_PROCESSED publishes nothing while
SyncState is VALUES_PROCESSED and does not end in VALUES_PROCESSED. -/
theorem update_publish (c : Collaborators W) (s : Sys W)
    (h : s.eng._syncStatus ≠ SYNC_STATUS_VALUES_PROCESSED) :
    (update c s).eng._syncStatus ≠ SYNC_STATUS_VALUES_PROCESSED ∧
    (update c s).eng._dataTopicOut = s.eng._dataTopicOut ∧
    Extends (Action.publishOutsideProcessed s.eng._dataTopicOut) s (update c s) := by
  have hLq := (linkStage_quiet c s).mono (quiet_publishOutsideProcessed s.eng._dataTopicOut)
  by_cases hl : (linkStage c s).1 = NetworkConnectionState.CONNECTED
  · obtain ⟨err, hL⟩ := linkStage_up c s hl
    obtain ⟨hcache, hsync⟩ := checkCloudConnection_frame c (linkStage c s).2
    have hq := (checkCloudConnection_quiet c (linkStage c s).2).mono
      (quiet_publishOutsideProcessed s.eng._dataTopicOut)
    have hqtopic : (checkCloudConnection c (linkStage c s).2).2.eng._dataTopicOut =
        s.eng._dataTopicOut := by rw [hcache.2.2, hL]
    have hqsync : (checkCloudConnection c (linkStage c s).2).2.eng._syncStatus ≠
        SYNC_STATUS_VALUES_PROCESSED := by
      rcases hsync with h1 | h1
      · rw [h1, hL]; exact h
      · rw [h1]; decide
    rw [update_of_link_up c s hl]
    split_ifs with h1
    · exact ⟨hqsync, hqtopic, hLq.trans hq⟩
    · obtain ⟨r1, -, r3⟩ := retransmitStage_publish c _ hqsync
      obtain ⟨-, -, t3, t4, -, t6⟩ := syncTail_spec c
        (retransmitStage c (checkCloudConnection c (linkStage c s).2).2)
      rw [r1, hqtopic] at t6
      rw [hqtopic] at r3
      exact ⟨t4, by rw [t3, r1, hqtopic], ((hLq.trans hq).trans r3).trans t6⟩
  · obtain ⟨err, hL⟩ := linkStage_down c s hl
    rw [update_of_link_down c s hl]
    exact ⟨by rw [hL]; exact h, by rw [hL], hLq⟩

/-- C10, amended. In every run of `update` ticks entered outside
VALUES_PROCESSED (as at power-up), with the inbound messages dispatched to
`handleMessage` from inside the poll: no publication at all is made while
SyncState is VALUES_PROCESSED, SyncState is not VALUES_PROCESSED when a tick
returns, and every publication other than the shadow request goes to the
data-out topic. The sync switch of a tick publishes a property payload only
while SyncState is SYNCHRONIZED (its only other publication is the shadow
request). The publications made outside SYNCHRONIZED are the two others:
`handleMessage` publishes only the freshly encoded properties on data-out, and
does so while SyncState is still WAIT_FOR_CLOUD_VALUES (the re-publication
right after the shadow merge); the retransmit replay is published whatever
SyncState is then, SYNCHRONIZED or WAIT_FOR_CLOUD_VALUES. -/
theorem C10_publication_sync_state (c : Collaborators W) (s : Sys W)
    (h : s.eng._syncStatus ≠ SYNC_STATUS_VALUES_PROCESSED) (n : Nat) :
    (updates c n s).eng._syncStatus ≠ SYNC_STATUS_VALUES_PROCESSED ∧
    (updates c n s).eng._dataTopicOut = s.eng._dataTopicOut ∧
    Extends (Action.publishOutsideProcessed s.eng._dataTopicOut) s (updates c n s) ∧
    (∀ t : Sys W, Extends (Action.switchPublishOn t.eng._dataTopicOut) t (syncStage c t)) ∧
    (∀ (topic : String) (bytes : Bytes) (t : Sys W),
      Extends (Action.republishOn t.eng._dataTopicOut) t (handleMessage c topic bytes t)) := by
  have run : (updates c n s).eng._syncStatus ≠ SYNC_STATUS_VALUES_PROCESSED ∧
      (updates c n s).eng._dataTopicOut = s.eng._dataTopicOut ∧
      Extends (Action.publishOutsideProcessed s.eng._dataTopicOut) s (updates c n s) := by
    induction n with
    | zero => exact ⟨h, rfl, Extends.refl _ s⟩
    | succ n ih =>
      obtain ⟨i1, i2, i3⟩ := ih
      obtain ⟨u1, u2, u3⟩ := update_publish c (updates c n s) i1
      rw [i2] at u3
      exact ⟨u1, u2.trans i2, i3.trans u3⟩
  exact ⟨run.1, run.2.1, run.2.2, fun t => (syncStage_spec c t).2.2.2.2,
    fun topic bytes t => handleMessage_extends c topic bytes t⟩

/-! ## Concrete runs: witnesses, the C10 counterexample, the C9 failing input -/

/-- C10 as stated fails on the `dropScript` session: on tick 2 the shadow
arrives and `handleMessage` publishes the re-encoded properties on the
data-out topic while SyncState is WAIT_FOR_CLOUD_VALUES. -/
theorem C10_counterexample :
    ¬ spec_publishedOnlyWhenSynchronized "/a/t/T1/e/o"
      (updates dropScript.collaborators 2 (powerUp engineWithThing)).log := by
  intro h
  have := h WriteOrigin.properties SYNC_STATUS_WAIT_FOR_CLOUD_VALUES [1, 2, 3] (by decide)
  exact absurd this (by decide)

/-- C10 (amended) at a concrete input: five ticks of the `dropScript` session
from power-up. -/
theorem C10_publication_sync_state_witness :
    (powerUp engineWithThing).eng._syncStatus ≠ SYNC_STATUS_VALUES_PROCESSED ∧
    (updates dropScript.collaborators 5 (powerUp engineWithThing)).eng._syncStatus ≠
      SYNC_STATUS_VALUES_PROCESSED :=
  ⟨by decide, (C10_publication_sync_state dropScript.collaborators (powerUp engineWithThing)
    (by decide) 5).1⟩

/-- C9, the code at the failing input. The `earlyDropScript` session loses the
transport on tick 3 before anything was encoded, so the pending flag is armed
with an empty cache (length 0). The replay of tick 5, guarded by the length,
does not happen and the flag stays set; the same tick then stores and
publishes the fresh payload `[7, 8]`, so the flag is set over a cache that is
not the one present when it was armed. Tick 6, with the session still up,
replays `[7, 8]`: the payload goes out twice although no session was lost
after it was first published. -/
theorem C9_stale_pending_flag :
    ((updates earlyDropScript.collaborators 3 (powerUp engineNoThing)).eng._mqtt_data_request_retransmit
        = true ∧
      (updates earlyDropScript.collaborators 3 (powerUp engineNoThing)).eng._mqtt_data_len = 0 ∧
      (updates earlyDropScript.collaborators 3 (powerUp engineNoThing)).eng.cached = []) ∧
    ((updates earlyDropScript.collaborators 5 (powerUp engineNoThing)).eng._iot_status = CONNECTED ∧
      (updates earlyDropScript.collaborators 5 (powerUp engineNoThing)).eng._mqtt_data_request_retransmit
        = true ∧
      (updates earlyDropScript.collaborators 5 (powerUp engineNoThing)).eng._mqtt_data_len = 2 ∧
      (updates earlyDropScript.collaborators 5 (powerUp engineNoThing)).eng.cached = [7, 8] ∧
      replays (updates earlyDropScript.collaborators 5 (powerUp engineNoThing)).log = 0) ∧
    ((updates earlyDropScript.collaborators 6 (powerUp engineNoThing)).log.filter Action.isWrite =
      [Action.write WriteOrigin.properties SYNC_STATUS_SYNCHRONIZED "/a/d/ABC/e/o" [7, 8],
       Action.write WriteOrigin.retransmit SYNC_STATUS_SYNCHRONIZED "/a/d/ABC/e/o" [7, 8]] ∧
      fired ArduinoIoTCloudEvent.DISCONNECT
        (updates earlyDropScript.collaborators 6 (powerUp engineNoThing)).log = 1) := by
  decide

/-! ## C16: the shadow request -/

theorem requestLastValue_log (c : Collaborators W) (s : Sys W) :
    (requestLastValue c s).log =
      s.log ++ [Action.write WriteOrigin.lastValues s.eng._syncStatus s.eng._shadowTopicOut
        CBOR_REQUEST_LAST_VALUE_MSG] ∧
    (requestLastValue c s).eng = s.eng := by
  unfold requestLastValue
  rw [write_log, write_eng]
  exact ⟨rfl, rfl⟩

/-- C16. The payload `requestLastValue` publishes is the constant
`CBOR_REQUEST_LAST_VALUE_MSG`, whatever the state: 22 bytes, the same bytes in
`ArduinoIoTCloudTCP` and in `ArduinoIoTCloudClass`. Decoded as CBOR they are
the one-element array whose element is the map from 0 to the text `r:m` and
from 3 to the text `getLastValues`, with no byte left over. -/
theorem C16_shadow_request_constant :
    (∀ (W : Type) (c : Collaborators W) (s : Sys W),
      (requestLastValue c s).log =
        s.log ++ [Action.write WriteOrigin.lastValues s.eng._syncStatus s.eng._shadowTopicOut
          CBOR_REQUEST_LAST_VALUE_MSG]) ∧
    (∀ (W : Type) (c : ClassCollaborators W) (s : ClassSys W),
      (ArduinoIoTCloudClass.requestLastValue c s).log =
        s.log ++ [Action.write WriteOrigin.lastValues s.eng._syncStatus s.eng._shadowTopicOut
          ArduinoIoTCloudClass.CBOR_REQUEST_LAST_VALUE_MSG]) ∧
    CBOR_REQUEST_LAST_VALUE_MSG.length = 22 ∧
    ArduinoIoTCloudClass.CBOR_REQUEST_LAST_VALUE_MSG = CBOR_REQUEST_LAST_VALUE_MSG ∧
    (∀ b ∈ CBOR_REQUEST_LAST_VALUE_MSG, b < 256) ∧
    cborDecode CBOR_REQUEST_LAST_VALUE_MSG =
      some (Cbor.array [Cbor.map [(Cbor.uint 0, Cbor.text (asciiBytes "r:m")),
        (Cbor.uint 3, Cbor.text (asciiBytes "getLastValues"))]], []) := by
  refine ⟨fun W c s => (requestLastValue_log c s).1, ?_, rfl, rfl, by decide, by rfl⟩
  intro W c s
  unfold ArduinoIoTCloudClass.requestLastValue ArduinoIoTCloudClass.writeTopic
  simp only []
  split_ifs <;> rfl

/-! ## C17 and C18: topic derivation and dispatch of the older class -/

/-- C17. Topic derivation by `mqttClientBegin` on a freshly constructed
instance with device-id `D` and thing-id `T`: stdin is `/a/d/D/s/i` and stdout
`/a/d/D/s/o`; with `T` empty, data-in is `/a/d/D/e/i`, data-out `/a/d/D/e/o`
and both shadow topics are empty; with `T` not empty, data-in is `/a/t/T/e/i`,
data-out `/a/t/T/e/o`, shadow-in `/a/t/T/shadow/i` and shadow-out
`/a/t/T/shadow/o`. -/
theorem C17_topic_derivation (D T : String) (iot : ArduinoIoTConnectionStatus)
    (sync : ArduinoIoTSynchronizationStatus) :
    let e := (ArduinoIoTCloudClass.fresh D T iot sync).mqttClientBegin
    e._stdinTopic = "/a/d/" ++ D ++ "/s/i" ∧
    e._stdoutTopic = "/a/d/" ++ D ++ "/s/o" ∧
    (T = "" →
      e._dataTopicIn = "/a/d/" ++ D ++ "/e/i" ∧ e._dataTopicOut = "/a/d/" ++ D ++ "/e/o" ∧
      e._shadowTopicIn = "" ∧ e._shadowTopicOut = "") ∧
    (T ≠ "" →
      e._dataTopicIn = "/a/t/" ++ T ++ "/e/i" ∧ e._dataTopicOut = "/a/t/" ++ T ++ "/e/o" ∧
      e._shadowTopicIn = "/a/t/" ++ T ++ "/shadow/i" ∧
      e._shadowTopicOut = "/a/t/" ++ T ++ "/shadow/o") := by
  intro e
  by_cases hT : T = ""
  · simp [e, ArduinoIoTCloudClass.mqttClientBegin, ArduinoIoTCloudClass.fresh,
      ArduinoIoTCloudClass.ctor, hT]
  · simp [e, ArduinoIoTCloudClass.mqttClientBegin, ArduinoIoTCloudClass.fresh,
      ArduinoIoTCloudClass.ctor, hT]

/-- C17 at the inputs of the specification: device "ABC" without thing and
with thing "T1". -/
theorem C17_topic_derivation_witness :
    ((ArduinoIoTCloudClass.fresh "ABC" "" IDLE SYNC_STATUS_SYNCHRONIZED).mqttClientBegin._dataTopicIn
        = "/a/d/ABC/e/i" ∧
      (ArduinoIoTCloudClass.fresh "ABC" "" IDLE SYNC_STATUS_SYNCHRONIZED).mqttClientBegin._shadowTopicIn
        = "") ∧
    ((ArduinoIoTCloudClass.fresh "ABC" "T1" IDLE SYNC_STATUS_SYNCHRONIZED).mqttClientBegin._dataTopicIn
        = "/a/t/T1/e/i" ∧
      (ArduinoIoTCloudClass.fresh "ABC" "T1" IDLE SYNC_STATUS_SYNCHRONIZED).mqttClientBegin._shadowTopicIn
        = "/a/t/T1/shadow/i") :=
  ⟨⟨((C17_topic_derivation "ABC" "" IDLE SYNC_STATUS_SYNCHRONIZED).2.2.1 rfl).1,
    ((C17_topic_derivation "ABC" "" IDLE SYNC_STATUS_SYNCHRONIZED).2.2.1 rfl).2.2.1⟩,
   ⟨((C17_topic_derivation "ABC" "T1" IDLE SYNC_STATUS_SYNCHRONIZED).2.2.2 (by decide)).1,
    ((C17_topic_derivation "ABC" "T1" IDLE SYNC_STATUS_SYNCHRONIZED).2.2.2 (by decide)).2.2.1⟩⟩

/-- The inbound topics derived by `mqttClientBegin` are pairwise distinct. -/
theorem derived_topics_distinct (D T : String) (iot : ArduinoIoTConnectionStatus)
    (sync : ArduinoIoTSynchronizationStatus) :
    let e := (ArduinoIoTCloudClass.fresh D T iot sync).mqttClientBegin
    e._stdinTopic ≠ e._dataTopicIn ∧ e._stdinTopic ≠ e._shadowTopicIn ∧
      e._dataTopicIn ≠ e._shadowTopicIn := by
  intro e
  by_cases hT : T = ""
  · refine ⟨?_, ?_, ?_⟩ <;>
    · intro h
      have := congrArg String.data h
      simp [e, ArduinoIoTCloudClass.mqttClientBegin, ArduinoIoTCloudClass.fresh,
        ArduinoIoTCloudClass.ctor, hT, String.data_append] at this
  · refine ⟨?_, ?_, ?_⟩ <;>
    · intro h
      have := congrArg String.data h
      simp [e, ArduinoIoTCloudClass.mqttClientBegin, ArduinoIoTCloudClass.fresh,
        ArduinoIoTCloudClass.ctor, hT, String.data_append] at this

theorem classWriteTopic_spec (c : ClassCollaborators W) (o : WriteOrigin) (topic : String)
    (data : Bytes) (n : Nat) (s : ClassSys W) :
    (ArduinoIoTCloudClass.writeTopic c o topic data n s).2.log =
      s.log ++ [Action.write o s.eng._syncStatus topic (data.take n)] ∧
    (ArduinoIoTCloudClass.writeTopic c o topic data n s).2.eng = s.eng := by
  unfold ArduinoIoTCloudClass.writeTopic
  simp only []
  split_ifs <;> exact ⟨rfl, rfl⟩

theorem classSend_spec (c : ClassCollaborators W) (s : ClassSys W) :
    (ArduinoIoTCloudClass.sendPropertiesToCloud c s).eng = s.eng ∧
    ∃ d, (ArduinoIoTCloudClass.sendPropertiesToCloud c s).log = s.log ++ d ∧
      deliveries d = 0 := by
  unfold ArduinoIoTCloudClass.sendPropertiesToCloud
  simp only []
  split_ifs
  · refine ⟨by rw [(classWriteTopic_spec c _ _ _ _ _).2],
      [Action.encode, Action.write WriteOrigin.properties s.eng._syncStatus
        s.eng._dataTopicOut ((c.thingEncode s.world).1.2.take (c.thingEncode s.world).1.1.toNat)],
      ?_, ?_⟩
    · rw [(classWriteTopic_spec c _ _ _ _ _).1, List.append_assoc]
      rfl
    · simp [deliveries, Action.isDelivery]
  · exact ⟨rfl, [Action.encode], rfl, by simp [deliveries, Action.isDelivery]⟩

theorem deliveries_append (l d : List Action) :
    deliveries (l ++ d) = deliveries l + deliveries d := by
  simp [deliveries, List.countP_append]

/-- A message handled by the older class is delivered at most once when the
three inbound topics are pairwise distinct. -/
theorem classHandleMessage_deliveries (c : ClassCollaborators W) (topic : String)
    (bytes : Bytes) (s : ClassSys W)
    (h12 : s.eng._stdinTopic ≠ s.eng._dataTopicIn)
    (h13 : s.eng._stdinTopic ≠ s.eng._shadowTopicIn)
    (h23 : s.eng._dataTopicIn ≠ s.eng._shadowTopicIn) :
    ∃ d, (ArduinoIoTCloudClass.handleMessage c topic bytes s).log = s.log ++ d ∧
      deliveries d ≤ 1 := by
  unfold ArduinoIoTCloudClass.handleMessage
  by_cases h1 : s.eng._stdinTopic = topic
  · have h2 : ¬ s.eng._dataTopicIn = topic := fun h => h12 (h1.trans h.symm)
    have h3 : ¬ s.eng._shadowTopicIn = topic := fun h => h13 (h1.trans h.symm)
    simp only [h1, h2, h3, if_true, if_false, false_and]
    exact ⟨[Action.appendStdin bytes], rfl, by simp [deliveries, Action.isDelivery]⟩
  · by_cases h2 : s.eng._dataTopicIn = topic
    · have h3 : ¬ s.eng._shadowTopicIn = topic := fun h => h23 (h2.trans h.symm)
      simp only [h1, h2, h3, if_true, if_false, false_and]
      exact ⟨[Action.decode bytes false], rfl, by simp [deliveries, Action.isDelivery]⟩
    · simp only [h1, h2, if_false]
      split_ifs
      · obtain ⟨-, d, hd, hd0⟩ := classSend_spec c
          { s with world := c.thingDecode bytes true s.world,
                   log := s.log ++ [Action.decode bytes true] }
        refine ⟨Action.decode bytes true :: d, ?_, ?_⟩
        · simp only [hd]
          simp
        · have : deliveries (Action.decode bytes true :: d) =
              deliveries [Action.decode bytes true] + deliveries d := by
            rw [← deliveries_append]; rfl
          rw [this, hd0]
          simp [deliveries, Action.isDelivery]
      · exact ⟨[], by simp, by simp [deliveries]⟩

/-- C18. One category per message. For every device-id `D` and thing-id `T`
the stdin, data-in and shadow-in topics derived by `mqttClientBegin` are
pairwise distinct, so a received topic equals at most one of them; and
`handleMessage`, which compares the received topic with each of them, hands
the message to at most one of the console sink, the property decode and the
shadow-merge decode, whatever the other members and the collaborators are. -/
theorem C18_one_category_per_message (D T : String) (iot : ArduinoIoTConnectionStatus)
    (sync : ArduinoIoTSynchronizationStatus) :
    let e := (ArduinoIoTCloudClass.fresh D T iot sync).mqttClientBegin
    (e._stdinTopic ≠ e._dataTopicIn ∧ e._stdinTopic ≠ e._shadowTopicIn ∧
      e._dataTopicIn ≠ e._shadowTopicIn) ∧
    (∀ topic : String,
      ¬ (e._stdinTopic = topic ∧ e._dataTopicIn = topic) ∧
      ¬ (e._stdinTopic = topic ∧ e._shadowTopicIn = topic) ∧
      ¬ (e._dataTopicIn = topic ∧ e._shadowTopicIn = topic)) ∧
    (∀ (W : Type) (c : ClassCollaborators W) (s : ClassSys W) (topic : String)
        (bytes : Bytes),
      s.eng._stdinTopic = e._stdinTopic → s.eng._dataTopicIn = e._dataTopicIn →
      s.eng._shadowTopicIn = e._shadowTopicIn →
      ∃ d, (ArduinoIoTCloudClass.handleMessage c topic bytes s).log = s.log ++ d ∧
        deliveries d ≤ 1) := by
  intro e
  obtain ⟨h12, h13, h23⟩ := derived_topics_distinct D T iot sync
  refine ⟨⟨h12, h13, h23⟩, fun topic => ⟨?_, ?_, ?_⟩, ?_⟩
  · exact fun h => h12 (h.1.trans h.2.symm)
  · exact fun h => h13 (h.1.trans h.2.symm)
  · exact fun h => h23 (h.1.trans h.2.symm)
  · intro W c s topic bytes e1 e2 e3
    exact classHandleMessage_deliveries c topic bytes s (by rw [e1, e2]; exact h12)
      (by rw [e1, e3]; exact h13) (by rw [e2, e3]; exact h23)

/-- C18 at a concrete input: a shadow-in message for thing "T1" received while
waiting for the cloud values is delivered once, to the shadow-merge decode. -/
theorem C18_one_category_per_message_witness :
    deliveries (ArduinoIoTCloudClass.handleMessage idleClassCollaborators "/a/t/T1/shadow/i" [9]
      { eng := (ArduinoIoTCloudClass.fresh "ABC" "T1" CONNECTED
          SYNC_STATUS_WAIT_FOR_CLOUD_VALUES).mqttClientBegin,
        world := 0, log := [] }).log = 1 ∧
    (ArduinoIoTCloudClass.fresh "ABC" "T1" CONNECTED
      SYNC_STATUS_WAIT_FOR_CLOUD_VALUES).mqttClientBegin._stdinTopic ≠
    (ArduinoIoTCloudClass.fresh "ABC" "T1" CONNECTED
      SYNC_STATUS_WAIT_FOR_CLOUD_VALUES).mqttClientBegin._dataTopicIn :=
  ⟨by decide, (C18_one_category_per_message "ABC" "T1" CONNECTED
    SYNC_STATUS_WAIT_FOR_CLOUD_VALUES).1.1⟩

/-! ## C12, C19, C20: `handleMessage` and `sendPropertiesToCloud` -/

theorem onDataIn_log (c : Collaborators W) (topic : String) (bytes : Bytes) (s : Sys W) :
    (onDataIn c topic bytes s).log =
      s.log ++ (if s.eng._dataTopicIn = topic then [Action.decode bytes false] else []) := by
  unfold onDataIn decode
  split_ifs <;> simp

theorem onOtaIn_log (c : Collaborators W) (topic : String) (bytes : Bytes) (s : Sys W) :
    (onOtaIn c topic bytes s).log =
      s.log ++ (if c.OTA_ENABLED = true ∧ s.eng._ota_topic_in = topic then
        [Action.otaData bytes] else []) := by
  unfold onOtaIn
  split_ifs <;> simp_all

theorem onShadowIn_log (c : Collaborators W) (topic : String) (bytes : Bytes) (s : Sys W) :
    (onShadowIn c topic bytes s).log =
      s.log ++
        (if s.eng._shadowTopicIn = topic ∧
            s.eng._syncStatus = SYNC_STATUS_WAIT_FOR_CLOUD_VALUES then
          Action.decode bytes true :: Action.encode ::
            (if (c.encode (c.decode bytes true s.world)).1.1 = true ∧
                0 < (c.encode (c.decode bytes true s.world)).1.2.length then
              [Action.write WriteOrigin.properties SYNC_STATUS_WAIT_FOR_CLOUD_VALUES
                s.eng._dataTopicOut (c.encode (c.decode bytes true s.world)).1.2]
            else [])
        else []) := by
  unfold onShadowIn
  split_ifs with h h2
  · simp [sendPropertiesToCloud_log, decode, h.2, h2]
  · simp [sendPropertiesToCloud_log, decode, h.2, h2]
  · simp

theorem onShadowIn_sync (c : Collaborators W) (topic : String) (bytes : Bytes) (s : Sys W) :
    (onShadowIn c topic bytes s).eng._syncStatus =
      if s.eng._shadowTopicIn = topic ∧
          s.eng._syncStatus = SYNC_STATUS_WAIT_FOR_CLOUD_VALUES then
        SYNC_STATUS_VALUES_PROCESSED
      else s.eng._syncStatus := by
  unfold onShadowIn
  split_ifs <;> rfl

theorem merges_append (l d : List Action) : merges (l ++ d) = merges l + merges d := by
  simp [merges, List.countP_append]

/-- C19. A message whose topic is none of the data-in, shadow-in and
update-control topics leaves the whole system state as it is: the engine
(SyncState, the retransmit buffer, its length and its pending flag included),
the collaborators (nothing is decoded, nothing is forwarded to the OTA logic)
and the log (no external call, so no publication). -/
theorem C19_unmatched_topic_dropped (c : Collaborators W) (topic : String) (bytes : Bytes)
    (s : Sys W) (h1 : s.eng._dataTopicIn ≠ topic) (h2 : s.eng._shadowTopicIn ≠ topic)
    (h3 : s.eng._ota_topic_in ≠ topic) :
    handleMessage c topic bytes s = s ∧
    (handleMessage c topic bytes s).eng._syncStatus = s.eng._syncStatus ∧
    (handleMessage c topic bytes s).eng._mqtt_data_buf = s.eng._mqtt_data_buf ∧
    (handleMessage c topic bytes s).eng._mqtt_data_len = s.eng._mqtt_data_len ∧
    (handleMessage c topic bytes s).eng._mqtt_data_request_retransmit =
      s.eng._mqtt_data_request_retransmit ∧
    (handleMessage c topic bytes s).world = s.world ∧
    (handleMessage c topic bytes s).log = s.log := by
  have h : handleMessage c topic bytes s = s := by
    simp [handleMessage, onOtaIn, onShadowIn, onDataIn, h1, h2, h3]
  rw [h]
  simp

/-- C19 at a concrete input: a message on the stdin topic of device "ABC". -/
theorem C19_unmatched_topic_dropped_witness :
    sessionWithPayload.eng._dataTopicIn ≠ "/a/d/ABC/s/i" ∧
    handleMessage dropScript.collaborators "/a/d/ABC/s/i" [1] sessionWithPayload =
      sessionWithPayload :=
  ⟨by decide, (C19_unmatched_topic_dropped dropScript.collaborators "/a/d/ABC/s/i" [1]
    sessionWithPayload (by decide) (by decide) (by decide)).1⟩

/-- C11 as stated fails for device "ABC" bound to thing "T1": after the
constructor and `begin` SyncState is SYNCHRONIZED, not WAIT_FOR_CLOUD_VALUES. -/
theorem C11_counterexample :
    (ArduinoIoTCloudTCP.begin true "ABC" "T1" "/a/d/ABC/ota/i" "mqtts-sa.iot.arduino.cc" 8883
        (ArduinoIoTCloudTCP.ctor 256 "" 0)).2._syncStatus ≠ spec_initialSyncState "T1" ∧
    (ArduinoIoTCloudTCP.begin true "ABC" "T1" "/a/d/ABC/ota/i" "mqtts-sa.iot.arduino.cc" 8883
        (ArduinoIoTCloudTCP.ctor 256 "" 0)).2._syncStatus = SYNC_STATUS_SYNCHRONIZED := by
  decide

/-- The engines used in the concrete sessions are the constructor values
followed by `begin`. -/
theorem engines_from_begin :
    engineWithThing =
      (ArduinoIoTCloudTCP.begin true "ABC" "T1" "/a/d/ABC/ota/i" "mqtts-sa.iot.arduino.cc" 8883
        (ArduinoIoTCloudTCP.ctor 256 "" 0)).2 ∧
    engineNoThing =
      (ArduinoIoTCloudTCP.begin true "ABC" "" "/a/d/ABC/ota/i" "mqtts-sa.iot.arduino.cc" 8883
        (ArduinoIoTCloudTCP.ctor 256 "" 0)).2 := by
  constructor <;> rfl


/-! ## The calls of each part of a tick -/

theorem Extends.countP_eq {p : Action → Bool} {s t : Sys W}
    (h : Extends (fun a => p a = false) s t) : t.log.countP p = s.log.countP p := by
  obtain ⟨d, e, q⟩ := h
  have hd : List.countP p d = 0 := by
    rw [List.countP_eq_zero]
    intro a ha
    simp [q a ha]
  simp [e, List.countP_append, hd]

theorem Extends.merges_eq {s t : Sys W}
    (h : Extends (fun a => a.isMerge = false) s t) : merges t.log = merges s.log :=
  h.countP_eq

theorem Extends.requests_eq {s t : Sys W}
    (h : Extends (fun a => a.isRequest = false) s t) : requests t.log = requests s.log :=
  h.countP_eq

theorem connectionCall_facts (a : Action) (h : a.isConnectionCall = true) :
    a.isMerge = false ∧ a.isRequest = false ∧ a.isDecode = false ∧ a.isWrite = false ∧
      a ≠ Action.event ArduinoIoTCloudEvent.SYNC ∧ a ≠ Action.mqttPoll ∧
      a ≠ Action.updateTimestamp := by
  cases a with
  | event e =>
    cases e <;> simp_all [Action.isConnectionCall, Action.isMerge, Action.isRequest,
      Action.isDecode, Action.isWrite]
  | _ =>
    simp_all [Action.isConnectionCall, Action.isMerge, Action.isRequest,
      Action.isDecode, Action.isWrite]

theorem dispatchCall_facts (a : Action) (h : a.isDispatchCall = true) :
    a.isRequest = false ∧ a.isReplay = false ∧
      (∀ e, a ≠ Action.event e) ∧ a ≠ Action.mqttPoll ∧ a ≠ Action.updateTimestamp := by
  cases a with
  | write o sy t d => cases o <;> simp_all [Action.isDispatchCall, Action.isRequest, Action.isReplay]
  | _ => simp_all [Action.isDispatchCall, Action.isRequest, Action.isReplay]

theorem connect_calls (c : Collaborators W) (s : Sys W) :
    Extends (fun a => a.isConnectionCall = true) s (connect c s).2 := by
  unfold connect subscribe
  simp only []
  split_ifs <;>
    exact Extends.step _ (by simp; rfl) (by simp [Action.isConnectionCall])

theorem reconnect_calls (c : Collaborators W) (s : Sys W) :
    Extends (fun a => a.isConnectionCall = true) s (reconnect c s).2 := by
  unfold reconnect
  simp only []
  refine Extends.trans ?_ (connect_calls c _)
  split_ifs
  · exact Extends.step [Action.mqttConnected, Action.mqttStop] (by simp)
      (by simp [Action.isConnectionCall])
  · exact Extends.step [Action.mqttConnected] rfl (by simp [Action.isConnectionCall])

theorem checkCloudConnection_calls (c : Collaborators W) (s : Sys W) :
    Extends (fun a => a.isConnectionCall = true) s (checkCloudConnection c s).2 := by
  rcases hst : s.eng._iot_status with _ | _ | _ | _ | _ | _
  · rw [checkCloudConnection_resting c s (Or.inl hst)]
    exact Extends.refl _ s
  · rw [checkCloudConnection_connecting c s hst]
    split_ifs
    · exact (connect_calls c s).trans
        (Extends.step [Action.event ArduinoIoTCloudEvent.CONNECT] rfl
          (by simp [Action.isConnectionCall]))
    · exact connect_calls c s
  · rw [checkCloudConnection_connected c s hst]
    split_ifs
    · exact Extends.step _ rfl (by simp [Action.isConnectionCall])
    · exact Extends.step _ rfl (by simp [Action.isConnectionCall])
  · rw [checkCloudConnection_reconnecting c s hst]
    split_ifs
    · exact (reconnect_calls c s).trans
        (Extends.step [Action.event ArduinoIoTCloudEvent.CONNECT] rfl
          (by simp [Action.isConnectionCall]))
    · exact reconnect_calls c s
  · rw [checkCloudConnection_resting c s (Or.inr (Or.inr hst))]
    exact Extends.refl _ s
  · rw [checkCloudConnection_resting c s (Or.inr (Or.inl hst))]
    exact Extends.refl _ s

theorem linkStage_calls (c : Collaborators W) (s : Sys W) :
    Extends (fun a => a.isConnectionCall = true) s (linkStage c s).2 := by
  have h1 : Extends (fun a => a.isConnectionCall = true) s (otaStage c s) := by
    unfold otaStage
    split_ifs
    · exact Extends.step [Action.otaUpdate] rfl (by simp [Action.isConnectionCall])
    · exact Extends.refl _ s
  have h2 : Extends (fun a => a.isConnectionCall = true) (otaStage c s)
      (checkPhyConnection c (otaStage c s)).2 := by
    unfold checkPhyConnection execCloudEventCallback
    simp only []
    split_ifs
    · exact Extends.step [Action.phyCheck, Action.event ArduinoIoTCloudEvent.DISCONNECT]
        (by simp) (by simp [Action.isConnectionCall])
    · exact Extends.step [Action.phyCheck] rfl (by simp [Action.isConnectionCall])
    · exact Extends.step [Action.phyCheck] rfl (by simp [Action.isConnectionCall])
  exact h1.trans h2

theorem tickEntry_calls (c : Collaborators W) (s : Sys W) :
    Extends (fun a => a.isConnectionCall = true) s (tickEntry c s) :=
  (linkStage_calls c s).trans (checkCloudConnection_calls c _)

/-- A connection tick that is entered in CONNECTED, or does not end in
CONNECTED, makes no successful `connect`: it leaves SyncState and the
handshake timer alone. -/
theorem checkCloudConnection_sync_kept (c : Collaborators W) (s : Sys W)
    (h : s.eng._iot_status = CONNECTED ∨
      (checkCloudConnection c s).2.eng._iot_status ≠ CONNECTED) :
    (checkCloudConnection c s).2.eng._syncStatus = s.eng._syncStatus ∧
    (checkCloudConnection c s).2.eng._lastSyncRequestTickTime =
      s.eng._lastSyncRequestTickTime := by
  rcases hst : s.eng._iot_status with _ | _ | _ | _ | _ | _
  · rw [checkCloudConnection_resting c s (Or.inl hst)]
    exact ⟨rfl, rfl⟩
  · rw [checkCloudConnection_connecting c s hst] at h ⊢
    by_cases hok : (connect c s).1 = CONNECT_SUCCESS
    · rw [if_pos hok] at h
      rcases h with h | h
      · rw [hst] at h; exact absurd h (by decide)
      · exact absurd rfl h
    · rw [if_neg hok, connect_eng, if_neg (fun hh => hok hh.1)]
      exact ⟨rfl, rfl⟩
  · rw [checkCloudConnection_connected c s hst]
    split_ifs <;> exact ⟨rfl, rfl⟩
  · rw [checkCloudConnection_reconnecting c s hst] at h ⊢
    by_cases hok : (reconnect c s).1 = CONNECT_SUCCESS
    · rw [if_pos hok] at h
      rcases h with h | h
      · rw [hst] at h; exact absurd h (by decide)
      · exact absurd rfl h
    · rw [if_neg hok, reconnect_eng, if_neg (fun hh => hok hh.1)]
      exact ⟨rfl, rfl⟩
  · rw [checkCloudConnection_resting c s (Or.inr (Or.inr hst))]
    exact ⟨rfl, rfl⟩
  · rw [checkCloudConnection_resting c s (Or.inr (Or.inl hst))]
    exact ⟨rfl, rfl⟩

/-- The link stage leaves SyncState, the handshake timer and the topics
alone. -/
theorem linkStage_sync (c : Collaborators W) (s : Sys W) :
    (linkStage c s).2.eng._syncStatus = s.eng._syncStatus ∧
    (linkStage c s).2.eng._lastSyncRequestTickTime = s.eng._lastSyncRequestTickTime ∧
    (linkStage c s).2.eng._shadowTopicIn = s.eng._shadowTopicIn ∧
    (linkStage c s).2.eng._shadowTopicOut = s.eng._shadowTopicOut := by
  by_cases hl : (linkStage c s).1 = NetworkConnectionState.CONNECTED
  · obtain ⟨err, hL⟩ := linkStage_up c s hl
    rw [hL]
    exact ⟨rfl, rfl, rfl, rfl⟩
  · obtain ⟨err, hL⟩ := linkStage_down c s hl
    rw [hL]
    exact ⟨rfl, rfl, rfl, rfl⟩

/-- A live tick entered in CONNECTED runs to its end, and its two connection
checks change nothing of the engine but the OTA error code. -/
theorem update_live (c : Collaborators W) (s : Sys W)
    (hst : s.eng._iot_status = CONNECTED) (hl : Live c s) :
    update c s = syncStage c (switchEntry c s) ∧
    ∃ err, (tickEntry c s).eng = { s.eng with _ota_error := err } := by
  obtain ⟨err, hL⟩ := linkStage_up c s hl.1
  have hLst : (linkStage c s).2.eng._iot_status = CONNECTED := by rw [hL]; exact hst
  have hcc := checkCloudConnection_connected c (linkStage c s).2 hLst
  rw [if_neg (by rw [hl.2]; simp)] at hcc
  have he : (tickEntry c s).eng = (linkStage c s).2.eng := by
    unfold tickEntry; rw [hcc]
  refine ⟨?_, err, by rw [he, hL]⟩
  rw [update_of_link_up c s hl.1, if_neg]
  · rfl
  · have : (checkCloudConnection c (linkStage c s).2).2.eng._iot_status = CONNECTED := by
      rw [hcc]; exact hLst
    simp [this]

/-- What the dirty scan and the replay leave alone, and what they call. -/
theorem retransmitStage_frame (c : Collaborators W) (s : Sys W) :
    (∃ p, (retransmitStage c s).eng = { s.eng with _mqtt_data_request_retransmit := p }) ∧
    Extends (fun a => a = Action.updateTimestamp ∨ a.isReplay = true) s
      (retransmitStage c s) := by
  by_cases hp : s.eng._mqtt_data_request_retransmit = true ∧ 0 < s.eng._mqtt_data_len
  · obtain ⟨r1, r2⟩ := retransmitStage_armed c s hp.1 hp.2
    exact ⟨⟨_, r1⟩, Extends.step _ r2 (by simp [Action.isReplay])⟩
  · obtain ⟨r1, r2⟩ := retransmitStage_idle c s hp
    exact ⟨⟨_, by rw [r1]⟩, Extends.step _ r2 (by simp)⟩

theorem scanCall_facts (a : Action) (h : a = Action.updateTimestamp ∨ a.isReplay = true) :
    a.isMerge = false ∧ a.isRequest = false ∧ a.isDecode = false ∧
      (∀ e, a ≠ Action.event e) ∧ a ≠ Action.mqttPoll := by
  rcases h with h | h
  · subst h
    simp [Action.isMerge, Action.isRequest, Action.isDecode]
  · cases a with
    | write o sy t d => cases o <;> simp_all [Action.isMerge, Action.isRequest, Action.isDecode, Action.isReplay]
    | _ => simp_all [Action.isReplay]

/-! ## The handshake through the poll and the sync switch -/

theorem sendPropertiesToCloud_keeps (c : Collaborators W) (s : Sys W) :
    (sendPropertiesToCloud c s).eng._lastSyncRequestTickTime = s.eng._lastSyncRequestTickTime ∧
    (sendPropertiesToCloud c s).eng._shadowTopicIn = s.eng._shadowTopicIn ∧
    (sendPropertiesToCloud c s).eng._shadowTopicOut = s.eng._shadowTopicOut := by
  rw [sendPropertiesToCloud_eng]
  split_ifs <;> exact ⟨rfl, rfl, rfl⟩

theorem handleMessage_sync (c : Collaborators W) (topic : String) (bytes : Bytes)
    (s : Sys W) :
    (handleMessage c topic bytes s).eng._syncStatus =
      (if s.eng._shadowTopicIn = topic ∧
          s.eng._syncStatus = SYNC_STATUS_WAIT_FOR_CLOUD_VALUES then
        SYNC_STATUS_VALUES_PROCESSED
      else s.eng._syncStatus) ∧
    (handleMessage c topic bytes s).eng._lastSyncRequestTickTime =
      s.eng._lastSyncRequestTickTime ∧
    (handleMessage c topic bytes s).eng._shadowTopicIn = s.eng._shadowTopicIn ∧
    (handleMessage c topic bytes s).eng._shadowTopicOut = s.eng._shadowTopicOut := by
  unfold handleMessage
  rw [(onOtaIn_spec c topic bytes _).1, onShadowIn_sync, (onDataIn_spec c topic bytes s).1]
  refine ⟨rfl, ?_⟩
  have he := (onDataIn_spec c topic bytes s).1
  unfold onShadowIn
  split_ifs
  · simp only []
    obtain ⟨k1, k2, k3⟩ := sendPropertiesToCloud_keeps c (decode c bytes true (onDataIn c topic bytes s))
    rw [k1, k2, k3]
    simp [decode, he]
  · rw [he]
    exact ⟨rfl, rfl, rfl⟩

theorem handleMessage_calls (c : Collaborators W) (topic : String) (bytes : Bytes)
    (s : Sys W) :
    Extends (fun a => a.isDispatchCall = true) s (handleMessage c topic bytes s) := by
  unfold handleMessage
  have h1 : Extends (fun a => a.isDispatchCall = true) s (onDataIn c topic bytes s) :=
    Extends.step _ (onDataIn_log c topic bytes s) (by
      intro a ha
      split_ifs at ha <;> simp at ha
      subst ha; rfl)
  have h2 : Extends (fun a => a.isDispatchCall = true) (onDataIn c topic bytes s)
      (onShadowIn c topic bytes (onDataIn c topic bytes s)) :=
    Extends.step _ (onShadowIn_log c topic bytes _) (by
      intro a ha
      split_ifs at ha <;> simp at ha
      · rcases ha with ha | ha | ha <;> subst ha <;> rfl
      · rcases ha with ha | ha <;> subst ha <;> rfl)
  have h3 : Extends (fun a => a.isDispatchCall = true)
      (onShadowIn c topic bytes (onDataIn c topic bytes s))
      (onOtaIn c topic bytes (onShadowIn c topic bytes (onDataIn c topic bytes s))) :=
    Extends.step _ (onOtaIn_log c topic bytes _) (by
      intro a ha
      split_ifs at ha <;> simp at ha
      subst ha; rfl)
  exact (h1.trans h2).trans h3

theorem handleMessage_budget (c : Collaborators W) (topic : String) (bytes : Bytes)
    (s : Sys W) :
    handshakeBudget (handleMessage c topic bytes s) = handshakeBudget s := by
  have hs := (handleMessage_sync c topic bytes s).1
  unfold handshakeBudget
  rw [hs]
  have hlog : (handleMessage c topic bytes s).log =
      ((onDataIn c topic bytes s).log ++
        (if s.eng._shadowTopicIn = topic ∧
            s.eng._syncStatus = SYNC_STATUS_WAIT_FOR_CLOUD_VALUES then
          Action.decode bytes true :: Action.encode ::
            (if (c.encode (c.decode bytes true (onDataIn c topic bytes s).world)).1.1 = true ∧
                0 < (c.encode (c.decode bytes true (onDataIn c topic bytes s).world)).1.2.length
              then
              [Action.write WriteOrigin.properties SYNC_STATUS_WAIT_FOR_CLOUD_VALUES
                s.eng._dataTopicOut
                (c.encode (c.decode bytes true (onDataIn c topic bytes s).world)).1.2]
            else [])
        else [])) ++
      (if c.OTA_ENABLED = true ∧
          (onShadowIn c topic bytes (onDataIn c topic bytes s)).eng._ota_topic_in = topic then
        [Action.otaData bytes] else []) := by
    unfold handleMessage
    rw [onOtaIn_log, onShadowIn_log, (onDataIn_spec c topic bytes s).1]
  rw [hlog, onDataIn_log]
  simp only [merges_append]
  have e1 : merges (if s.eng._dataTopicIn = topic then [Action.decode bytes false] else []) = 0 := by
    split_ifs <;> simp [merges, Action.isMerge]
  have e4 : merges (if c.OTA_ENABLED = true ∧
      (onShadowIn c topic bytes (onDataIn c topic bytes s)).eng._ota_topic_in = topic then
      [Action.otaData bytes] else []) = 0 := by
    split_ifs <;> simp [merges, Action.isMerge]
  rw [e1, e4]
  by_cases hc : s.eng._shadowTopicIn = topic ∧
      s.eng._syncStatus = SYNC_STATUS_WAIT_FOR_CLOUD_VALUES
  · simp only [hc, and_self, if_true]
    have e3 : merges (Action.decode bytes true :: Action.encode ::
        (if (c.encode (c.decode bytes true (onDataIn c topic bytes s).world)).1.1 = true ∧
            0 < (c.encode (c.decode bytes true (onDataIn c topic bytes s).world)).1.2.length
          then
          [Action.write WriteOrigin.properties SYNC_STATUS_WAIT_FOR_CLOUD_VALUES
            s.eng._dataTopicOut
            (c.encode (c.decode bytes true (onDataIn c topic bytes s).world)).1.2]
        else [])) = 1 := by
      split_ifs <;> simp [merges, Action.isMerge]
    rw [e3]
    simp
  · rw [if_neg hc, if_neg hc]
    simp [merges]

/-- The messages dispatched during one poll: at most the first shadow-in
message received while waiting is merged. -/
theorem dispatch_handshake (c : Collaborators W) (msgs : List (String × Bytes)) (s : Sys W) :
    let t := msgs.foldl (fun acc m => handleMessage c m.1 m.2 acc) s
    t.eng._lastSyncRequestTickTime = s.eng._lastSyncRequestTickTime ∧
    t.eng._shadowTopicIn = s.eng._shadowTopicIn ∧
    t.eng._shadowTopicOut = s.eng._shadowTopicOut ∧
    Extends (fun a => a.isDispatchCall = true) s t ∧
    handshakeBudget t = handshakeBudget s ∧
    (s.eng._syncStatus = SYNC_STATUS_WAIT_FOR_CLOUD_VALUES →
      t.eng._syncStatus = if ∃ m ∈ msgs, m.1 = s.eng._shadowTopicIn then
        SYNC_STATUS_VALUES_PROCESSED else SYNC_STATUS_WAIT_FOR_CLOUD_VALUES) ∧
    (s.eng._syncStatus ≠ SYNC_STATUS_WAIT_FOR_CLOUD_VALUES →
      t.eng._syncStatus = s.eng._syncStatus) := by
  induction msgs generalizing s with
  | nil =>
    refine ⟨rfl, rfl, rfl, Extends.refl _ s, rfl, fun h => ?_, fun _ => rfl⟩
    simp [h]
  | cons m ms ih =>
    obtain ⟨i1, i2, i3, i4, i5, i6, i7⟩ := ih (handleMessage c m.1 m.2 s)
    obtain ⟨f1, f2, f3, f4⟩ := handleMessage_sync c m.1 m.2 s
    simp only [List.foldl_cons]
    refine ⟨i1.trans f2, i2.trans f3, i3.trans f4, (handleMessage_calls c m.1 m.2 s).trans i4,
      i5.trans (handleMessage_budget c m.1 m.2 s), fun hw => ?_, fun hw => ?_⟩
    · by_cases hm : s.eng._shadowTopicIn = m.1
      · have hvp : (handleMessage c m.1 m.2 s).eng._syncStatus =
            SYNC_STATUS_VALUES_PROCESSED := by rw [f1, if_pos ⟨hm, hw⟩]
        rw [i7 (by rw [hvp]; decide), hvp, if_pos ⟨m, by simp, hm.symm⟩]
      · have hk : (handleMessage c m.1 m.2 s).eng._syncStatus =
            SYNC_STATUS_WAIT_FOR_CLOUD_VALUES := by rw [f1, if_neg (fun h => hm h.1), hw]
        rw [i6 hk, f3]
        have : (∃ x ∈ ms, x.1 = s.eng._shadowTopicIn) ↔
            (∃ x ∈ m :: ms, x.1 = s.eng._shadowTopicIn) := by
          constructor
          · rintro ⟨x, hx, hx2⟩
            exact ⟨x, List.mem_cons_of_mem _ hx, hx2⟩
          · rintro ⟨x, hx, hx2⟩
            rcases List.mem_cons.mp hx with h | h
            · subst h; exact absurd hx2.symm hm
            · exact ⟨x, h, hx2⟩
        simp only [this]
    · have hk : (handleMessage c m.1 m.2 s).eng._syncStatus = s.eng._syncStatus := by
        rw [f1, if_neg (fun h => hw h.2)]
      rw [i7 (by rw [hk]; exact hw), hk]

theorem pollStage_handshake (c : Collaborators W) (s : Sys W) :
    (pollStage c s).eng._lastSyncRequestTickTime = s.eng._lastSyncRequestTickTime ∧
    (pollStage c s).eng._shadowTopicIn = s.eng._shadowTopicIn ∧
    (pollStage c s).eng._shadowTopicOut = s.eng._shadowTopicOut ∧
    Extends (fun a => a = Action.mqttPoll ∨ a.isDispatchCall = true) s (pollStage c s) ∧
    handshakeBudget (pollStage c s) = handshakeBudget s ∧
    (s.eng._syncStatus = SYNC_STATUS_WAIT_FOR_CLOUD_VALUES →
      (pollStage c s).eng._syncStatus =
        if ∃ m ∈ (c.mqttPoll s.world).1, m.1 = s.eng._shadowTopicIn then
          SYNC_STATUS_VALUES_PROCESSED else SYNC_STATUS_WAIT_FOR_CLOUD_VALUES) ∧
    (s.eng._syncStatus ≠ SYNC_STATUS_WAIT_FOR_CLOUD_VALUES →
      (pollStage c s).eng._syncStatus = s.eng._syncStatus) := by
  unfold pollStage
  obtain ⟨h1, h2, h3, h4, h5, h6, h7⟩ := dispatch_handshake c (c.mqttPoll s.world).1
    { s with world := (c.mqttPoll s.world).2, log := s.log ++ [Action.mqttPoll] }
  refine ⟨h1, h2, h3, ?_, ?_, h6, h7⟩
  · have h0 : Extends (fun a => a = Action.mqttPoll ∨ a.isDispatchCall = true) s
        { s with world := (c.mqttPoll s.world).2, log := s.log ++ [Action.mqttPoll] } :=
      Extends.step [Action.mqttPoll] rfl (by simp)
    exact h0.trans (h4.mono (fun a ha => Or.inr ha))
  · rw [h5]
    simp [handshakeBudget, merges_append, merges, Action.isMerge]

theorem pollCall_facts (a : Action) (h : a = Action.mqttPoll ∨ a.isDispatchCall = true) :
    a.isRequest = false ∧ a.isReplay = false ∧ (∀ e, a ≠ Action.event e) ∧
      a ≠ Action.updateTimestamp := by
  rcases h with h | h
  · subst h
    simp [Action.isRequest, Action.isReplay]
  · obtain ⟨h1, h2, h3, -, h5⟩ := dispatchCall_facts a h
    exact ⟨h1, h2, h3, h5⟩

/-! ## The sync switch, arm by arm -/

theorem syncStage_synchronized (c : Collaborators W) (s : Sys W)
    (h : s.eng._syncStatus = SYNC_STATUS_SYNCHRONIZED) :
    syncStage c s = sendPropertiesToCloud c s := by
  unfold syncStage
  rw [h]

theorem syncStage_processed (c : Collaborators W) (s : Sys W)
    (h : s.eng._syncStatus = SYNC_STATUS_VALUES_PROCESSED) :
    (syncStage c s).eng = { s.eng with _syncStatus := SYNC_STATUS_SYNCHRONIZED } ∧
    (syncStage c s).log = s.log ++ [Action.event ArduinoIoTCloudEvent.SYNC] := by
  unfold syncStage
  rw [h]
  exact ⟨rfl, rfl⟩

/-- The WAIT_FOR_CLOUD_VALUES arm of the sync switch: the counter is read, and
if the difference with the reference time exceeds the timeout the shadow
request is published and the counter, read again, becomes the reference. -/
theorem syncStage_waiting (c : Collaborators W) (s : Sys W)
    (h : s.eng._syncStatus = SYNC_STATUS_WAIT_FOR_CLOUD_VALUES) :
    let now := (c.millis s.world).1
    let read : Sys W := { s with world := (c.millis s.world).2, log := s.log ++ [Action.millis] }
    (ulongSub now s.eng._lastSyncRequestTickTime > TIMEOUT_FOR_LASTVALUES_SYNC →
      (syncStage c s).eng =
        { s.eng with _lastSyncRequestTickTime :=
            (c.millis (requestLastValue c read).world).1 % 2 ^ 32 } ∧
      (syncStage c s).log =
        s.log ++ [Action.millis,
          Action.write WriteOrigin.lastValues SYNC_STATUS_WAIT_FOR_CLOUD_VALUES
            s.eng._shadowTopicOut CBOR_REQUEST_LAST_VALUE_MSG,
          Action.millis]) ∧
    (¬ ulongSub now s.eng._lastSyncRequestTickTime > TIMEOUT_FOR_LASTVALUES_SYNC →
      (syncStage c s).eng = s.eng ∧ (syncStage c s).log = s.log ++ [Action.millis]) := by
  intro now read
  unfold syncStage
  rw [h]
  simp only []
  refine ⟨fun hd => ?_, fun hd => ?_⟩
  · rw [if_pos hd]
    obtain ⟨r1, r2⟩ := requestLastValue_log c read
    simp only [read] at r1 r2
    refine ⟨?_, ?_⟩
    · simp only [r2]
    · simp only [r1, h]
      simp
  · rw [if_neg hd]
    exact ⟨rfl, rfl⟩

/-- The sync switch makes no shadow merge and keeps the handshake budget. -/
theorem syncStage_budget (c : Collaborators W) (s : Sys W) :
    handshakeBudget (syncStage c s) = handshakeBudget s ∧
    (s.eng._syncStatus = SYNC_STATUS_SYNCHRONIZED →
      (syncStage c s).eng._syncStatus = SYNC_STATUS_SYNCHRONIZED ∧
      fired ArduinoIoTCloudEvent.SYNC (syncStage c s).log =
        fired ArduinoIoTCloudEvent.SYNC s.log) := by
  rcases hs : s.eng._syncStatus with _ | _ | _
  · rw [syncStage_synchronized c s hs]
    have hl := sendPropertiesToCloud_log c s
    have hf := (sendPropertiesToCloud_frame c s).2.2.2
    refine ⟨?_, fun _ => ⟨by rw [hf, hs], ?_⟩⟩
    · unfold handshakeBudget
      rw [hf, hl, merges_append]
      have : merges (Action.encode ::
          (if (c.encode s.world).1.1 = true ∧ 0 < (c.encode s.world).1.2.length then
            [Action.write WriteOrigin.properties s.eng._syncStatus s.eng._dataTopicOut
              (c.encode s.world).1.2]
          else [])) = 0 := by
        split_ifs <;> simp [merges, Action.isMerge]
      rw [this]
      rfl
    · rw [hl, fired_append]
      have : fired ArduinoIoTCloudEvent.SYNC (Action.encode ::
          (if (c.encode s.world).1.1 = true ∧ 0 < (c.encode s.world).1.2.length then
            [Action.write WriteOrigin.properties s.eng._syncStatus s.eng._dataTopicOut
              (c.encode s.world).1.2]
          else [])) = 0 := by
        split_ifs <;> simp [fired]
      rw [this]
      rfl
  · refine ⟨?_, fun h => absurd h (by decide)⟩
    obtain ⟨w1, w2⟩ := syncStage_waiting c s hs
    by_cases hd : ulongSub (c.millis s.world).1 s.eng._lastSyncRequestTickTime >
        TIMEOUT_FOR_LASTVALUES_SYNC
    · obtain ⟨e1, e2⟩ := w1 hd
      unfold handshakeBudget
      rw [e1, e2, merges_append]
      simp [merges, Action.isMerge]
    · obtain ⟨e1, e2⟩ := w2 hd
      unfold handshakeBudget
      rw [e1, e2, merges_append]
      simp [merges, Action.isMerge]
  · refine ⟨?_, fun h => absurd h (by decide)⟩
    obtain ⟨e1, e2⟩ := syncStage_processed c s hs
    unfold handshakeBudget
    rw [e1, e2, merges_append, hs]
    simp [merges, Action.isMerge]

/-! ## One tick without a successful `connect` -/

theorem handshakeBudget_of_calls {Q : Action → Prop} (hQ : ∀ a, Q a → a.isMerge = false)
    {s t : Sys W} (h : Extends Q s t) (hs : t.eng._syncStatus = s.eng._syncStatus) :
    handshakeBudget t = handshakeBudget s := by
  unfold handshakeBudget
  rw [hs, (h.mono hQ).merges_eq]

theorem fired_sync_of_calls {Q : Action → Prop}
    (hQ : ∀ a, Q a → a ≠ Action.event ArduinoIoTCloudEvent.SYNC)
    {s t : Sys W} (h : Extends Q s t) :
    fired ArduinoIoTCloudEvent.SYNC t.log = fired ArduinoIoTCloudEvent.SYNC s.log :=
  (h.mono hQ).fired_eq

/-- The tail of a tick (dirty scan, replay, poll, sync switch) keeps the
handshake budget, and from SYNCHRONIZED it stays there and fires no SYNC. -/
theorem tickTail_budget (c : Collaborators W) (s : Sys W) :
    handshakeBudget (syncStage c (pollStage c (retransmitStage c s))) = handshakeBudget s ∧
    (s.eng._syncStatus = SYNC_STATUS_SYNCHRONIZED →
      (pollStage c (retransmitStage c s)).eng._syncStatus = SYNC_STATUS_SYNCHRONIZED ∧
      (syncStage c (pollStage c (retransmitStage c s))).eng._syncStatus =
        SYNC_STATUS_SYNCHRONIZED ∧
      fired ArduinoIoTCloudEvent.SYNC (syncStage c (pollStage c (retransmitStage c s))).log =
        fired ArduinoIoTCloudEvent.SYNC s.log) := by
  obtain ⟨⟨p, r1⟩, r2⟩ := retransmitStage_frame c s
  have hrs : (retransmitStage c s).eng._syncStatus = s.eng._syncStatus := by rw [r1]
  have hrb : handshakeBudget (retransmitStage c s) = handshakeBudget s :=
    handshakeBudget_of_calls (fun a ha => (scanCall_facts a ha).1) r2 hrs
  obtain ⟨-, -, -, p4, p5, -, p7⟩ := pollStage_handshake c (retransmitStage c s)
  obtain ⟨q1, q2⟩ := syncStage_budget c (pollStage c (retransmitStage c s))
  refine ⟨(q1.trans p5).trans hrb, fun hs => ?_⟩
  have hps : (pollStage c (retransmitStage c s)).eng._syncStatus =
      SYNC_STATUS_SYNCHRONIZED := by
    rw [p7 (by rw [hrs, hs]; decide), hrs, hs]
  obtain ⟨q3, q4⟩ := q2 hps
  refine ⟨hps, q3, ?_⟩
  rw [q4, fired_sync_of_calls (fun a ha => (pollCall_facts a ha).2.2.1 _) p4,
    fired_sync_of_calls (fun a ha => (scanCall_facts a ha).2.2.2.1 _) r2]

/-- A tick that is entered in CONNECTED, or does not end in CONNECTED, makes
no successful `connect`. It keeps the handshake budget, and from SYNCHRONIZED
it ends in SYNCHRONIZED without firing SYNC. -/
theorem update_without_connect (c : Collaborators W) (s : Sys W)
    (h : s.eng._iot_status = CONNECTED ∨ (update c s).eng._iot_status ≠ CONNECTED) :
    handshakeBudget (update c s) = handshakeBudget s ∧
    (s.eng._syncStatus = SYNC_STATUS_SYNCHRONIZED →
      (update c s).eng._syncStatus = SYNC_STATUS_SYNCHRONIZED ∧
      fired ArduinoIoTCloudEvent.SYNC (update c s).log =
        fired ArduinoIoTCloudEvent.SYNC s.log) := by
  obtain ⟨l1, -, -, -⟩ := linkStage_sync c s
  have hLc := linkStage_calls c s
  by_cases hl : (linkStage c s).1 = NetworkConnectionState.CONNECTED
  · obtain ⟨err, hL⟩ := linkStage_up c s hl
    have hqc := checkCloudConnection_calls c (linkStage c s).2
    rw [update_of_link_up c s hl] at h ⊢
    by_cases hq : (checkCloudConnection c (linkStage c s).2).2.eng._iot_status = CONNECTED
    · rw [if_neg (by simp [hq])] at h ⊢
      obtain ⟨t1, -⟩ := syncTail_spec c
        (retransmitStage c (checkCloudConnection c (linkStage c s).2).2)
      have hrst : (retransmitStage c (checkCloudConnection c (linkStage c s).2).2).eng._iot_status
          = CONNECTED := by
        obtain ⟨⟨p, r1⟩, -⟩ := retransmitStage_frame c (checkCloudConnection c (linkStage c s).2).2
        rw [r1]; exact hq
      have hs0 : s.eng._iot_status = CONNECTED := by
        rcases h with h | h
        · exact h
        · exact absurd (t1.trans hrst) h
      obtain ⟨k1, -⟩ := checkCloudConnection_sync_kept c (linkStage c s).2
        (Or.inl (by rw [hL]; exact hs0))
      have hqs : (checkCloudConnection c (linkStage c s).2).2.eng._syncStatus =
          s.eng._syncStatus := k1.trans l1
      have hqb : handshakeBudget (checkCloudConnection c (linkStage c s).2).2 =
          handshakeBudget s :=
        handshakeBudget_of_calls (fun a ha => (connectionCall_facts a ha).1)
          (hLc.trans hqc) hqs
      obtain ⟨b1, b2⟩ := tickTail_budget c (checkCloudConnection c (linkStage c s).2).2
      refine ⟨b1.trans hqb, fun hs => ?_⟩
      obtain ⟨-, b3, b4⟩ := b2 (hqs.trans hs)
      refine ⟨b3, ?_⟩
      rw [b4, fired_sync_of_calls (fun a ha => (connectionCall_facts a ha).2.2.2.2.1)
        (hLc.trans hqc)]
    · rw [if_pos hq] at h ⊢
      obtain ⟨k1, -⟩ := checkCloudConnection_sync_kept c (linkStage c s).2 (Or.inr hq)
      have hqs : (checkCloudConnection c (linkStage c s).2).2.eng._syncStatus =
          s.eng._syncStatus := k1.trans l1
      refine ⟨handshakeBudget_of_calls (fun a ha => (connectionCall_facts a ha).1)
        (hLc.trans hqc) hqs, fun hs => ⟨hqs.trans hs, ?_⟩⟩
      exact fired_sync_of_calls (fun a ha => (connectionCall_facts a ha).2.2.2.2.1)
        (hLc.trans hqc)
  · rw [update_of_link_down c s hl]
    refine ⟨handshakeBudget_of_calls (fun a ha => (connectionCall_facts a ha).1) hLc l1,
      fun hs => ⟨l1.trans hs, ?_⟩⟩
    exact fired_sync_of_calls (fun a ha => (connectionCall_facts a ha).2.2.2.2.1) hLc

/-! ## C14: at most one shadow merge between two successful connects -/

/-- The topics `begin` derives for data-in and shadow-in are distinct. -/
theorem begin_topics_distinct (D T otaTopic address : String) (port : Nat)
    (e : ArduinoIoTCloudTCP) :
    (ArduinoIoTCloudTCP.begin true D T otaTopic address port e).2._dataTopicIn ≠
      (ArduinoIoTCloudTCP.begin true D T otaTopic address port e).2._shadowTopicIn := by
  intro h
  have := congrArg String.data h
  by_cases hT : T = "" <;>
    simp [ArduinoIoTCloudTCP.begin, getTopic_datain, getTopic_shadowin, hT,
      String.data_append] at this

/-- A tick only adds to the log. -/
theorem update_grows (c : Collaborators W) (s : Sys W) :
    Extends (fun _ => True) s (update c s) := by
  have hL := (linkStage_calls c s).mono (fun _ _ => trivial)
  have hq := (checkCloudConnection_calls c (linkStage c s).2).mono (fun _ _ => trivial)
  rw [update_eq_stages]
  split_ifs
  · exact hL
  · exact hL.trans hq
  · have hr := (retransmitStage_frame c (checkCloudConnection c (linkStage c s).2).2).2.mono
      (fun _ _ => trivial)
    have hp := (pollStage_handshake c
      (retransmitStage c (checkCloudConnection c (linkStage c s).2).2)).2.2.2.1.mono
      (fun _ _ => trivial)
    have hs := (syncStage_spec c (pollStage c
      (retransmitStage c (checkCloudConnection c (linkStage c s).2).2))).2.2.2.2.mono
      (fun _ _ => trivial)
    exact (((hL.trans hq).trans hr).trans hp).trans hs

/-- Over ticks none of which makes a successful `connect`, the handshake
budget is constant. -/
theorem updates_budget (c : Collaborators W) (s : Sys W) (n : Nat)
    (h : ∀ i, i < n → (updates c i s).eng._iot_status = CONNECTED ∨
      (updates c (i + 1) s).eng._iot_status ≠ CONNECTED) :
    handshakeBudget (updates c n s) = handshakeBudget s := by
  induction n with
  | zero => rfl
  | succ n ih =>
    have h1 := ih (fun i hi => h i (by omega))
    have h2 := (update_without_connect c (updates c n s) (h n (by omega))).1
    exact h2.trans h1

/-- C14. A message on the shadow-in topic (which is not also the data-in
topic; the topics `begin` derives never coincide) dispatched while SyncState
is SYNCHRONIZED or VALUES_PROCESSED leaves the engine unchanged, SyncState
included, and causes no decode, no call of the encoder and no publication:
the only call it can cause is the OTA forwarding, if the topic is also the
update-control topic. And over any run of ticks in which no `connect`
succeeds (every tick is entered in CONNECTED or does not end in CONNECTED), at
most one message is processed as a shadow merge, and none if SyncState is not
WAIT_FOR_CLOUD_VALUES at the start. -/
theorem C14_one_merge_per_connect (c : Collaborators W) (s : Sys W) :
    (∀ (topic : String) (bytes : Bytes), s.eng._shadowTopicIn = topic →
      s.eng._dataTopicIn ≠ topic →
      (s.eng._syncStatus = SYNC_STATUS_SYNCHRONIZED ∨
        s.eng._syncStatus = SYNC_STATUS_VALUES_PROCESSED) →
      (handleMessage c topic bytes s).eng = s.eng ∧
      (handleMessage c topic bytes s).log =
        s.log ++ (if c.OTA_ENABLED = true ∧ s.eng._ota_topic_in = topic then
          [Action.otaData bytes] else []) ∧
      Extends (fun a => a.isDecode = false ∧ a.isWrite = false ∧ a ≠ Action.encode) s
        (handleMessage c topic bytes s)) ∧
    (∀ n, (∀ i, i < n → (updates c i s).eng._iot_status = CONNECTED ∨
        (updates c (i + 1) s).eng._iot_status ≠ CONNECTED) →
      merges (updates c n s).log ≤ merges s.log + 1 ∧
      (s.eng._syncStatus ≠ SYNC_STATUS_WAIT_FOR_CLOUD_VALUES →
        merges (updates c n s).log = merges s.log)) ∧
    (∀ (D T otaTopic address : String) (port : Nat) (e : ArduinoIoTCloudTCP),
      (ArduinoIoTCloudTCP.begin true D T otaTopic address port e).2._dataTopicIn ≠
        (ArduinoIoTCloudTCP.begin true D T otaTopic address port e).2._shadowTopicIn) := by
  refine ⟨?_, ?_, fun D T o a p e => begin_topics_distinct D T o a p e⟩
  · intro topic bytes ht hd hs
    have hnw : s.eng._syncStatus ≠ SYNC_STATUS_WAIT_FOR_CLOUD_VALUES := by
      rcases hs with h | h <;> rw [h] <;> decide
    have h1 : onDataIn c topic bytes s = s := by simp [onDataIn, hd]
    have h2 : onShadowIn c topic bytes s = s := by simp [onShadowIn, hnw]
    have hm : handleMessage c topic bytes s = onOtaIn c topic bytes s := by
      unfold handleMessage
      rw [h1, h2]
    have hl := onOtaIn_log c topic bytes s
    rw [hm]
    refine ⟨(onOtaIn_spec c topic bytes s).1, hl, Extends.step _ hl ?_⟩
    intro a ha
    split_ifs at ha <;> simp at ha
    subst ha
    simp [Action.isDecode, Action.isWrite]
  · intro n hn
    have hb := updates_budget c s n hn
    unfold handshakeBudget at hb
    constructor
    · have : merges (updates c n s).log ≤ merges s.log +
          (if s.eng._syncStatus = SYNC_STATUS_WAIT_FOR_CLOUD_VALUES then 1 else 0) := by
        rw [← hb]; exact Nat.le_add_right _ _
      refine le_trans this ?_
      split_ifs <;> omega
    · intro hnw
      rw [if_neg hnw] at hb
      have hle : merges s.log ≤ merges (updates c n s).log := by
        clear hb
        induction n with
        | zero => exact le_refl _
        | succ n ih =>
          refine le_trans (ih (fun i hi => hn i (by omega))) ?_
          obtain ⟨d, hd, -⟩ := update_grows c (updates c n s)
          show merges (updates c n s).log ≤ merges (update c (updates c n s)).log
          rw [hd, merges_append]
          exact Nat.le_add_right _ _
      omega

/-- C14 at a concrete input: a second shadow message for the `dropScript`
session, dispatched after the handshake, when SyncState is SYNCHRONIZED. -/
theorem C14_one_merge_per_connect_witness :
    (sessionWithPayload.eng._shadowTopicIn = "/a/t/T1/shadow/i" ∧
      sessionWithPayload.eng._syncStatus = SYNC_STATUS_SYNCHRONIZED) ∧
    (handleMessage dropScript.collaborators "/a/t/T1/shadow/i" [9] sessionWithPayload).eng =
      sessionWithPayload.eng :=
  ⟨⟨by decide, by decide⟩,
    ((C14_one_merge_per_connect dropScript.collaborators sessionWithPayload).1
      "/a/t/T1/shadow/i" [9] (by decide) (by decide) (Or.inl (by decide))).1⟩

/-! ## C13: the handshake ends with exactly one SYNC -/

/-- The state in which the switch of a live tick entered in CONNECTED is
entered: SyncState as the poll left it, the timer and the shadow topics as at
the start of the tick, and no SYNC fired so far in the tick. -/
theorem switchEntry_live (c : Collaborators W) (s : Sys W)
    (hst : s.eng._iot_status = CONNECTED) (hl : Live c s) :
    (switchEntry c s).eng._lastSyncRequestTickTime = s.eng._lastSyncRequestTickTime ∧
    (switchEntry c s).eng._shadowTopicIn = s.eng._shadowTopicIn ∧
    (switchEntry c s).eng._shadowTopicOut = s.eng._shadowTopicOut ∧
    (switchEntry c s).eng._iot_status = CONNECTED ∧
    fired ArduinoIoTCloudEvent.SYNC (switchEntry c s).log =
      fired ArduinoIoTCloudEvent.SYNC s.log ∧
    requests (switchEntry c s).log = requests s.log ∧
    (s.eng._syncStatus = SYNC_STATUS_WAIT_FOR_CLOUD_VALUES →
      (switchEntry c s).eng._syncStatus =
        if ∃ m ∈ polled c s, m.1 = s.eng._shadowTopicIn then
          SYNC_STATUS_VALUES_PROCESSED else SYNC_STATUS_WAIT_FOR_CLOUD_VALUES) ∧
    (s.eng._syncStatus ≠ SYNC_STATUS_WAIT_FOR_CLOUD_VALUES →
      (switchEntry c s).eng._syncStatus = s.eng._syncStatus) := by
  obtain ⟨-, err, he⟩ := update_live c s hst hl
  obtain ⟨⟨p, r1⟩, r2⟩ := retransmitStage_frame c (tickEntry c s)
  obtain ⟨p1, p2, p3, p4, -, p6, p7⟩ := pollStage_handshake c (retransmitStage c (tickEntry c s))
  obtain ⟨f1, -⟩ := pollStage_spec c (retransmitStage c (tickEntry c s))
  have hc := tickEntry_calls c s
  have hrs : (retransmitStage c (tickEntry c s)).eng._syncStatus = s.eng._syncStatus := by
    rw [r1, he]
  have hrt : (retransmitStage c (tickEntry c s)).eng._shadowTopicIn = s.eng._shadowTopicIn := by
    rw [r1, he]
  unfold switchEntry
  refine ⟨by rw [p1, r1, he], by rw [p2, hrt], by rw [p3, r1, he],
    by rw [f1, r1, he]; exact hst, ?_, ?_, fun hw => ?_, fun hw => ?_⟩
  · rw [fired_sync_of_calls (fun a ha => (pollCall_facts a ha).2.2.1 _) p4,
      fired_sync_of_calls (fun a ha => (scanCall_facts a ha).2.2.2.1 _) r2,
      fired_sync_of_calls (fun a ha => (connectionCall_facts a ha).2.2.2.2.1) hc]
  · rw [(p4.mono (fun a ha => (pollCall_facts a ha).1)).requests_eq,
      (r2.mono (fun a ha => (scanCall_facts a ha).2.1)).requests_eq,
      (hc.mono (fun a ha => (connectionCall_facts a ha).2.1)).requests_eq]
  · rw [p6 (by rw [hrs]; exact hw), hrt]
    rfl
  · rw [p7 (by rw [hrs]; exact hw), hrs]

/-- A live tick entered in CONNECTED and WAIT_FOR_CLOUD_VALUES whose poll
brings no shadow-in message: the engine keeps waiting and fires no SYNC. -/
theorem update_waiting (c : Collaborators W) (s : Sys W)
    (hst : s.eng._iot_status = CONNECTED)
    (hw : s.eng._syncStatus = SYNC_STATUS_WAIT_FOR_CLOUD_VALUES) (hl : Live c s)
    (hnone : ∀ m ∈ polled c s, m.1 ≠ s.eng._shadowTopicIn) :
    (switchEntry c s).eng._syncStatus = SYNC_STATUS_WAIT_FOR_CLOUD_VALUES ∧
    (update c s).eng._syncStatus = SYNC_STATUS_WAIT_FOR_CLOUD_VALUES ∧
    (update c s).eng._iot_status = CONNECTED ∧
    (update c s).eng._shadowTopicIn = s.eng._shadowTopicIn ∧
    fired ArduinoIoTCloudEvent.SYNC (update c s).log =
      fired ArduinoIoTCloudEvent.SYNC s.log := by
  obtain ⟨hu, -⟩ := update_live c s hst hl
  obtain ⟨-, s2, -, s4, s5, -, s7, -⟩ := switchEntry_live c s hst hl
  have hsw : (switchEntry c s).eng._syncStatus = SYNC_STATUS_WAIT_FOR_CLOUD_VALUES := by
    rw [s7 hw, if_neg]
    rintro ⟨m, hm, hm2⟩
    exact hnone m hm hm2
  obtain ⟨w1, w2⟩ := syncStage_waiting c (switchEntry c s) hsw
  rw [hu]
  by_cases hd : ulongSub (c.millis (switchEntry c s).world).1
      (switchEntry c s).eng._lastSyncRequestTickTime > TIMEOUT_FOR_LASTVALUES_SYNC
  · obtain ⟨e1, e2⟩ := w1 hd
    refine ⟨hsw, by rw [e1]; exact hsw, by rw [e1]; exact s4, by rw [e1]; exact s2, ?_⟩
    rw [e2, fired_append, s5]
    simp [fired]
  · obtain ⟨e1, e2⟩ := w2 hd
    refine ⟨hsw, by rw [e1]; exact hsw, by rw [e1]; exact s4, by rw [e1]; exact s2, ?_⟩
    rw [e2, fired_append, s5]
    simp [fired]

/-- A live tick entered in CONNECTED and WAIT_FOR_CLOUD_VALUES whose poll
brings a shadow-in message: the switch of that same tick is entered in
VALUES_PROCESSED, fires SYNC once and leaves SYNCHRONIZED. -/
theorem update_arrival (c : Collaborators W) (s : Sys W)
    (hst : s.eng._iot_status = CONNECTED)
    (hw : s.eng._syncStatus = SYNC_STATUS_WAIT_FOR_CLOUD_VALUES) (hl : Live c s)
    (hsome : ∃ m ∈ polled c s, m.1 = s.eng._shadowTopicIn) :
    (switchEntry c s).eng._syncStatus = SYNC_STATUS_VALUES_PROCESSED ∧
    (update c s).eng._syncStatus = SYNC_STATUS_SYNCHRONIZED ∧
    (update c s).eng._iot_status = CONNECTED ∧
    fired ArduinoIoTCloudEvent.SYNC (update c s).log =
      fired ArduinoIoTCloudEvent.SYNC s.log + 1 := by
  obtain ⟨hu, -⟩ := update_live c s hst hl
  obtain ⟨-, -, -, s4, s5, -, s7, -⟩ := switchEntry_live c s hst hl
  have hsw : (switchEntry c s).eng._syncStatus = SYNC_STATUS_VALUES_PROCESSED := by
    rw [s7 hw, if_pos hsome]
  obtain ⟨e1, e2⟩ := syncStage_processed c (switchEntry c s) hsw
  rw [hu]
  refine ⟨hsw, by rw [e1], by rw [e1]; exact s4, ?_⟩
  rw [e2, fired_append, s5]
  simp [fired]

/-- Ticks entered in CONNECTED and SYNCHRONIZED stay SYNCHRONIZED and fire no
SYNC. -/
theorem updates_synchronized (c : Collaborators W) (s : Sys W)
    (hs : s.eng._syncStatus = SYNC_STATUS_SYNCHRONIZED) (j : Nat)
    (hst : ∀ l, l < j → (updates c l s).eng._iot_status = CONNECTED) :
    (updates c j s).eng._syncStatus = SYNC_STATUS_SYNCHRONIZED ∧
    fired ArduinoIoTCloudEvent.SYNC (updates c j s).log =
      fired ArduinoIoTCloudEvent.SYNC s.log := by
  induction j with
  | zero => exact ⟨hs, rfl⟩
  | succ j ih =>
    obtain ⟨i1, i2⟩ := ih (fun l hl => hst l (by omega))
    obtain ⟨u1, u2⟩ := (update_without_connect c (updates c j s)
      (Or.inl (hst j (by omega)))).2 i1
    exact ⟨u1, u2.trans i2⟩

/-- The waiting ticks of a handshake. -/
theorem updates_waiting (c : Collaborators W) (s : Sys W) (k : Nat)
    (hst : s.eng._iot_status = CONNECTED)
    (hw : s.eng._syncStatus = SYNC_STATUS_WAIT_FOR_CLOUD_VALUES)
    (hlive : ∀ i, i < k → Live c (updates c i s))
    (hnone : ∀ i, i < k → ∀ m ∈ polled c (updates c i s), m.1 ≠ s.eng._shadowTopicIn) :
    ∀ i, i ≤ k →
      (updates c i s).eng._syncStatus = SYNC_STATUS_WAIT_FOR_CLOUD_VALUES ∧
      (updates c i s).eng._iot_status = CONNECTED ∧
      (updates c i s).eng._shadowTopicIn = s.eng._shadowTopicIn ∧
      fired ArduinoIoTCloudEvent.SYNC (updates c i s).log =
        fired ArduinoIoTCloudEvent.SYNC s.log := by
  intro i
  induction i with
  | zero => intro _; exact ⟨hw, hst, rfl, rfl⟩
  | succ i ih =>
    intro hi
    obtain ⟨i1, i2, i3, i4⟩ := ih (by omega)
    obtain ⟨-, u2, u3, u4, u5⟩ := update_waiting c (updates c i s) i2 i1 (hlive i (by omega))
      (by rw [i3]; exact hnone i (by omega))
    exact ⟨u2, u3, u4.trans i3, u5.trans i4⟩

/-- C13. Start CONNECTED in WAIT_FOR_CLOUD_VALUES and let the ticks be live
(link up, session connected). If the polls of the first `k` ticks bring no
shadow-in message and the poll of the next tick brings one, then: SyncState is
WAIT_FOR_CLOUD_VALUES after each of the first `k` ticks, whose switch is
entered in WAIT_FOR_CLOUD_VALUES, and no SYNC is fired in them; the switch of
tick `k + 1`, the tick whose poll dispatched the message, is the one entered
in VALUES_PROCESSED; that tick ends in SYNCHRONIZED and fires SYNC exactly
once; and in the later ticks, for as long as they are entered in CONNECTED,
the switch is entered in SYNCHRONIZED, SyncState stays SYNCHRONIZED and SYNC is
not fired again. -/
theorem C13_sync_fired_once (c : Collaborators W) (s : Sys W) (k : Nat)
    (hst : s.eng._iot_status = CONNECTED)
    (hw : s.eng._syncStatus = SYNC_STATUS_WAIT_FOR_CLOUD_VALUES)
    (hlive : ∀ i, i ≤ k → Live c (updates c i s))
    (hnone : ∀ i, i < k → ∀ m ∈ polled c (updates c i s), m.1 ≠ s.eng._shadowTopicIn)
    (hsome : ∃ m ∈ polled c (updates c k s), m.1 = s.eng._shadowTopicIn) :
    (∀ i, i ≤ k →
      (updates c i s).eng._syncStatus = SYNC_STATUS_WAIT_FOR_CLOUD_VALUES ∧
      fired ArduinoIoTCloudEvent.SYNC (updates c i s).log =
        fired ArduinoIoTCloudEvent.SYNC s.log) ∧
    (∀ i, i < k →
      (switchEntry c (updates c i s)).eng._syncStatus = SYNC_STATUS_WAIT_FOR_CLOUD_VALUES) ∧
    (switchEntry c (updates c k s)).eng._syncStatus = SYNC_STATUS_VALUES_PROCESSED ∧
    (updates c (k + 1) s).eng._syncStatus = SYNC_STATUS_SYNCHRONIZED ∧
    fired ArduinoIoTCloudEvent.SYNC (updates c (k + 1) s).log =
      fired ArduinoIoTCloudEvent.SYNC s.log + 1 ∧
    ∀ j, (∀ l, l < j → (updates c (k + 1 + l) s).eng._iot_status = CONNECTED) →
      (updates c (k + 1 + j) s).eng._syncStatus = SYNC_STATUS_SYNCHRONIZED ∧
      fired ArduinoIoTCloudEvent.SYNC (updates c (k + 1 + j) s).log =
        fired ArduinoIoTCloudEvent.SYNC s.log + 1 ∧
      ∀ l, l < j →
        (switchEntry c (updates c (k + 1 + l) s)).eng._syncStatus =
          SYNC_STATUS_SYNCHRONIZED := by
  have hwait := updates_waiting c s k hst hw (fun i hi => hlive i (by omega)) hnone
  obtain ⟨k1, k2, k3, k4⟩ := hwait k (le_refl k)
  obtain ⟨a1, a2, a3, a4⟩ := update_arrival c (updates c k s) k2 k1 (hlive k (le_refl k))
    (by rw [k3]; exact hsome)
  have e1 : updates c (k + 1) s = update c (updates c k s) := rfl
  rw [← e1] at a2 a3 a4
  refine ⟨fun i hi => ⟨(hwait i hi).1, (hwait i hi).2.2.2⟩, fun i hi => ?_, a1, a2,
    a4.trans (by rw [k4]), fun j hj => ?_⟩
  · obtain ⟨i1, i2, i3, -⟩ := hwait i (by omega)
    exact (update_waiting c (updates c i s) i2 i1 (hlive i (by omega))
      (by rw [i3]; exact hnone i hi)).1
  · have hrun : ∀ l, l ≤ j →
        (updates c (k + 1 + l) s).eng._syncStatus = SYNC_STATUS_SYNCHRONIZED ∧
        fired ArduinoIoTCloudEvent.SYNC (updates c (k + 1 + l) s).log =
          fired ArduinoIoTCloudEvent.SYNC s.log + 1 := by
      intro l hl
      have := updates_synchronized c (updates c (k + 1) s) a2 l
        (fun m hm => by rw [← updates_add]; exact hj m (by omega))
      rw [← updates_add] at this
      exact ⟨this.1, this.2.trans (a4.trans (by rw [k4]))⟩
    refine ⟨(hrun j (le_refl j)).1, (hrun j (le_refl j)).2, fun l hl => ?_⟩
    have hs := (hrun l (by omega)).1
    have hc := hj l hl
    obtain ⟨⟨p, r1⟩, -⟩ := retransmitStage_frame c (tickEntry c (updates c (k + 1 + l) s))
    obtain ⟨-, -, -, -, -, -, p7⟩ := pollStage_handshake c
      (retransmitStage c (tickEntry c (updates c (k + 1 + l) s)))
    have hte : (tickEntry c (updates c (k + 1 + l) s)).eng._syncStatus =
        SYNC_STATUS_SYNCHRONIZED := by
      unfold tickEntry
      obtain ⟨l1, -⟩ := linkStage_sync c (updates c (k + 1 + l) s)
      by_cases hlk : (linkStage c (updates c (k + 1 + l) s)).1 = NetworkConnectionState.CONNECTED
      · obtain ⟨err, hL⟩ := linkStage_up c _ hlk
        rw [(checkCloudConnection_sync_kept c _ (Or.inl (by rw [hL]; exact hc))).1, l1, hs]
      · obtain ⟨err, hL⟩ := linkStage_down c _ hlk
        have hr := checkCloudConnection_resting c (linkStage c (updates c (k + 1 + l) s)).2
          (Or.inr (Or.inr (by rw [hL])))
        rw [hr]
        exact l1.trans hs
    unfold switchEntry
    rw [p7 (by rw [r1]; simp [hte]), r1]
    exact hte

/-- C13 at a concrete input: the `handshakeScript` session from tick 2 on; the
polls of ticks 3 and 4 bring nothing, the poll of tick 5 brings the shadow. -/
theorem C13_sync_fired_once_witness :
    (waitingSession.eng._iot_status = CONNECTED ∧
      waitingSession.eng._syncStatus = SYNC_STATUS_WAIT_FOR_CLOUD_VALUES) ∧
    (updates handshakeScript.collaborators 3 waitingSession).eng._syncStatus =
      SYNC_STATUS_SYNCHRONIZED ∧
    fired ArduinoIoTCloudEvent.SYNC (updates handshakeScript.collaborators 3 waitingSession).log =
      fired ArduinoIoTCloudEvent.SYNC waitingSession.log + 1 :=
  have h := C13_sync_fired_once handshakeScript.collaborators waitingSession 2
    (by decide) (by decide) (by decide) (by decide) (by decide)
  ⟨⟨by decide, by decide⟩, h.2.2.2.1, h.2.2.2.2.1⟩

/-! ## C15: the timer of the shadow request -/

theorem getTime_unfold (epoch : Nat) (h : ConnectionHandler W) (s : TimeSys W) :
    TimeService.getTime epoch { _con_hdl := some h } s =
      if epoch ≤ (h.getTime s.world).1 then
        ((h.getTime s.world).1,
          { world := (h.getTime s.world).2,
            queries := s.queries ++ [TimeQuery.connectionTime] })
      else
        ((if epoch ≤ (h.ntpGetTime (h.getTime s.world).2).1 then
            (h.ntpGetTime (h.getTime s.world).2).1 else 0),
          { world := (h.ntpGetTime (h.getTime s.world).2).2,
            queries := s.queries ++ [TimeQuery.connectionTime, TimeQuery.ntpTime] }) := by
  by_cases h1 : epoch ≤ (h.getTime s.world).1
  · simp [TimeService.getTime, TimeService.isTimeValid, h1]
  · by_cases h2 : epoch ≤ (h.ntpGetTime (h.getTime s.world).2).1
    · simp [TimeService.getTime, TimeService.isTimeValid, h1, h2]
    · simp [TimeService.getTime, TimeService.isTimeValid, h1, h2]

/-- C28: `TimeService::getTime` returns 0 and queries nothing when no
connection handler is set; with a handler it returns what the specification
says (the handler time if it is at least the compile-time epoch, else the NTP
time if that is, else 0). Every result is 0 or at least the epoch, the handler
is queried exactly once first, and NTP is queried, once, exactly when the
handler time is below the epoch. -/
theorem C28_getTime (epoch : Nat) (t : TimeService W) (s : TimeSys W) :
    (t._con_hdl = none → TimeService.getTime epoch t s = (0, s)) ∧
    (∀ h, t._con_hdl = some h →
      (TimeService.getTime epoch t s).1 =
        spec_getTime epoch (some (h.getTime s.world).1)
          (h.ntpGetTime (h.getTime s.world).2).1 ∧
      (TimeService.getTime epoch t s).2.queries =
        s.queries ++ TimeQuery.connectionTime ::
          (if (h.getTime s.world).1 < epoch then [TimeQuery.ntpTime] else [])) ∧
    ((TimeService.getTime epoch t s).1 = 0 ∨ epoch ≤ (TimeService.getTime epoch t s).1) := by
  obtain ⟨hd⟩ := t
  cases hd with
  | none => simp [TimeService.getTime]
  | some h =>
    refine ⟨by simp, ?_, ?_⟩
    · intro h' e
      simp only [Option.some.injEq] at e
      subst e
      rw [getTime_unfold]
      by_cases h1 : epoch ≤ (h.getTime s.world).1
      · simp [h1, spec_getTime, Nat.not_lt.mpr h1]
      · simp [h1, spec_getTime, Nat.lt_of_not_le h1]
    · rw [getTime_unfold]
      by_cases h1 : epoch ≤ (h.getTime s.world).1
      · simp [h1]
      · by_cases h2 : epoch ≤ (h.ntpGetTime (h.getTime s.world).2).1
        · simp [h1, h2]
        · simp [h1, h2]

/-! ## Reachable connection states -/

theorem checkCloudConnection_started (c : Collaborators W) (s : Sys W) :
    Started (checkCloudConnection c s).2.eng._iot_status := by
  rw [← checkCloudConnection_ret]
  unfold Started
  cases hs : s.eng._iot_status with
  | IDLE => rw [checkCloudConnection_resting c s (Or.inl hs)]; simp [hs]
  | CONNECTING =>
    rw [checkCloudConnection_connecting c s hs]
    split_ifs <;> simp
  | CONNECTED =>
    rw [checkCloudConnection_connected c s hs]
    split_ifs <;> simp
  | DISCONNECTED => rw [checkCloudConnection_resting c s (Or.inr (Or.inr hs))]; simp [hs]
  | RECONNECTING =>
    rw [checkCloudConnection_reconnecting c s hs]
    split_ifs <;> simp
  | ERROR => rw [checkCloudConnection_resting c s (Or.inr (Or.inl hs))]; simp [hs]

theorem checkCloudConnection_session (c : Collaborators W) (s : Sys W)
    (h : SessionSeen s.eng._iot_status) :
    SessionSeen (checkCloudConnection c s).2.eng._iot_status := by
  rw [← checkCloudConnection_ret]
  unfold SessionSeen
  rcases h with hs | hs | hs
  · rw [checkCloudConnection_connected c s hs]
    split_ifs <;> simp
  · rw [checkCloudConnection_resting c s (Or.inr (Or.inr hs))]; simp [hs]
  · rw [checkCloudConnection_reconnecting c s hs]
    split_ifs <;> simp

theorem cloudTicks_add (c : Collaborators W) (m n : Nat) (s : Sys W) :
    cloudTicks c (m + n) s = cloudTicks c n (cloudTicks c m s) := by
  induction n with
  | zero => rfl
  | succ n ih =>
    show (checkCloudConnection c (cloudTicks c (m + n) s)).2 = _
    rw [ih]; rfl

theorem cloudTicks_session (c : Collaborators W) (n : Nat) (s : Sys W)
    (h : SessionSeen s.eng._iot_status) :
    SessionSeen (cloudTicks c n s).eng._iot_status := by
  induction n with
  | zero => exact h
  | succ n ih => exact checkCloudConnection_session c _ ih

/-- The ConnectionState in which a call of `update` returns: DISCONNECTED when
the link is down, else the state `checkCloudConnection` returned. -/
theorem update_status (c : Collaborators W) (s : Sys W) :
    (update c s).eng._iot_status =
      if (linkStage c s).1 ≠ NetworkConnectionState.CONNECTED then DISCONNECTED
      else (tickEntry c s).eng._iot_status := by
  rw [update_eq_stages]
  by_cases h1 : (linkStage c s).1 ≠ NetworkConnectionState.CONNECTED
  · obtain ⟨err, he⟩ := linkStage_down c s h1
    simp [h1, he]
  · by_cases h2 : (checkCloudConnection c (linkStage c s).2).1 ≠ CONNECTED
    · simp [h1, h2, tickEntry]
    · have hr := (retransmitStage_frame c (checkCloudConnection c (linkStage c s).2).2).1
      obtain ⟨p, hp⟩ := hr
      have ht := (syncTail_spec c (retransmitStage c
        (checkCloudConnection c (linkStage c s).2).2)).1
      simp only [h1, h2, if_false, tickEntry]
      rw [ht, hp]

theorem update_started (c : Collaborators W) (s : Sys W) :
    Started (update c s).eng._iot_status := by
  rw [update_status]
  split_ifs
  · simp [Started]
  · exact checkCloudConnection_started c _

theorem update_session (c : Collaborators W) (s : Sys W)
    (h : SessionSeen s.eng._iot_status) :
    SessionSeen (update c s).eng._iot_status := by
  rw [update_status]
  split_ifs with h1
  · simp [SessionSeen]
  · have hup : (linkStage c s).1 = NetworkConnectionState.CONNECTED := by
      by_contra hh; exact h1 hh
    obtain ⟨err, he⟩ := linkStage_up c s hup
    apply checkCloudConnection_session
    rw [he]; exact h

theorem updates_session (c : Collaborators W) (n : Nat) (s : Sys W)
    (h : SessionSeen s.eng._iot_status) :
    SessionSeen (updates c n s).eng._iot_status := by
  induction n with
  | zero => exact h
  | succ n ih => exact update_session c _ ih

/-- C26: `checkCloudConnection` never returns ERROR or IDLE and leaves the
state it returns in `_iot_status`. Hence, started in IDLE and whatever the
transport answers, the state after the first tick and after every later tick is
one of CONNECTING, CONNECTED, DISCONNECTED, RECONNECTING (so ERROR and IDLE are
not reached again), and once a tick has ended in CONNECTED no later tick ends
in CONNECTING. Both hold for ticks of `checkCloudConnection` alone and for
calls of `update`. -/
theorem C26_reachable_connection_states (c : Collaborators W) (s : Sys W)
    (h : s.eng._iot_status = IDLE) :
    (∀ t : Sys W, (checkCloudConnection c t).1 ≠ ERROR ∧ (checkCloudConnection c t).1 ≠ IDLE ∧
      (checkCloudConnection c t).2.eng._iot_status = (checkCloudConnection c t).1) ∧
    (cloudTicks c 1 s).eng._iot_status = CONNECTING ∧
    (∀ n, Started (cloudTicks c (n + 1) s).eng._iot_status ∧
      Started (updates c (n + 1) s).eng._iot_status) ∧
    (∀ m n, (cloudTicks c m s).eng._iot_status = CONNECTED →
      (cloudTicks c (m + n) s).eng._iot_status ≠ CONNECTING) ∧
    (∀ m n, (updates c m s).eng._iot_status = CONNECTED →
      (updates c (m + n) s).eng._iot_status ≠ CONNECTING) := by
  refine ⟨?_, ?_, ?_, ?_, ?_⟩
  · intro t
    have hs := checkCloudConnection_started c t
    rw [checkCloudConnection_ret]
    rcases hs with e | e | e | e <;> simp [e]
  · show (checkCloudConnection c s).2.eng._iot_status = CONNECTING
    rw [checkCloudConnection_resting c s (Or.inl h)]; simp [h]
  · intro n
    exact ⟨checkCloudConnection_started c _, update_started c _⟩
  · intro m n hm
    rw [cloudTicks_add]
    have := cloudTicks_session c n (cloudTicks c m s) (Or.inl hm)
    rcases this with e | e | e <;> simp [e]
  · intro m n hm
    rw [updates_add]
    have := updates_session c n (updates c m s) (Or.inl hm)
    rcases this with e | e | e <;> simp [e]

/-! ## Polls, publishes and dirty scans of one tick -/

theorem connectionCall_counts (a : Action) (h : a.isConnectionCall = true) :
    a.isScan = false ∧ a.isPoll = false ∧ a.isWrite = false ∧ a.isReplay = false := by
  cases a <;> simp_all [Action.isConnectionCall, Action.isScan, Action.isPoll, Action.isWrite,
    Action.isReplay]

theorem counts_of_connectionCalls {s t : Sys W}
    (h : Extends (fun a => a.isConnectionCall = true) s t) :
    scans t.log = scans s.log ∧ polls t.log = polls s.log ∧
    publishes t.log = publishes s.log ∧ replays t.log = replays s.log :=
  ⟨(h.mono (fun a ha => (connectionCall_counts a ha).1)).countP_eq,
   (h.mono (fun a ha => (connectionCall_counts a ha).2.1)).countP_eq,
   (h.mono (fun a ha => (connectionCall_counts a ha).2.2.1)).countP_eq,
   (h.mono (fun a ha => (connectionCall_counts a ha).2.2.2)).countP_eq⟩

theorem retransmitStage_counts (c : Collaborators W) (s : Sys W) :
    scans (retransmitStage c s).log = scans s.log + 1 ∧
    polls (retransmitStage c s).log = polls s.log ∧
    publishes (retransmitStage c s).log = publishes s.log +
      (if s.eng._mqtt_data_request_retransmit = true ∧ 0 < s.eng._mqtt_data_len
        then 1 else 0) ∧
    replays (retransmitStage c s).log = replays s.log +
      (if s.eng._mqtt_data_request_retransmit = true ∧ 0 < s.eng._mqtt_data_len
        then 1 else 0) := by
  by_cases h : s.eng._mqtt_data_request_retransmit = true ∧ 0 < s.eng._mqtt_data_len
  · have hl := (retransmitStage_armed c s h.1 h.2).2
    rw [hl]
    simp [scans, polls, publishes, replays, List.countP_append, List.countP_cons,
      Action.isScan, Action.isPoll, Action.isWrite, Action.isReplay, h]
  · have hl := (retransmitStage_idle c s h).2
    rw [hl]
    simp [scans, polls, publishes, replays, List.countP_append, List.countP_cons,
      Action.isScan, Action.isPoll, Action.isWrite, Action.isReplay, h]

theorem handleMessage_log (c : Collaborators W) (topic : String) (bytes : Bytes) (s : Sys W) :
    ∃ d, (handleMessage c topic bytes s).log = s.log ++ d ∧
      publishes d ≤ merges d ∧ scans d = 0 ∧ polls d = 0 ∧ replays d = 0 ∧
      ∀ b, Action.appendStdin b ∉ d := by
  unfold handleMessage
  rw [onOtaIn_log, onShadowIn_log, onDataIn_log, (onDataIn_spec c topic bytes s).1]
  refine ⟨_, by rw [List.append_assoc, List.append_assoc], ?_⟩
  split_ifs <;>
    simp [scans, polls, publishes, replays, merges, List.countP_append, List.countP_cons,
      Action.isScan, Action.isPoll, Action.isWrite, Action.isReplay, Action.isMerge]

theorem dispatch_counts (c : Collaborators W) (msgs : List (String × Bytes)) (s : Sys W) :
    publishes (msgs.foldl (fun acc m => handleMessage c m.1 m.2 acc) s).log + merges s.log ≤
      publishes s.log + merges (msgs.foldl (fun acc m => handleMessage c m.1 m.2 acc) s).log ∧
    scans (msgs.foldl (fun acc m => handleMessage c m.1 m.2 acc) s).log = scans s.log ∧
    polls (msgs.foldl (fun acc m => handleMessage c m.1 m.2 acc) s).log = polls s.log ∧
    replays (msgs.foldl (fun acc m => handleMessage c m.1 m.2 acc) s).log = replays s.log := by
  induction msgs generalizing s with
  | nil => simp
  | cons m ms ih =>
    obtain ⟨d, hd, h1, h2, h3, h4, -⟩ := handleMessage_log c m.1 m.2 s
    have := ih (handleMessage c m.1 m.2 s)
    simp only [List.foldl_cons]
    rw [hd] at this
    simp only [scans, polls, publishes, replays, merges, List.countP_append] at this h1 h2 h3 h4 ⊢
    omega

theorem pollStage_counts (c : Collaborators W) (s : Sys W) :
    publishes (pollStage c s).log + merges s.log ≤
      publishes s.log + merges (pollStage c s).log ∧
    scans (pollStage c s).log = scans s.log ∧
    polls (pollStage c s).log = polls s.log + 1 ∧
    replays (pollStage c s).log = replays s.log := by
  have := dispatch_counts c (c.mqttPoll s.world).1
    { s with world := (c.mqttPoll s.world).2, log := s.log ++ [Action.mqttPoll] }
  unfold pollStage
  simp only [scans, polls, publishes, replays, merges, List.countP_append, List.countP_cons,
    List.countP_nil, Action.isScan, Action.isPoll, Action.isWrite, Action.isReplay,
    Action.isMerge] at this ⊢
  simp at this ⊢
  omega

theorem syncStage_counts (c : Collaborators W) (s : Sys W) :
    scans (syncStage c s).log = scans s.log ∧
    polls (syncStage c s).log = polls s.log ∧
    replays (syncStage c s).log = replays s.log ∧
    publishes (syncStage c s).log ≤ publishes s.log + 1 ∧
    (s.eng._syncStatus = SYNC_STATUS_VALUES_PROCESSED →
      publishes (syncStage c s).log = publishes s.log) := by
  cases hs : s.eng._syncStatus with
  | SYNC_STATUS_SYNCHRONIZED =>
    rw [syncStage_synchronized c s hs, sendPropertiesToCloud_log]
    split_ifs <;>
      simp [scans, polls, publishes, replays, List.countP_append, List.countP_cons,
        Action.isScan, Action.isPoll, Action.isWrite, Action.isReplay]
  | SYNC_STATUS_WAIT_FOR_CLOUD_VALUES =>
    have h := syncStage_waiting c s hs
    simp only at h
    by_cases hd : ulongSub (c.millis s.world).1 s.eng._lastSyncRequestTickTime >
        TIMEOUT_FOR_LASTVALUES_SYNC
    · rw [(h.1 hd).2]
      simp [scans, polls, publishes, replays, List.countP_append, List.countP_cons,
        Action.isScan, Action.isPoll, Action.isWrite, Action.isReplay]
    · rw [(h.2 hd).2]
      simp [scans, polls, publishes, replays, List.countP_append, List.countP_cons,
        Action.isScan, Action.isPoll, Action.isWrite, Action.isReplay]
  | SYNC_STATUS_VALUES_PROCESSED =>
    rw [(syncStage_processed c s hs).2]
    simp [scans, polls, publishes, replays, List.countP_append, List.countP_cons,
      Action.isScan, Action.isPoll, Action.isWrite, Action.isReplay]

/-- The poll and the switch of one tick together publish at most once: a
publication made by the dispatch leaves SyncState in VALUES_PROCESSED, in which
the switch publishes nothing. -/
theorem tickTail_counts (c : Collaborators W) (s : Sys W) :
    scans (syncStage c (pollStage c s)).log = scans s.log ∧
    polls (syncStage c (pollStage c s)).log = polls s.log + 1 ∧
    replays (syncStage c (pollStage c s)).log = replays s.log ∧
    publishes (syncStage c (pollStage c s)).log ≤ publishes s.log + 1 := by
  obtain ⟨p1, p2, p3, p4⟩ := pollStage_counts c s
  obtain ⟨q1, q2, q3, q4, q5⟩ := syncStage_counts c (pollStage c s)
  refine ⟨by omega, by omega, by omega, ?_⟩
  obtain ⟨-, -, -, -, hb, hw, hn⟩ := pollStage_handshake c s
  unfold handshakeBudget at hb
  by_cases hsw : s.eng._syncStatus = SYNC_STATUS_WAIT_FOR_CLOUD_VALUES
  · have hp := hw hsw
    by_cases hv : (pollStage c s).eng._syncStatus = SYNC_STATUS_VALUES_PROCESSED
    · have := q5 hv
      simp [hsw, hv] at hb
      omega
    · have hpw : (pollStage c s).eng._syncStatus = SYNC_STATUS_WAIT_FOR_CLOUD_VALUES := by
        rw [hp] at hv ⊢
        split_ifs at hv ⊢ with hx
        · exact absurd rfl hv
        · rfl
      simp [hsw, hpw] at hb
      omega
  · have hp := hn hsw
    rw [hp] at hb
    simp [hsw] at hb
    omega

/-- The calls of one tick, counted: a tick that passes both connection checks
makes one dirty scan, one poll, at most one replay and at most one other
publish; any other tick makes none of these calls. -/
theorem update_counts (c : Collaborators W) (s : Sys W) :
    (((linkStage c s).1 = NetworkConnectionState.CONNECTED ∧
        (tickEntry c s).eng._iot_status = CONNECTED) →
      scans (update c s).log = scans s.log + 1 ∧
      polls (update c s).log = polls s.log + 1 ∧
      replays (update c s).log ≤ replays s.log + 1 ∧
      publishes (update c s).log + replays s.log ≤
        publishes s.log + replays (update c s).log + 1) ∧
    (¬ ((linkStage c s).1 = NetworkConnectionState.CONNECTED ∧
        (tickEntry c s).eng._iot_status = CONNECTED) →
      scans (update c s).log = scans s.log ∧
      polls (update c s).log = polls s.log ∧
      replays (update c s).log = replays s.log ∧
      publishes (update c s).log = publishes s.log) := by
  have hret := checkCloudConnection_ret c (linkStage c s).2
  constructor
  · rintro ⟨h1, h2⟩
    have h2' : (checkCloudConnection c (linkStage c s).2).1 = CONNECTED := by
      rw [hret]; exact h2
    have hu : update c s = syncStage c (pollStage c (retransmitStage c (tickEntry c s))) := by
      rw [update_eq_stages]; simp [h1, h2', tickEntry]
    obtain ⟨a1, a2, a3, a4⟩ := counts_of_connectionCalls (tickEntry_calls c s)
    obtain ⟨b1, b2, b3, b4⟩ := retransmitStage_counts c (tickEntry c s)
    obtain ⟨d1, d2, d3, d4⟩ := tickTail_counts c (retransmitStage c (tickEntry c s))
    rw [hu]
    refine ⟨by omega, by omega, ?_, ?_⟩
    · split_ifs at b3 b4 <;> omega
    · split_ifs at b3 b4 <;> omega
  · intro h
    by_cases h1 : (linkStage c s).1 = NetworkConnectionState.CONNECTED
    · have h2 : (checkCloudConnection c (linkStage c s).2).1 ≠ CONNECTED := by
        rw [hret]; exact fun hh => h ⟨h1, hh⟩
      have hu : update c s = tickEntry c s := by
        rw [update_eq_stages]; simp [h1, h2, tickEntry]
      rw [hu]
      obtain ⟨a1, a2, a3, a4⟩ := counts_of_connectionCalls (tickEntry_calls c s)
      exact ⟨a1, a2, a4, a3⟩
    · rw [update_of_link_down c s h1]
      obtain ⟨a1, a2, a3, a4⟩ := counts_of_connectionCalls (linkStage_calls c s)
      exact ⟨a1, a2, a4, a3⟩

/-- C23 as stated fails: in the `busyScript` session (no thing bound, the
properties encode to `[1, 2, 3]` on every tick, the session is lost on tick 3
and re-established on tick 5), the call of `update` on tick 5 publishes twice,
the replay of the cached payload and then the fresh property publication. -/
theorem C23_counterexample :
    ¬ spec_onePollOnePublish
        (updates busyScript.collaborators 4 (powerUp engineNoThing)).log
        (update busyScript.collaborators
          (updates busyScript.collaborators 4 (powerUp engineNoThing))).log ∧
    publishes (update busyScript.collaborators
        (updates busyScript.collaborators 4 (powerUp engineNoThing))).log =
      publishes (updates busyScript.collaborators 4 (powerUp engineNoThing)).log + 2 := by
  unfold spec_onePollOnePublish
  decide

/-- C23 (amended): one call of `update`, in every state and whatever messages
its poll delivers, makes at most one poll and at most two publishes: at most
one replay of the cached payload and at most one other publish (a property
publication, by the message dispatch or by the switch, or the shadow
request). -/
theorem C23_bounded_progress (c : Collaborators W) (s : Sys W) :
    polls (update c s).log ≤ polls s.log + 1 ∧
    replays (update c s).log ≤ replays s.log + 1 ∧
    publishes (update c s).log + replays s.log ≤
      publishes s.log + replays (update c s).log + 1 ∧
    publishes (update c s).log ≤ publishes s.log + 2 := by
  by_cases h : (linkStage c s).1 = NetworkConnectionState.CONNECTED ∧
      (tickEntry c s).eng._iot_status = CONNECTED
  · obtain ⟨-, h2, h3, h4⟩ := (update_counts c s).1 h
    exact ⟨by omega, h3, h4, by omega⟩
  · obtain ⟨-, h2, h3, h4⟩ := (update_counts c s).2 h
    exact ⟨by omega, by omega, by omega, by omega⟩

/-- C24 as stated fails: the first call of `update` after power-up, with the
link up, takes the engine from IDLE to CONNECTING and returns without a dirty
scan. -/
theorem C24_counterexample :
    ¬ spec_scanEveryTick (powerUp engineWithThing).log
        (update handshakeScript.collaborators (powerUp engineWithThing)).log ∧
    (update handshakeScript.collaborators (powerUp engineWithThing)).eng._iot_status =
      CONNECTING ∧
    scans (update handshakeScript.collaborators (powerUp engineWithThing)).log = 0 := by
  unfold spec_scanEveryTick
  decide

/-! ## The tick of the older class -/

theorem ClassExtends.same (Q : Action → Prop) (s : ClassSys W) : ClassExtends Q s s :=
  ⟨[], by simp, by simp⟩

theorem ClassExtends.chain {Q : Action → Prop} {s t u : ClassSys W}
    (h1 : ClassExtends Q s t) (h2 : ClassExtends Q t u) : ClassExtends Q s u := by
  obtain ⟨d1, e1, q1⟩ := h1
  obtain ⟨d2, e2, q2⟩ := h2
  refine ⟨d1 ++ d2, by rw [e2, e1, List.append_assoc], ?_⟩
  intro a ha
  rcases List.mem_append.mp ha with h | h
  · exact q1 a h
  · exact q2 a h

theorem ClassExtends.scans_eq {s t : ClassSys W}
    (h : ClassExtends (fun a => a.isScan = false) s t) : scans t.log = scans s.log := by
  obtain ⟨d, e, q⟩ := h
  have : d.countP Action.isScan = 0 := by
    rw [List.countP_eq_zero]
    intro a ha
    simp [q a ha]
  rw [e]
  simp [scans, List.countP_append, this]

theorem classSubscribe_spec (c : ClassSession W) (topic : String) (s : ClassSys W) :
    (ArduinoIoTCloudClass.subscribe c topic s).2.eng = s.eng ∧
    (ArduinoIoTCloudClass.subscribe c topic s).2.log = s.log ++ [Action.mqttSubscribe topic] :=
  ⟨rfl, rfl⟩

theorem classConnect_noscan (c : ClassSession W) (s : ClassSys W) :
    ClassExtends (fun a => a.isScan = false) s (ArduinoIoTCloudClass.connect c s).2 := by
  unfold ArduinoIoTCloudClass.connect
  simp only [ArduinoIoTCloudClass.subscribe]
  split_ifs <;>
    exact ⟨_, by simp only [List.append_assoc]; rfl, by simp [Action.isScan]⟩

theorem classReconnect_noscan (c : ClassSession W) (s : ClassSys W) :
    ClassExtends (fun a => a.isScan = false) s (ArduinoIoTCloudClass.reconnect c s).2 := by
  unfold ArduinoIoTCloudClass.reconnect
  simp only []
  refine ClassExtends.chain ?_ (classConnect_noscan c _)
  split_ifs
  · exact ⟨[Action.mqttConnected, Action.mqttStop], by simp, by simp [Action.isScan]⟩
  · exact ⟨[Action.mqttConnected], by simp, by simp [Action.isScan]⟩

theorem classEstablished_noscan (c : ClassSession W) (s : ClassSys W) :
    ClassExtends (fun a => a.isScan = false) s (ArduinoIoTCloudClass.sessionEstablished c s) :=
  ⟨[Action.event ArduinoIoTCloudEvent.CONNECT, Action.serialBegin 9600,
      Action.serialPrintln "Hello from Cloud Serial!"],
    by simp [ArduinoIoTCloudClass.sessionEstablished,
      ArduinoIoTCloudClass.execCloudEventCallback],
    by simp [Action.isScan]⟩

theorem classConnectionSwitch_noscan (c : ClassSession W) (s : ClassSys W) :
    ClassExtends (fun a => a.isScan = false) s (ArduinoIoTCloudClass.connectionSwitch c s) := by
  unfold ArduinoIoTCloudClass.connectionSwitch
  split
  · exact ⟨[], by simp, by simp⟩
  · exact ⟨[], by simp, by simp⟩
  · simp only []
    split_ifs
    · exact ⟨[Action.mqttConnected, Action.event ArduinoIoTCloudEvent.DISCONNECT],
        by simp [ArduinoIoTCloudClass.execCloudEventCallback], by simp [Action.isScan]⟩
    · exact ⟨[Action.mqttConnected], by simp, by simp [Action.isScan]⟩
  · exact ⟨[], by simp, by simp⟩
  · simp only []
    split_ifs
    · exact (classReconnect_noscan c s).chain (classEstablished_noscan c _)
    · exact classReconnect_noscan c s
  · simp only []
    split_ifs
    · exact (classConnect_noscan c s).chain (classEstablished_noscan c _)
    · exact classConnect_noscan c s

theorem classConnectionCheck_noscan (c : ClassSession W) (s : ClassSys W) :
    ClassExtends (fun a => a.isScan = false) s (ArduinoIoTCloudClass.connectionCheck c s) := by
  unfold ArduinoIoTCloudClass.connectionCheck
  have hstep : ClassExtends (fun a => a.isScan = false) s
      { s with world := (c.connectionCheck s.world).2, log := s.log ++ [Action.phyCheck] } :=
    ⟨[Action.phyCheck], rfl, by simp [Action.isScan]⟩
  simp only []
  split_ifs
  · exact ⟨[Action.phyCheck], rfl, by simp [Action.isScan]⟩
  · exact hstep
  · exact hstep.chain (classConnectionSwitch_noscan c _)
  · exact classConnectionSwitch_noscan c s

theorem classSend_noscan (c : ClassCollaborators W) (s : ClassSys W) :
    ClassExtends (fun a => a.isScan = false) s
      (ArduinoIoTCloudClass.sendPropertiesToCloud c s) := by
  unfold ArduinoIoTCloudClass.sendPropertiesToCloud
  simp only []
  split_ifs
  · refine ⟨[Action.encode, Action.write WriteOrigin.properties s.eng._syncStatus
      s.eng._dataTopicOut ((c.thingEncode s.world).1.2.take (c.thingEncode s.world).1.1.toNat)],
      ?_, by simp [Action.isScan]⟩
    rw [(classWriteTopic_spec c _ _ _ _ _).1, List.append_assoc]
    rfl
  · exact ⟨[Action.encode], rfl, by simp [Action.isScan]⟩

theorem classShadow_noscan (c : ClassCollaborators W) (bytes : Bytes) (s : ClassSys W)
    (e : ArduinoIoTCloudClass) :
    ClassExtends (fun a => a.isScan = false) s
      { (ArduinoIoTCloudClass.sendPropertiesToCloud c
          { s with world := c.thingDecode bytes true s.world,
                   log := s.log ++ [Action.decode bytes true] }) with eng := e } := by
  have h0 : ClassExtends (fun a => a.isScan = false) s
      { s with world := c.thingDecode bytes true s.world,
               log := s.log ++ [Action.decode bytes true] } :=
    ⟨[Action.decode bytes true], rfl, by simp [Action.isScan]⟩
  obtain ⟨d, hd, q⟩ := h0.chain (classSend_noscan c _)
  exact ⟨d, hd, q⟩

theorem classHandleMessage_noscan (c : ClassCollaborators W) (topic : String) (bytes : Bytes)
    (s : ClassSys W) :
    ClassExtends (fun a => a.isScan = false) s
      (ArduinoIoTCloudClass.handleMessage c topic bytes s) := by
  unfold ArduinoIoTCloudClass.handleMessage
  have hA : ClassExtends (fun a => a.isScan = false) s
      { s with world := c.appendStdin bytes s.world,
               log := s.log ++ [Action.appendStdin bytes] } :=
    ⟨[Action.appendStdin bytes], rfl, by simp [Action.isScan]⟩
  have hD : ∀ s1 : ClassSys W, ClassExtends (fun a => a.isScan = false) s1
      { s1 with world := c.thingDecode bytes false s1.world,
                log := s1.log ++ [Action.decode bytes false] } :=
    fun s1 => ⟨[Action.decode bytes false], rfl, by simp [Action.isScan]⟩
  by_cases h1 : s.eng._stdinTopic = topic <;> by_cases h2 : s.eng._dataTopicIn = topic <;>
    simp only [h1, h2, if_true, if_false] <;> split_ifs
  · exact (hA.chain (hD _)).chain (classShadow_noscan c bytes _ _)
  · exact hA.chain (hD _)
  · exact hA.chain (classShadow_noscan c bytes _ _)
  · exact hA
  · exact (hD _).chain (classShadow_noscan c bytes _ _)
  · exact hD _
  · exact classShadow_noscan c bytes _ _
  · exact ClassExtends.same _ _

theorem classDispatch_noscan (c : ClassCollaborators W) (msgs : List (String × Bytes))
    (s : ClassSys W) :
    ClassExtends (fun a => a.isScan = false) s
      (msgs.foldl (fun acc m => ArduinoIoTCloudClass.handleMessage c m.1 m.2 acc) s) := by
  induction msgs generalizing s with
  | nil => exact ClassExtends.same _ s
  | cons m ms ih => exact (classHandleMessage_noscan c m.1 m.2 s).chain (ih _)

theorem classRequest_noscan (c : ClassCollaborators W) (s : ClassSys W) :
    ClassExtends (fun a => a.isScan = false) s (ArduinoIoTCloudClass.requestLastValue c s) :=
  ⟨_, (classWriteTopic_spec c _ _ _ _ _).1, by simp [Action.isScan]⟩

theorem classSyncSwitch_noscan (c : ClassSession W) (cb : Option (W → W)) (s : ClassSys W) :
    ClassExtends (fun a => a.isScan = false) s (ArduinoIoTCloudClass.syncSwitch c cb s) := by
  unfold ArduinoIoTCloudClass.syncSwitch
  split
  · exact classSend_noscan _ s
  · simp only []
    have hm : ClassExtends (fun a => a.isScan = false) s
        { s with world := (c.millis s.world).2, log := s.log ++ [Action.millis] } :=
      ⟨[Action.millis], rfl, by simp [Action.isScan]⟩
    split_ifs
    · refine (hm.chain (classRequest_noscan c.toClassCollaborators _)).chain ?_
      exact ⟨[Action.millis], rfl, by simp [Action.isScan]⟩
    · exact hm
  · cases cb with
    | none =>
      exact ⟨[Action.event ArduinoIoTCloudEvent.SYNC],
        by simp [ArduinoIoTCloudClass.execCloudEventCallback], by simp [Action.isScan]⟩
    | some f =>
      exact ⟨[Action.syncCompleteCallback, Action.event ArduinoIoTCloudEvent.SYNC],
        by simp [ArduinoIoTCloudClass.execCloudEventCallback], by simp [Action.isScan]⟩

/-- Every call of `update` of the older class makes exactly one dirty scan. -/
theorem classUpdate_scans (c : ClassSession W) (cb : Option (W → W)) (s : ClassSys W) :
    scans (ArduinoIoTCloudClass.update c cb s).log = scans s.log + 1 := by
  have h0 : scans (s.log ++ [Action.updateTimestamp]) = scans s.log + 1 := by
    simp [scans, List.countP_append, Action.isScan]
  have h1 := (classConnectionCheck_noscan c
    { s with world := c.updateTimestampOnLocallyChangedProperties s.world,
             log := s.log ++ [Action.updateTimestamp] }).scans_eq
  unfold ArduinoIoTCloudClass.update
  simp only []
  split_ifs
  · rw [h1, h0]
  · have hp : ClassExtends (fun a => a.isScan = false)
        (ArduinoIoTCloudClass.connectionCheck c
          { s with world := c.updateTimestampOnLocallyChangedProperties s.world,
                   log := s.log ++ [Action.updateTimestamp] })
        { (ArduinoIoTCloudClass.connectionCheck c
          { s with world := c.updateTimestampOnLocallyChangedProperties s.world,
                   log := s.log ++ [Action.updateTimestamp] }) with
          world := (c.mqttPoll (ArduinoIoTCloudClass.connectionCheck c
            { s with world := c.updateTimestampOnLocallyChangedProperties s.world,
                     log := s.log ++ [Action.updateTimestamp] }).world).2,
          log := (ArduinoIoTCloudClass.connectionCheck c
            { s with world := c.updateTimestampOnLocallyChangedProperties s.world,
                     log := s.log ++ [Action.updateTimestamp] }).log ++ [Action.mqttPoll] } :=
      ⟨[Action.mqttPoll], rfl, by simp [Action.isScan]⟩
    rw [((hp.chain (classDispatch_noscan _ _ _)).chain
      (classSyncSwitch_noscan c cb _)).scans_eq, h1, h0]

/-- C24 (amended): a call of `ArduinoIoTCloudTCP::update` makes the dirty scan
exactly once when it passes both connection checks (the link is connected and
the ConnectionState after `checkCloudConnection` is CONNECTED) and not at all
otherwise; a call of `update` of the older class makes it exactly once,
whatever the link and the ConnectionState are. -/
theorem C24_dirty_scan (c : Collaborators W) (s : Sys W) :
    scans (update c s).log = scans s.log +
      (if (linkStage c s).1 = NetworkConnectionState.CONNECTED ∧
          (tickEntry c s).eng._iot_status = CONNECTED then 1 else 0) ∧
    ∀ (k : ClassSession W) (cb : Option (W → W)) (t : ClassSys W),
      scans (ArduinoIoTCloudClass.update k cb t).log = scans t.log + 1 := by
  refine ⟨?_, fun k cb t => classUpdate_scans k cb t⟩
  by_cases h : (linkStage c s).1 = NetworkConnectionState.CONNECTED ∧
      (tickEntry c s).eng._iot_status = CONNECTED
  · rw [if_pos h]; exact ((update_counts c s).1 h).1
  · rw [if_neg h]; exact ((update_counts c s).2 h).1

/-! ## The physical-link gate of the older class -/

theorem classUpdate_link_down (c : ClassSession W) (cb : Option (W → W)) (s : ClassSys W)
    (hc : c.hasConnection = true)
    (hdown : (c.connectionCheck (c.updateTimestampOnLocallyChangedProperties s.world)).1 ≠
      NetworkConnectionState.CONNECTED) :
    ArduinoIoTCloudClass.update c cb s =
      { eng := { s.eng with _iotStatus :=
          if s.eng._iotStatus = CONNECTED then DISCONNECTED else s.eng._iotStatus }
        world := (c.connectionCheck (c.updateTimestampOnLocallyChangedProperties s.world)).2
        log := s.log ++ [Action.updateTimestamp, Action.phyCheck] } := by
  by_cases hs : s.eng._iotStatus = CONNECTED
  · simp [ArduinoIoTCloudClass.update, ArduinoIoTCloudClass.connectionCheck, hc, hdown, hs]
  · simp [ArduinoIoTCloudClass.update, ArduinoIoTCloudClass.connectionCheck, hc, hdown, hs]

/-- C21 as stated fails for the older class: with the link down, a tick
entered in IDLE leaves the state IDLE, not DISCONNECTED; and a tick entered in
CONNECTED becomes DISCONNECTED without the DISCONNECT event being fired. -/
theorem C21_counterexample :
    ¬ spec_linkGate IDLE
        (ArduinoIoTCloudClass.update (classSession (fun _ => false)) none
          (classPowerUp IDLE)).eng._iotStatus
        (ArduinoIoTCloudClass.update (classSession (fun _ => false)) none
          (classPowerUp IDLE)).log ∧
    (ArduinoIoTCloudClass.update (classSession (fun _ => false)) none
      (classPowerUp IDLE)).eng._iotStatus = IDLE ∧
    ¬ spec_linkGate CONNECTED
        (ArduinoIoTCloudClass.update (classSession (fun _ => false)) none
          (classPowerUp CONNECTED)).eng._iotStatus
        (ArduinoIoTCloudClass.update (classSession (fun _ => false)) none
          (classPowerUp CONNECTED)).log ∧
    (ArduinoIoTCloudClass.update (classSession (fun _ => false)) none
      (classPowerUp CONNECTED)).log = [Action.updateTimestamp, Action.phyCheck] := by
  unfold spec_linkGate
  refine ⟨?_, by decide, ?_, by decide⟩
  · intro h
    exact absurd h.1 (by decide)
  · intro h
    exact absurd h.2.1 (by decide)

/-- C21 (amended): in a tick of `update` of the older class in which the
physical-link check reports the link not connected, the ConnectionState after
the tick is DISCONNECTED if the tick was entered in CONNECTED and is unchanged
otherwise, so it is never CONNECTED; no call goes to the MQTT client (no
connect, subscribe, poll or publish); and a tick entered in another state than
CONNECTED fires no DISCONNECT. -/
theorem C21_link_gate (c : ClassSession W) (cb : Option (W → W)) (s : ClassSys W)
    (hc : c.hasConnection = true)
    (hdown : (c.connectionCheck (c.updateTimestampOnLocallyChangedProperties s.world)).1 ≠
      NetworkConnectionState.CONNECTED) :
    (ArduinoIoTCloudClass.update c cb s).eng._iotStatus =
      (if s.eng._iotStatus = CONNECTED then DISCONNECTED else s.eng._iotStatus) ∧
    (ArduinoIoTCloudClass.update c cb s).eng._iotStatus ≠ CONNECTED ∧
    ∃ d, (ArduinoIoTCloudClass.update c cb s).log = s.log ++ d ∧
      (∀ a ∈ d, a.isMqtt = false) ∧
      (s.eng._iotStatus ≠ CONNECTED → fired ArduinoIoTCloudEvent.DISCONNECT d = 0) := by
  rw [classUpdate_link_down c cb s hc hdown]
  refine ⟨rfl, ?_, [Action.updateTimestamp, Action.phyCheck], rfl, ?_, ?_⟩
  · show (if s.eng._iotStatus = CONNECTED then DISCONNECTED else s.eng._iotStatus) ≠ CONNECTED
    split_ifs with h
    · decide
    · exact h
  · simp [Action.isMqtt]
  · intro _
    simp [fired]

/-- C21 (amended) at a concrete input: with the link down, the tick entered in
CONNECTING stays in CONNECTING. -/
theorem C21_link_gate_witness :
    ((classSession (fun _ => false)).hasConnection = true ∧
      ((classSession (fun _ => false)).connectionCheck
        ((classSession (fun _ => false)).updateTimestampOnLocallyChangedProperties
          (classPowerUp CONNECTING).world)).1 ≠ NetworkConnectionState.CONNECTED) ∧
    (ArduinoIoTCloudClass.update (classSession (fun _ => false)) none
      (classPowerUp CONNECTING)).eng._iotStatus = CONNECTING :=
  ⟨⟨by decide, by decide⟩,
    (C21_link_gate (classSession (fun _ => false)) none (classPowerUp CONNECTING)
      (by decide) (by decide)).1⟩

/-! ## Messages on the stdin topic -/

/-- C22 as stated fails: a message on the stdin topic of device "ABC" handled
by `ArduinoIoTCloudTCP::handleMessage` reaches no console sink; no call is
made at all. -/
theorem C22_counterexample :
    ¬ spec_fedToConsole [104, 105]
        (handleMessage dropScript.collaborators "/a/d/ABC/s/i" [104, 105]
          (powerUp engineWithThing)).log ∧
    (powerUp engineWithThing).eng._stdinTopic = "/a/d/ABC/s/i" ∧
    (handleMessage dropScript.collaborators "/a/d/ABC/s/i" [104, 105]
      (powerUp engineWithThing)).log = [] := by
  unfold spec_fedToConsole
  refine ⟨?_, by decide, by decide⟩
  intro h
  exact absurd h.1 (by decide)

/-- C22 (amended): `ArduinoIoTCloudTCP::handleMessage` never calls a console
sink, whatever the topic; a message on the stdin topic, that topic being none
of the data-in, shadow-in and update-control topics, is dropped with no call
at all, so the property container and SyncState are not touched. It is
`handleMessage` of the older class that feeds the payload of such a message
to the console sink, unchanged and in order, and does nothing else. -/
theorem C22_stdin_message (c : Collaborators W) (bytes : Bytes) (s : Sys W)
    (h1 : s.eng._dataTopicIn ≠ s.eng._stdinTopic)
    (h2 : s.eng._shadowTopicIn ≠ s.eng._stdinTopic)
    (h3 : s.eng._ota_topic_in ≠ s.eng._stdinTopic) :
    (∀ topic, ∃ d, (handleMessage c topic bytes s).log = s.log ++ d ∧
      ∀ b, Action.appendStdin b ∉ d) ∧
    handleMessage c s.eng._stdinTopic bytes s = s ∧
    ∀ (k : ClassCollaborators W) (t : ClassSys W),
      t.eng._dataTopicIn ≠ t.eng._stdinTopic → t.eng._shadowTopicIn ≠ t.eng._stdinTopic →
      ArduinoIoTCloudClass.handleMessage k t.eng._stdinTopic bytes t =
        { t with world := k.appendStdin bytes t.world,
                 log := t.log ++ [Action.appendStdin bytes] } := by
  refine ⟨?_, ?_, ?_⟩
  · intro topic
    obtain ⟨d, hd, -, -, -, -, hn⟩ := handleMessage_log c topic bytes s
    exact ⟨d, hd, hn⟩
  · simp [handleMessage, onDataIn, onShadowIn, onOtaIn, h1, h2, h3]
  · intro k t g1 g2
    simp [ArduinoIoTCloudClass.handleMessage, g1, g2]

/-- C22 (amended) at a concrete input: the stdin message of device "ABC" is
dropped by the engine bound to thing "T1". -/
theorem C22_stdin_message_witness :
    ((powerUp engineWithThing).eng._dataTopicIn ≠ (powerUp engineWithThing).eng._stdinTopic ∧
      (powerUp engineWithThing).eng._shadowTopicIn ≠ (powerUp engineWithThing).eng._stdinTopic ∧
      (powerUp engineWithThing).eng._ota_topic_in ≠ (powerUp engineWithThing).eng._stdinTopic) ∧
    handleMessage dropScript.collaborators (powerUp engineWithThing).eng._stdinTopic [104, 105]
      (powerUp engineWithThing) = powerUp engineWithThing :=
  ⟨⟨by decide, by decide, by decide⟩,
    (C22_stdin_message dropScript.collaborators [104, 105] (powerUp engineWithThing)
      (by decide) (by decide) (by decide)).2.1⟩

/-! ## The bounds of the retransmit cache -/

theorem memcpy_length (dst src : Bytes) (n : Nat) (h1 : n ≤ src.length)
    (h2 : n ≤ dst.length) : (memcpy dst src n).length = dst.length := by
  simp [memcpy, List.length_take, List.length_drop]
  omega

theorem sendPropertiesToCloud_bounds (c : Collaborators W) (s : Sys W)
    (henc : EncoderBounded c)
    (h : CacheInBounds c.MQTT_TRANSMIT_BUFFER_SIZE s.eng) :
    CacheInBounds c.MQTT_TRANSMIT_BUFFER_SIZE (sendPropertiesToCloud c s).eng := by
  rw [sendPropertiesToCloud_eng]
  split_ifs
  · have hb := henc s.world
    exact ⟨by
      show (memcpy s.eng._mqtt_data_buf (c.encode s.world).1.2
        (c.encode s.world).1.2.length).length = _
      rw [memcpy_length _ _ _ (Nat.le_refl _) (by rw [h.1]; exact hb)]
      exact h.1, hb⟩
  · exact h

theorem handleMessage_bounds (c : Collaborators W) (topic : String) (bytes : Bytes)
    (s : Sys W) (henc : EncoderBounded c)
    (h : CacheInBounds c.MQTT_TRANSMIT_BUFFER_SIZE s.eng) :
    CacheInBounds c.MQTT_TRANSMIT_BUFFER_SIZE (handleMessage c topic bytes s).eng := by
  unfold handleMessage
  rw [(onOtaIn_spec c topic bytes _).1]
  have h1 : CacheInBounds c.MQTT_TRANSMIT_BUFFER_SIZE (onDataIn c topic bytes s).eng := by
    rw [(onDataIn_spec c topic bytes s).1]; exact h
  generalize onDataIn c topic bytes s = t at h1
  unfold onShadowIn
  split_ifs
  · exact sendPropertiesToCloud_bounds c (decode c bytes true t) henc h1
  · exact h1

theorem dispatch_bounds (c : Collaborators W) (msgs : List (String × Bytes)) (s : Sys W)
    (henc : EncoderBounded c)
    (h : CacheInBounds c.MQTT_TRANSMIT_BUFFER_SIZE s.eng) :
    CacheInBounds c.MQTT_TRANSMIT_BUFFER_SIZE
      (msgs.foldl (fun acc m => handleMessage c m.1 m.2 acc) s).eng := by
  induction msgs generalizing s with
  | nil => exact h
  | cons m ms ih => exact ih _ (handleMessage_bounds c m.1 m.2 s henc h)

theorem syncStage_bounds (c : Collaborators W) (s : Sys W) (henc : EncoderBounded c)
    (h : CacheInBounds c.MQTT_TRANSMIT_BUFFER_SIZE s.eng) :
    CacheInBounds c.MQTT_TRANSMIT_BUFFER_SIZE (syncStage c s).eng := by
  cases hs : s.eng._syncStatus with
  | SYNC_STATUS_SYNCHRONIZED =>
    rw [syncStage_synchronized c s hs]
    exact sendPropertiesToCloud_bounds c s henc h
  | SYNC_STATUS_WAIT_FOR_CLOUD_VALUES =>
    have hw := syncStage_waiting c s hs
    simp only at hw
    by_cases hd : ulongSub (c.millis s.world).1 s.eng._lastSyncRequestTickTime >
        TIMEOUT_FOR_LASTVALUES_SYNC
    · rw [(hw.1 hd).1]; exact h
    · rw [(hw.2 hd).1]; exact h
  | SYNC_STATUS_VALUES_PROCESSED =>
    rw [(syncStage_processed c s hs).1]; exact h

theorem update_bounds (c : Collaborators W) (s : Sys W) (henc : EncoderBounded c)
    (h : CacheInBounds c.MQTT_TRANSMIT_BUFFER_SIZE s.eng) :
    CacheInBounds c.MQTT_TRANSMIT_BUFFER_SIZE (update c s).eng := by
  have hl : CacheInBounds c.MQTT_TRANSMIT_BUFFER_SIZE (linkStage c s).2.eng := by
    by_cases h1 : (linkStage c s).1 = NetworkConnectionState.CONNECTED
    · obtain ⟨err, he⟩ := linkStage_up c s h1
      rw [he]; exact h
    · obtain ⟨err, he⟩ := linkStage_down c s h1
      rw [he]; exact h
  have hq : CacheInBounds c.MQTT_TRANSMIT_BUFFER_SIZE
      (checkCloudConnection c (linkStage c s).2).2.eng := by
    obtain ⟨⟨e1, e2, -⟩, -⟩ := checkCloudConnection_frame c (linkStage c s).2
    exact ⟨by rw [e1]; exact hl.1, by rw [e2]; exact hl.2⟩
  rw [update_eq_stages]
  split_ifs
  · exact hl
  · exact hq
  · apply syncStage_bounds c _ henc
    unfold pollStage
    apply dispatch_bounds c _ _ henc
    obtain ⟨p, hp⟩ := (retransmitStage_frame c (checkCloudConnection c (linkStage c s).2).2).1
    show CacheInBounds c.MQTT_TRANSMIT_BUFFER_SIZE
      (retransmitStage c (checkCloudConnection c (linkStage c s).2).2).eng
    rw [hp]; exact hq

/-- C25: when the encoder never reports more bytes than
`MQTT_TRANSMIT_BUFFER_SIZE`, the cache stays within its buffer in every
reachable state. The constructor leaves a buffer of that size with cached
length 0 and `begin` keeps it; `sendPropertiesToCloud`, `handleMessage` and
every number of calls of `update` keep the buffer at that size and the cached
length at most that size, so the copy into the cache writes inside the buffer
and the replay reads exactly the cached length from inside it. -/
theorem C25_bounded_retransmit_buffer (c : Collaborators W) (s : Sys W)
    (henc : EncoderBounded c)
    (h : CacheInBounds c.MQTT_TRANSMIT_BUFFER_SIZE s.eng) :
    (∀ (address : String) (port : Nat) (ok : Bool) (D T otaTopic : String),
      CacheInBounds c.MQTT_TRANSMIT_BUFFER_SIZE
        (ArduinoIoTCloudTCP.begin ok D T otaTopic address port
          (ArduinoIoTCloudTCP.ctor c.MQTT_TRANSMIT_BUFFER_SIZE address port)).2) ∧
    CacheInBounds c.MQTT_TRANSMIT_BUFFER_SIZE (sendPropertiesToCloud c s).eng ∧
    (∀ topic bytes,
      CacheInBounds c.MQTT_TRANSMIT_BUFFER_SIZE (handleMessage c topic bytes s).eng) ∧
    ∀ n, CacheInBounds c.MQTT_TRANSMIT_BUFFER_SIZE (updates c n s).eng ∧
      (updates c n s).eng.cached.length = (updates c n s).eng._mqtt_data_len := by
  refine ⟨?_, sendPropertiesToCloud_bounds c s henc h,
    fun topic bytes => handleMessage_bounds c topic bytes s henc h, ?_⟩
  · intro address port ok D T otaTopic
    cases ok <;> simp [ArduinoIoTCloudTCP.begin, ArduinoIoTCloudTCP.ctor, CacheInBounds]
  · intro n
    have hn : CacheInBounds c.MQTT_TRANSMIT_BUFFER_SIZE (updates c n s).eng := by
      induction n with
      | zero => exact h
      | succ n ih => exact update_bounds c _ henc ih
    refine ⟨hn, ?_⟩
    unfold ArduinoIoTCloudTCP.cached
    rw [List.length_take, hn.1]
    exact Nat.min_eq_left hn.2

/-- C25 at a concrete input: in the `dropScript` session, whose encoder yields
at most 3 bytes for a buffer of 256, the cache is within bounds after 5
ticks. -/
theorem C25_bounded_retransmit_buffer_witness :
    (EncoderBounded dropScript.collaborators ∧
      CacheInBounds dropScript.collaborators.MQTT_TRANSMIT_BUFFER_SIZE
        (powerUp engineWithThing).eng) ∧
    CacheInBounds dropScript.collaborators.MQTT_TRANSMIT_BUFFER_SIZE
      (updates dropScript.collaborators 5 (powerUp engineWithThing)).eng :=
  have henc : EncoderBounded dropScript.collaborators := by
    intro w
    show (dropScript.encoded w).2.length ≤ 256
    unfold dropScript
    simp only []
    split_ifs <;> simp
  have h0 : CacheInBounds dropScript.collaborators.MQTT_TRANSMIT_BUFFER_SIZE
      (powerUp engineWithThing).eng :=
    ⟨List.length_replicate 256 0, Nat.zero_le _⟩
  ⟨⟨henc, h0⟩,
    ((C25_bounded_retransmit_buffer dropScript.collaborators (powerUp engineWithThing)
      henc h0).2.2.2 5).1⟩

/-! ## VALUES_PROCESSED does not outlive a tick -/

/-- C27: a call of `update` that returns in CONNECTED has run the switch after
its poll, and never returns with SyncState VALUES_PROCESSED, whatever SyncState
it was entered with. When the switch is entered in VALUES_PROCESSED, the SYNC
event is fired once in it and the call returns in SYNCHRONIZED; in particular a
shadow-in message processed by the poll of a tick entered CONNECTED and
waiting for the cloud values leads to the SYNC event and to SYNCHRONIZED
within that same call. -/
theorem C27_values_processed_transient (c : Collaborators W) (s : Sys W) :
    ((update c s).eng._iot_status = CONNECTED →
      update c s = syncStage c (switchEntry c s) ∧
      (update c s).eng._syncStatus ≠ SYNC_STATUS_VALUES_PROCESSED ∧
      ((switchEntry c s).eng._syncStatus = SYNC_STATUS_VALUES_PROCESSED →
        (update c s).eng._syncStatus = SYNC_STATUS_SYNCHRONIZED ∧
        (update c s).log =
          (switchEntry c s).log ++ [Action.event ArduinoIoTCloudEvent.SYNC])) ∧
    (s.eng._iot_status = CONNECTED →
      s.eng._syncStatus = SYNC_STATUS_WAIT_FOR_CLOUD_VALUES → Live c s →
      (∃ m ∈ polled c s, m.1 = s.eng._shadowTopicIn) →
      (update c s).eng._syncStatus = SYNC_STATUS_SYNCHRONIZED ∧
      fired ArduinoIoTCloudEvent.SYNC (update c s).log =
        fired ArduinoIoTCloudEvent.SYNC s.log + 1) := by
  constructor
  · intro hc
    have hst := update_status c s
    rw [hc] at hst
    have h1 : (linkStage c s).1 = NetworkConnectionState.CONNECTED := by
      by_contra hh
      rw [if_pos hh] at hst
      exact absurd hst (by decide)
    have h2 : (tickEntry c s).eng._iot_status = CONNECTED := by
      rw [if_neg (fun hh => hh h1)] at hst
      exact hst.symm
    have h2' : (checkCloudConnection c (linkStage c s).2).1 = CONNECTED := by
      rw [checkCloudConnection_ret]; exact h2
    have hu : update c s = syncStage c (switchEntry c s) := by
      rw [update_eq_stages]; simp [h1, h2', switchEntry, tickEntry]
    refine ⟨hu, ?_, ?_⟩
    · rw [hu]; exact (syncStage_spec c _).2.2.2.1
    · intro hv
      rw [hu]
      obtain ⟨e1, e2⟩ := syncStage_processed c _ hv
      exact ⟨by rw [e1], e2⟩
  · intro hst hw hl hsome
    obtain ⟨-, a, -, b⟩ := update_arrival c s hst hw hl hsome
    exact ⟨a, b⟩

/-- C27 at a concrete input: in the `handshakeScript` session the shadow
arrives during the poll of tick 5, and that call of `update` returns in
CONNECTED and SYNCHRONIZED. -/
theorem C27_values_processed_transient_witness :
    (update handshakeScript.collaborators
      (updates handshakeScript.collaborators 4 (powerUp engineWithThing))).eng._iot_status =
        CONNECTED ∧
    (switchEntry handshakeScript.collaborators
      (updates handshakeScript.collaborators 4 (powerUp engineWithThing))).eng._syncStatus =
        SYNC_STATUS_VALUES_PROCESSED ∧
    (update handshakeScript.collaborators
      (updates handshakeScript.collaborators 4 (powerUp engineWithThing))).eng._syncStatus =
        SYNC_STATUS_SYNCHRONIZED :=
  ⟨by decide, by decide,
    (((C27_values_processed_transient handshakeScript.collaborators
      (updates handshakeScript.collaborators 4 (powerUp engineWithThing))).1
        (by decide)).2.2 (by decide)).1⟩

/-- C26 at a concrete input: the engine bound to thing "T1", started in IDLE,
is in CONNECTING after the first connection tick. -/
theorem C26_reachable_connection_states_witness :
    (powerUp engineWithThing).eng._iot_status = IDLE ∧
    (cloudTicks handshakeScript.collaborators 1 (powerUp engineWithThing)).eng._iot_status =
      CONNECTING ∧
    Started (updates handshakeScript.collaborators 3 (powerUp engineWithThing)).eng._iot_status :=
  have h := C26_reachable_connection_states handshakeScript.collaborators
    (powerUp engineWithThing) (by decide)
  ⟨by decide, h.2.1, (h.2.2.1 2).2⟩

/-- C28 at a concrete input: with compile-time epoch 1600000000, a handler
time of 5 is rejected and the NTP time 1700000000 is returned; with no handler
the result is 0. -/
theorem C28_getTime_witness :
    ((TimeService.begin TimeService.ctor (handlerWithNtp 1700000000))._con_hdl =
        some (handlerWithNtp 1700000000) ∧
      (TimeService.ctor : TimeService Nat)._con_hdl = none) ∧
    (TimeService.getTime 1600000000
      (TimeService.begin TimeService.ctor (handlerWithNtp 1700000000))
      { world := 5, queries := [] }).1 = spec_getTime 1600000000 (some 5) 1700000000 ∧
    TimeService.getTime 1600000000 (TimeService.ctor : TimeService Nat)
      { world := 5, queries := [] } = (0, { world := 5, queries := [] }) :=
  ⟨⟨rfl, rfl⟩,
    ((C28_getTime 1600000000 (TimeService.begin TimeService.ctor (handlerWithNtp 1700000000))
      { world := 5, queries := [] }).2.1 (handlerWithNtp 1700000000) rfl).1,
    (C28_getTime 1600000000 (TimeService.ctor : TimeService Nat)
      { world := 5, queries := [] }).1 rfl⟩

/-! ## C11: the first tick that enters the sync switch -/

theorem checkCloudConnection_shadowTopic (c : Collaborators W) (s : Sys W) :
    (checkCloudConnection c s).2.eng._shadowTopicIn = s.eng._shadowTopicIn := by
  cases hs : s.eng._iot_status with
  | IDLE => rw [checkCloudConnection_resting c s (Or.inl hs)]
  | ERROR => rw [checkCloudConnection_resting c s (Or.inr (Or.inl hs))]
  | DISCONNECTED => rw [checkCloudConnection_resting c s (Or.inr (Or.inr hs))]
  | CONNECTED =>
    rw [checkCloudConnection_connected c s hs]
    split_ifs <;> rfl
  | CONNECTING =>
    rw [checkCloudConnection_connecting c s hs]
    split_ifs
    · show (connect c s).2.eng._shadowTopicIn = _
      rw [connect_eng]; split_ifs <;> rfl
    · show (connect c s).2.eng._shadowTopicIn = _
      rw [connect_eng]; split_ifs <;> rfl
  | RECONNECTING =>
    rw [checkCloudConnection_reconnecting c s hs]
    split_ifs
    · show (reconnect c s).2.eng._shadowTopicIn = _
      rw [reconnect_eng]; split_ifs <;> rfl
    · show (reconnect c s).2.eng._shadowTopicIn = _
      rw [reconnect_eng]; split_ifs <;> rfl

/-- A connection tick that is entered in another state than CONNECTED and
ends in CONNECTED has made a successful `connect`: with a shadow-in topic,
SyncState is WAIT_FOR_CLOUD_VALUES when it returns. -/
theorem checkCloudConnection_enters (c : Collaborators W) (s : Sys W)
    (hs : s.eng._iot_status ≠ CONNECTED)
    (hc : (checkCloudConnection c s).2.eng._iot_status = CONNECTED)
    (ht : s.eng._shadowTopicIn ≠ "") :
    (checkCloudConnection c s).2.eng._syncStatus = SYNC_STATUS_WAIT_FOR_CLOUD_VALUES := by
  cases hst : s.eng._iot_status with
  | IDLE =>
    rw [checkCloudConnection_resting c s (Or.inl hst)] at hc
    simp [hst] at hc
  | ERROR =>
    rw [checkCloudConnection_resting c s (Or.inr (Or.inl hst))] at hc
    simp [hst] at hc
  | DISCONNECTED =>
    rw [checkCloudConnection_resting c s (Or.inr (Or.inr hst))] at hc
    simp [hst] at hc
  | CONNECTED => exact absurd hst hs
  | CONNECTING =>
    rw [checkCloudConnection_connecting c s hst] at hc ⊢
    by_cases hok : (connect c s).1 = CONNECT_SUCCESS
    · rw [if_pos hok]
      show (connect c s).2.eng._syncStatus = _
      rw [connect_eng, if_pos ⟨hok, ht⟩]
    · rw [if_neg hok] at hc
      rw [connect_status, hst] at hc
      exact absurd hc (by decide)
  | RECONNECTING =>
    rw [checkCloudConnection_reconnecting c s hst] at hc ⊢
    by_cases hok : (reconnect c s).1 = CONNECT_SUCCESS
    · rw [if_pos hok]
      show (reconnect c s).2.eng._syncStatus = _
      rw [reconnect_eng, if_pos ⟨hok, ht⟩]
    · rw [if_neg hok] at hc
      rw [reconnect_status, hst] at hc
      exact absurd hc (by decide)

/-- A call of `update` that does not return in CONNECTED has returned from one
of the two connection checks: it makes no poll, enters no switch and leaves
SyncState and the shadow-in topic alone. -/
theorem update_offline (c : Collaborators W) (s : Sys W)
    (h : (update c s).eng._iot_status ≠ CONNECTED) :
    (update c s = (linkStage c s).2 ∨ update c s = tickEntry c s) ∧
    polls (update c s).log = polls s.log ∧
    (update c s).eng._syncStatus = s.eng._syncStatus ∧
    (update c s).eng._shadowTopicIn = s.eng._shadowTopicIn := by
  by_cases h1 : (linkStage c s).1 = NetworkConnectionState.CONNECTED
  · have hst := update_status c s
    rw [if_neg (fun hh => hh h1)] at hst
    have h2 : (tickEntry c s).eng._iot_status ≠ CONNECTED := by rw [← hst]; exact h
    have h2' : (checkCloudConnection c (linkStage c s).2).1 ≠ CONNECTED := by
      rw [checkCloudConnection_ret]; exact h2
    have hu : update c s = tickEntry c s := by
      rw [update_eq_stages]; simp [h1, h2', tickEntry]
    have hp := ((update_counts c s).2 (fun hh => h2 hh.2)).2.1
    obtain ⟨l1, -, l3, -⟩ := linkStage_sync c s
    have hk := (checkCloudConnection_sync_kept c (linkStage c s).2 (Or.inr h2)).1
    refine ⟨Or.inr hu, hp, ?_, ?_⟩
    · rw [hu]; show (checkCloudConnection c (linkStage c s).2).2.eng._syncStatus = _
      rw [hk, l1]
    · rw [hu]; show (checkCloudConnection c (linkStage c s).2).2.eng._shadowTopicIn = _
      rw [checkCloudConnection_shadowTopic, l3]
  · have hu := update_of_link_down c s h1
    have hp := ((update_counts c s).2 (fun hh => h1 hh.1)).2.1
    obtain ⟨l1, -, l3, -⟩ := linkStage_sync c s
    exact ⟨Or.inl hu, hp, by rw [hu, l1], by rw [hu, l3]⟩

/-- A call of `update` entered in another state than CONNECTED that returns in
CONNECTED has made its successful `connect` before its poll and its switch:
with a shadow-in topic, SyncState is WAIT_FOR_CLOUD_VALUES after the
connection checks, and the switch is entered in WAIT_FOR_CLOUD_VALUES or, when
the poll delivered the shadow, in VALUES_PROCESSED. -/
theorem update_first_session (c : Collaborators W) (s : Sys W)
    (hs : s.eng._iot_status ≠ CONNECTED)
    (hc : (update c s).eng._iot_status = CONNECTED)
    (ht : s.eng._shadowTopicIn ≠ "") :
    update c s = syncStage c (switchEntry c s) ∧
    (tickEntry c s).eng._syncStatus = SYNC_STATUS_WAIT_FOR_CLOUD_VALUES ∧
    ((switchEntry c s).eng._syncStatus = SYNC_STATUS_WAIT_FOR_CLOUD_VALUES ∨
      (switchEntry c s).eng._syncStatus = SYNC_STATUS_VALUES_PROCESSED) := by
  have hst := update_status c s
  rw [hc] at hst
  have h1 : (linkStage c s).1 = NetworkConnectionState.CONNECTED := by
    by_contra hh
    rw [if_pos hh] at hst
    exact absurd hst (by decide)
  have h2 : (tickEntry c s).eng._iot_status = CONNECTED := by
    rw [if_neg (fun hh => hh h1)] at hst
    exact hst.symm
  have h2' : (checkCloudConnection c (linkStage c s).2).1 = CONNECTED := by
    rw [checkCloudConnection_ret]; exact h2
  have hu : update c s = syncStage c (switchEntry c s) := by
    rw [update_eq_stages]; simp [h1, h2', switchEntry, tickEntry]
  obtain ⟨err, he⟩ := linkStage_up c s h1
  have hw : (tickEntry c s).eng._syncStatus = SYNC_STATUS_WAIT_FOR_CLOUD_VALUES := by
    apply checkCloudConnection_enters c (linkStage c s).2 _ h2
    · rw [he]; exact ht
    · rw [he]; exact hs
  refine ⟨hu, hw, ?_⟩
  obtain ⟨p, hp⟩ := (retransmitStage_frame c (tickEntry c s)).1
  have hr : (retransmitStage c (tickEntry c s)).eng._syncStatus =
      SYNC_STATUS_WAIT_FOR_CLOUD_VALUES := by rw [hp]; exact hw
  have h6 := (pollStage_handshake c (retransmitStage c (tickEntry c s))).2.2.2.2.2.1 hr
  unfold switchEntry
  rw [h6]
  split_ifs
  · exact Or.inr rfl
  · exact Or.inl rfl

/-- A run of ticks none of which returns in CONNECTED makes no poll, enters no
switch and leaves SyncState and the shadow-in topic as they were. -/
theorem updates_offline (c : Collaborators W) (s : Sys W) (n : Nat)
    (h : ∀ j, j ≤ n → (updates c j s).eng._iot_status ≠ CONNECTED) :
    polls (updates c n s).log = polls s.log ∧
    (updates c n s).eng._syncStatus = s.eng._syncStatus ∧
    (updates c n s).eng._shadowTopicIn = s.eng._shadowTopicIn := by
  induction n with
  | zero => exact ⟨rfl, rfl, rfl⟩
  | succ n ih =>
    obtain ⟨i1, i2, i3⟩ := ih (fun j hj => h j (Nat.le_succ_of_le hj))
    obtain ⟨-, u1, u2, u3⟩ := update_offline c (updates c n s) (h (n + 1) (Nat.le_refl _))
    exact ⟨by show polls (update c (updates c n s)).log = _; rw [u1, i1],
      by show (update c (updates c n s)).eng._syncStatus = _; rw [u2, i2],
      by show (update c (updates c n s)).eng._shadowTopicIn = _; rw [u3, i3]⟩

/-- C11, amended. After the constructor and a successful `begin`, SyncState is
SYNCHRONIZED whatever the thing-id is. With an empty thing-id the shadow-in
and shadow-out topics are empty, and `connect` leaves SyncState SYNCHRONIZED.
With a non-empty thing-id the shadow-in topic is not empty, and SyncState
becomes WAIT_FOR_CLOUD_VALUES when `connect` succeeds, which is before the
sync switch of any tick is entered: in a run of `update` from that state, the
ticks before the first one that returns in CONNECTED make no poll and enter no
switch, and that first tick has SyncState WAIT_FOR_CLOUD_VALUES after its
connection checks and enters its switch in WAIT_FOR_CLOUD_VALUES or, the
shadow having arrived in its poll, in VALUES_PROCESSED. -/
theorem C11_initial_sync_state (D T otaTopic address : String) (port size : Nat)
    (address0 : String) (port0 : Nat) :
    (ArduinoIoTCloudTCP.ctor size address0 port0)._syncStatus = SYNC_STATUS_SYNCHRONIZED ∧
    let r := ArduinoIoTCloudTCP.begin true D T otaTopic address port
      (ArduinoIoTCloudTCP.ctor size address0 port0)
    r.1 = 1 ∧ r.2._syncStatus = SYNC_STATUS_SYNCHRONIZED ∧ r.2._iot_status = IDLE ∧
    (T = "" → r.2._shadowTopicIn = "" ∧ r.2._shadowTopicOut = "" ∧
      ∀ (W : Type) (c : Collaborators W) (s : Sys W), s.eng = r.2 →
        (connect c s).2.eng._syncStatus = SYNC_STATUS_SYNCHRONIZED) ∧
    (T ≠ "" → r.2._shadowTopicIn ≠ "" ∧
      (∀ (W : Type) (c : Collaborators W) (s : Sys W), s.eng = r.2 →
        (connect c s).1 = CONNECT_SUCCESS →
        (connect c s).2.eng._syncStatus = SYNC_STATUS_WAIT_FOR_CLOUD_VALUES) ∧
      ∀ (W : Type) (c : Collaborators W) (s : Sys W) (n : Nat), s.eng = r.2 →
        (∀ j, j ≤ n → (updates c j s).eng._iot_status ≠ CONNECTED) →
        (polls (updates c n s).log = polls s.log ∧
          (∀ j, j < n →
            updates c (j + 1) s = (linkStage c (updates c j s)).2 ∨
            updates c (j + 1) s = tickEntry c (updates c j s))) ∧
        ((updates c (n + 1) s).eng._iot_status = CONNECTED →
          updates c (n + 1) s = syncStage c (switchEntry c (updates c n s)) ∧
          (tickEntry c (updates c n s)).eng._syncStatus =
            SYNC_STATUS_WAIT_FOR_CLOUD_VALUES ∧
          ((switchEntry c (updates c n s)).eng._syncStatus =
              SYNC_STATUS_WAIT_FOR_CLOUD_VALUES ∨
            (switchEntry c (updates c n s)).eng._syncStatus =
              SYNC_STATUS_VALUES_PROCESSED))) := by
  refine ⟨rfl, ?_⟩
  intro r
  refine ⟨rfl, rfl, rfl, fun hT => ?_, fun hT => ?_⟩
  · have h1 : r.2._shadowTopicIn = "" := by
      simp [r, ArduinoIoTCloudTCP.begin, getTopic_shadowin, hT]
    refine ⟨h1, by simp [r, ArduinoIoTCloudTCP.begin, getTopic_shadowout, hT], ?_⟩
    intro W c s hs
    rw [connect_eng, hs]
    simp [h1]
    rfl
  · have h1 : r.2._shadowTopicIn ≠ "" := by
      intro h
      have := congrArg String.data h
      simp [r, ArduinoIoTCloudTCP.begin, getTopic_shadowin, hT, String.data_append] at this
    refine ⟨h1, ?_, ?_⟩
    · intro W c s hs hok
      rw [connect_eng, hs]
      simp [hok, h1]
    · intro W c s n hs hoff
      obtain ⟨o1, -, o3⟩ := updates_offline c s n hoff
      refine ⟨⟨o1, ?_⟩, ?_⟩
      · intro j hj
        exact (update_offline c (updates c j s) (hoff (j + 1) hj)).1
      · intro hc
        apply update_first_session c (updates c n s) (hoff n (Nat.le_refl _)) hc
        rw [o3, hs]; exact h1

/-- C11, amended, at a concrete input: device "ABC" bound to thing "T1" in
the `handshakeScript` session returns in CONNECTED for the first time on
tick 2, and SyncState is WAIT_FOR_CLOUD_VALUES after the connection checks of
that tick, before its poll and its switch. -/
theorem C11_initial_sync_state_witness :
    ("T1" ≠ "" ∧
      (powerUp engineWithThing).eng =
        (ArduinoIoTCloudTCP.begin true "ABC" "T1" "/a/d/ABC/ota/i" "mqtts-sa.iot.arduino.cc"
          8883 (ArduinoIoTCloudTCP.ctor 256 "" 0)).2 ∧
      (∀ j, j ≤ 1 →
        (updates handshakeScript.collaborators j (powerUp engineWithThing)).eng._iot_status ≠
          CONNECTED) ∧
      (updates handshakeScript.collaborators 2 (powerUp engineWithThing)).eng._iot_status =
        CONNECTED) ∧
    (tickEntry handshakeScript.collaborators
      (updates handshakeScript.collaborators 1 (powerUp engineWithThing))).eng._syncStatus =
        SYNC_STATUS_WAIT_FOR_CLOUD_VALUES :=
  have hoff : ∀ j, j ≤ 1 →
      (updates handshakeScript.collaborators j (powerUp engineWithThing)).eng._iot_status ≠
        CONNECTED := by
    intro j hj
    interval_cases j <;> decide
  ⟨⟨by decide, rfl, hoff, by decide⟩,
    ((((C11_initial_sync_state "ABC" "T1" "/a/d/ABC/ota/i" "mqtts-sa.iot.arduino.cc" 8883 256
      "" 0).2.2.2.2.2 (by decide)).2.2 Nat handshakeScript.collaborators
        (powerUp engineWithThing) 1 rfl hoff).2 (by decide)).2.1⟩

end ArduinoIoTCloud
